import Mathlib

/-!
# AP_VideoTX: settings reconciliation and power table

A shallow embedding of `libraries/AP_VideoTX/AP_VideoTX.{h,cpp}`.

Conventions of the embedding:

* `uint8_t` / `uint16_t` values are `Nat`, `int8_t` / `int16_t` values are `Int`;
  the conversions C++ performs implicitly are the explicit functions `uint8_t`,
  `uint16_t`, `int8_t`, `int16_t` below (reduction modulo `2^w`).
* An `AP_Int8` / `AP_Int16` parameter is its stored value together with what the
  parameter store answers to `configured()`.  The store itself is not part of
  `AP_VideoTX`; `set`, `set_and_save` and `set_and_save_ifchanged` are modelled by
  their effect on the value, and the `configured` answer is carried along unchanged.
* C arrays are lists; a read `a[i]` is `a.getD i d`.  A read outside the array is
  undefined in C++ and yields the filler `d` here; where a band or channel indexes the
  channel table the properties below carry its range as a hypothesis.
* Functions returning `bool` with reference out-parameters return an `Option`.
* Text sent to the ground station and `debug` output are not modelled, except the
  warning of the D1 case of `init()`, which `init_D1_warned` records.
* `hal.util->get_soft_armed()` and "CRSF telemetry is compiled in and running"
  (`HAL_CRSF_TELEM_ENABLED` and `AP::crsf_telem() != nullptr`) are inputs of the
  functions that consult them.
-/

/-! ## Machine integers -/

/-- Conversion to `uint8_t`. -/
def uint8_t (v : Int) : Nat := (v % 256).toNat

/-- Conversion to `uint16_t`. -/
def uint16_t (v : Int) : Nat := (v % 65536).toNat

/-- Conversion to `int8_t` (two's complement). -/
def int8_t (v : Int) : Int := (v + 128) % 256 - 128

/-- Conversion to `int16_t` (two's complement). -/
def int16_t (v : Int) : Int := (v + 32768) % 65536 - 32768

/-! ## Parameters (`AP_Param`) -/

/-- An `AP_Int8` parameter: the value and the store's `configured()` answer. -/
structure AP_Int8 where
  _value : Int
  configured : Bool
deriving DecidableEq, Repr

/-- An `AP_Int16` parameter: the value and the store's `configured()` answer. -/
structure AP_Int16 where
  _value : Int
  configured : Bool
deriving DecidableEq, Repr

namespace AP_Int8

/-- Read the value: `get()` and the implicit conversion to `int8_t`. -/
def get (p : AP_Int8) : Int := p._value

/-- Store a value: `set(v)`. -/
def set (p : AP_Int8) (v : Int) : AP_Int8 := { p with _value := int8_t v }

/-- Store and persist a value: `set_and_save(v)`. -/
def set_and_save (p : AP_Int8) (v : Int) : AP_Int8 := p.set v

/-- Store and persist only on change: `set_and_save_ifchanged(v)`. -/
def set_and_save_ifchanged (p : AP_Int8) (v : Int) : AP_Int8 :=
  if int8_t v = p._value then p else p.set_and_save v

end AP_Int8

namespace AP_Int16

/-- Read the value: `get()` and the implicit conversion to `int16_t`. -/
def get (p : AP_Int16) : Int := p._value

/-- Store a value: `set(v)`. -/
def set (p : AP_Int16) (v : Int) : AP_Int16 := { p with _value := int16_t v }

/-- Store and persist a value: `set_and_save(v)`. -/
def set_and_save (p : AP_Int16) (v : Int) : AP_Int16 := p.set v

/-- Store and persist only on change: `set_and_save_ifchanged(v)`. -/
def set_and_save_ifchanged (p : AP_Int16) (v : Int) : AP_Int16 :=
  if int16_t v = p._value then p else p.set_and_save v

end AP_Int16

/-! ## Loops -/

/-- The loop `for (i = start; i < start + n; i++) { if (body i yields r) return r; }`:
the result of the first iteration that returns, `none` when the loop runs to its end. -/
def for_return {α : Type} (body : Nat → Option α) : Nat → Nat → Option α
  | 0, _ => none
  | n + 1, i =>
    match body i with
    | some r => some r
    | none => for_return body n (i + 1)

/-- The loop `for (i = start; i < start + n && guard i; i++) { if (body i yields r) return r; }`:
it also ends, without a result, at the first `i` whose guard fails. -/
def for_while_return {α : Type} (guard : Nat → Bool) (body : Nat → Option α) :
    Nat → Nat → Option α
  | 0, _ => none
  | n + 1, i =>
    if guard i then
      match body i with
      | some r => some r
      | none => for_while_return guard body n (i + 1)
    else none

/-- The loop `for (i = start; i < start + n && guard i; i++) { if (body i yields r) return r; }`
when the code after the loop goes on with the index the loop stopped at: the returned
value, or that index. -/
def for_while_exit {α : Type} (guard : Nat → Bool) (body : Nat → Option α) :
    Nat → Nat → α ⊕ Nat
  | 0, i => .inr i
  | n + 1, i =>
    if guard i then
      match body i with
      | some r => .inl r
      | none => for_while_exit guard body n (i + 1)
    else .inr i

/-- The loop `for (i = start; i < start + n; i++) { s = body i s; }` over a state. -/
def for_loop {σ : Type} (body : Nat → σ → σ) : Nat → Nat → σ → σ
  | 0, _, s => s
  | n + 1, i, s => for_loop body n (i + 1) (body i s)

/-- The loop `for (i = start; i < start + n && guard i s; i++) { s = body i s; }` over a
state. -/
def for_while {σ : Type} (guard : Nat → σ → Bool) (body : Nat → σ → σ) : Nat → Nat → σ → σ
  | 0, _, s => s
  | n + 1, i, s => if guard i s then for_while guard body n (i + 1) (body i s) else s

/-! ## Constants and tables -/

/-- Channels per band: `VTX_MAX_CHANNELS`. -/
def VTX_MAX_CHANNELS : Nat := 8

/-- Capacity of the power table: `VTX_MAX_POWER_LEVELS`. -/
def VTX_MAX_POWER_LEVELS : Nat := 19

/-- Capacity of the power value table: `VTX_MAX_ADJUSTABLE_POWER_LEVELS`. -/
def VTX_MAX_ADJUSTABLE_POWER_LEVELS : Nat := 6

namespace AP_VideoTX

/-- Number of bands: the enumerator `VideoBand::MAX_BANDS`. -/
def MAX_BANDS : Nat := 16

/-- The option bits of `enum class VideoOptions`. -/
def VTX_PITMODE : Nat := 1 <<< 0
/-- Option bit 1. -/
def VTX_PITMODE_UNTIL_ARM : Nat := 1 <<< 1
/-- Option bit 2. -/
def VTX_PITMODE_ON_DISARM : Nat := 1 <<< 2
/-- Option bit 3. -/
def VTX_UNLOCKED : Nat := 1 <<< 3
/-- Option bit 4. -/
def VTX_PULLDOWN : Nat := 1 <<< 4
/-- Option bit 5. -/
def VTX_SA_ONE_STOP_BIT : Nat := 1 <<< 5
/-- Option bit 6. -/
def VTX_SA_IGNORE_CRC : Nat := 1 <<< 6
/-- Option bit 7. -/
def VTX_CRSF_IGNORE_STAT : Nat := 1 <<< 7

/-- The activity of a power level: `enum class PowerActive`. -/
inductive PowerActive where
  | Unknown
  | Active
  | Inactive
deriving DecidableEq, Repr

/-- A power table entry: `struct PowerLevel`. -/
structure PowerLevel where
  level : Nat
  mw : Nat
  dbm : Nat
  dac : Nat
  active : PowerActive
deriving DecidableEq, Repr

/-- A custom power value: `struct PowerValue`. -/
structure PowerValue where
  val : Nat
  mw : Nat
deriving DecidableEq, Repr

/-- The channel table `VIDEO_CHANNELS[MAX_BANDS][VTX_MAX_CHANNELS]`. -/
def VIDEO_CHANNELS : List (List Nat) :=
  [ [5865, 5845, 5825, 5805, 5785, 5765, 5745, 5725],
    [5733, 5752, 5771, 5790, 5809, 5828, 5847, 5866],
    [5705, 5685, 5665, 5645, 5885, 5905, 5925, 5945],
    [5740, 5760, 5780, 5800, 5820, 5840, 5860, 5880],
    [5658, 5695, 5732, 5769, 5806, 5843, 5880, 5917],
    [5362, 5399, 5436, 5473, 5510, 5547, 5584, 5621],
    [5129, 5159, 5189, 5219, 5249, 5279, 5309, 5339],
    [4900, 4940, 4921, 4958, 4995, 5032, 5069, 5099],
    [4990, 5020, 5050, 5080, 5110, 5140, 5170, 5200],
    [3330, 3350, 3370, 3390, 3410, 3430, 3450, 3470],
    [3170, 3190, 3210, 3230, 3250, 3270, 3290, 3310],
    [5653, 5693, 5733, 5773, 5813, 5853, 5893, 5933],
    [5333, 5373, 5413, 5453, 5493, 5533, 5573, 5613],
    [5325, 5348, 5366, 5384, 5402, 5420, 5438, 5456],
    [5474, 5492, 5510, 5528, 5546, 5564, 5582, 5600],
    [6080, 6100, 5362, 5658, 5945, 6002, 6028, 6054] ]

/-- The forward lookup `get_frequency_mhz(band, channel)`:
`VIDEO_CHANNELS[band][channel]`. -/
def get_frequency_mhz (band channel : Nat) : Nat :=
  (VIDEO_CHANNELS.getD band []).getD channel 0

/-- The reverse search `get_band_and_channel(freq, band, channel)`: `some (band, channel)`
when the function returns true with these out-parameters, `none` when it returns false. -/
def get_band_and_channel (freq : Nat) : Option (Nat × Nat) :=
  for_return (fun i =>
    for_return (fun j =>
      if get_frequency_mhz i j = freq then some (i, j) else none)
      VTX_MAX_CHANNELS 0)
    MAX_BANDS 0

/-- Row-major order of the scan: the cell `(b', c')` is visited before the cell `(b, c)`. -/
def cell_before (b' c' b c : Nat) : Prop := b' < b ∨ (b' = b ∧ c' < c)

instance (b' c' b c : Nat) : Decidable (cell_before b' c' b c) := by
  unfold cell_before
  infer_instance

/-- The initial contents of the static power table `_power_levels`.  An entry written
without its last member has `active` value-initialised, which is `Unknown`. -/
def default_power_levels : List PowerLevel :=
  [ ⟨0xFF, 0, 0, 0, .Unknown⟩,
    ⟨0, 25, 14, 7, .Unknown⟩,
    ⟨0x11, 100, 20, 0xFF, .Unknown⟩,
    ⟨1, 200, 23, 16, .Unknown⟩,
    ⟨0x12, 400, 26, 0xFF, .Unknown⟩,
    ⟨2, 500, 27, 25, .Unknown⟩,
    ⟨0x12, 600, 28, 0xFF, .Unknown⟩,
    ⟨3, 800, 29, 40, .Unknown⟩,
    ⟨0x13, 1000, 30, 0xFF, .Unknown⟩,
    ⟨0x14, 1200, 31, 0xFF, .Unknown⟩,
    ⟨0x15, 1600, 32, 0xFF, .Unknown⟩,
    ⟨0x16, 2000, 33, 0xFF, .Unknown⟩,
    ⟨0x17, 2500, 34, 0xFF, .Unknown⟩,
    ⟨0x18, 3000, 35, 0xFF, .Unknown⟩,
    ⟨0x19, 4000, 36, 0xFF, .Unknown⟩,
    ⟨0x1A, 5000, 37, 0xFF, .Unknown⟩,
    ⟨0x1B, 7500, 39, 0xFF, .Unknown⟩,
    ⟨0x1C, 10000, 40, 0xFF, .Unknown⟩,
    ⟨0xFF, 0, 0, 0xFF, .Inactive⟩ ]

end AP_VideoTX

/-! ## The settings core -/

/-- The data members of `class AP_VideoTX`, with the static power table
`_power_levels` carried in the state. -/
structure AP_VideoTX where
  _frequency_mhz : AP_Int16
  _current_frequency : Nat
  _power_mw : AP_Int16
  _current_power : Nat
  _max_power_mw : AP_Int16
  _band : AP_Int8
  _current_band : Nat
  _channel : AP_Int8
  _current_channel : Nat
  _options : AP_Int16
  _current_options : Nat
  _enabled : AP_Int8
  _current_enabled : Bool
  _preset : List AP_Int16
  _model : AP_Int8
  _num_active_levels : AP_Int8
  _cvals : List AP_Int16
  _cmws : List AP_Int16
  _initialized : Bool
  _defaults_set : Bool
  _configuration_finished : Bool
  _types : Nat
  _power_levels : List AP_VideoTX.PowerLevel
  _power_vals : List AP_VideoTX.PowerValue
deriving DecidableEq, Repr

namespace AP_VideoTX

/-- The read `_power_levels[i]`. -/
def power_level (s : AP_VideoTX) (i : Nat) : PowerLevel :=
  s._power_levels.getD i ⟨0, 0, 0, 0, .Unknown⟩

/-- The header's `set_configured_frequency_mhz(freq)`. -/
def set_configured_frequency_mhz (s : AP_VideoTX) (freq : Nat) : AP_VideoTX :=
  { s with _frequency_mhz := s._frequency_mhz.set_and_save_ifchanged freq }

/-- The header's `get_configured_frequency_mhz()`, a `uint16_t`. -/
def get_configured_frequency_mhz (s : AP_VideoTX) : Nat := uint16_t s._frequency_mhz.get

/-- The header's `update_frequency()`; both sides are promoted to `int`. -/
def update_frequency (s : AP_VideoTX) : Bool :=
  s._defaults_set && s._frequency_mhz.get != (s._current_frequency : Int)

/-- The header's `get_power_mw()`. -/
def get_power_mw (s : AP_VideoTX) : Nat := (s.power_level s._current_power).mw

/-- The header's `get_configured_band()`, a `uint8_t`. -/
def get_configured_band (s : AP_VideoTX) : Nat := uint8_t s._band.get

/-- The header's `update_band()`. -/
def update_band (s : AP_VideoTX) : Bool :=
  s._defaults_set && s._band.get != (s._current_band : Int)

/-- The header's `get_configured_channel()`, a `uint8_t`. -/
def get_configured_channel (s : AP_VideoTX) : Nat := uint8_t s._channel.get

/-- The header's `update_channel()`. -/
def update_channel (s : AP_VideoTX) : Bool :=
  s._defaults_set && s._channel.get != (s._current_channel : Int)

/-- The header's `get_configured_options()`, a `uint16_t`. -/
def get_configured_options (s : AP_VideoTX) : Nat := uint16_t s._options.get

/-- The header's `has_option(option)`: `_options.get() & uint16_t(option)` as a `bool`.
The masks are below `2^16`, so the AND of the promoted `int` with the mask is the AND
of the 16-bit pattern of `_options` with the mask. -/
def has_option (s : AP_VideoTX) (option : Nat) : Bool :=
  (uint16_t s._options.get &&& option) != 0

/-- The header's `get_pitmode()`: the pitmode bit of the current options. -/
def get_pitmode (s : AP_VideoTX) : Bool :=
  (s._current_options &&& VTX_PITMODE) != 0

/-- The private `find_current_power()`.  The first `return` converts
`_current_power` to `uint8_t`, which changes nothing below `VTX_MAX_POWER_LEVELS`. -/
def find_current_power (s : AP_VideoTX) : Nat :=
  if s._current_power < VTX_MAX_POWER_LEVELS
      ∧ s._power_mw.get = ((s.power_level s._current_power).mw : Int) then
    s._current_power
  else
    match for_return (fun i =>
        if s._power_mw.get = ((s.power_level i).mw : Int) then some i else none)
        VTX_MAX_POWER_LEVELS 0 with
    | some i => i
    | none => 0

/-- The periodic `update()`; `armed` is `hal.util->get_soft_armed()`.
`~uint8_t(VTX_PITMODE)` is the `int` with every bit but bit 0 set, so on the 16-bit
pattern of `_options` the AND is the AND with `0xFFFE`. -/
def update (s : AP_VideoTX) (armed : Bool) : AP_VideoTX :=
  if s._enabled.get = 0 then s
  else
    let s1 :=
      if s.has_option VTX_PITMODE_ON_DISARM || s.has_option VTX_PITMODE_UNTIL_ARM then
        if armed && s.has_option VTX_PITMODE then
          { s with _options :=
              s._options.set ((uint16_t s._options.get &&& (0xFFFF - VTX_PITMODE) : Nat) : Int) }
        else if !armed && !s.has_option VTX_PITMODE
            && s.has_option VTX_PITMODE_ON_DISARM then
          { s with _options :=
              s._options.set ((uint16_t s._options.get ||| VTX_PITMODE : Nat) : Int) }
        else s
      else s
    if s1._power_mw.get ≠ (s1.get_power_mw : Int) then
      if (s1.power_level s1.find_current_power).active = PowerActive.Inactive then
        { s1 with _power_mw := s1._power_mw.set_and_save (s1.get_power_mw : Int) }
      else s1
    else s1

/-- The diff query `update_options()`; `crsf` says that CRSF telemetry is compiled in
and `AP::crsf_telem()` is not null. -/
def update_options (s : AP_VideoTX) (crsf : Bool) : Bool :=
  if !s._defaults_set then false
  else if (uint16_t s._options.get &&& VTX_PITMODE) ≠ (s._current_options &&& VTX_PITMODE) then
    true
  else if crsf then false
  else if (uint16_t s._options.get &&& VTX_UNLOCKED) ≠ 0
      ∧ (s._current_options &&& VTX_UNLOCKED) = 0 then
    true
  else false

/-- The diff query `update_power()`. -/
def update_power (s : AP_VideoTX) : Bool :=
  if !s._defaults_set || s._power_mw.get == (s.get_power_mw : Int) || s.get_pitmode then
    false
  else
    match for_while_return
        (fun i => decide (s._power_mw.get ≥ ((s.power_level i).mw : Int)))
        (fun i =>
          if s._power_mw.get = ((s.power_level i).mw : Int)
              ∧ (s.power_level i).active ≠ PowerActive.Inactive then some true else none)
        VTX_MAX_POWER_LEVELS 0 with
    | some r => r
    | none => false

/-- The query `have_params_changed()`. -/
def have_params_changed (s : AP_VideoTX) (crsf : Bool) : Bool :=
  s._enabled.get != 0
    && (s.update_power
      || s.update_band
      || s.update_channel
      || s.update_frequency
      || s.update_options crsf)

/-- The reconciler `update_configured_frequency()`. -/
def update_configured_frequency (s : AP_VideoTX) : AP_VideoTX :=
  let freq := get_frequency_mhz (uint8_t s._band.get) (uint8_t s._channel.get)
  { s with _frequency_mhz := s._frequency_mhz.set_and_save (freq : Nat) }

/-- The reconciler `update_configured_channel_and_band()`. -/
def update_configured_channel_and_band (s : AP_VideoTX) : AP_VideoTX :=
  match get_band_and_channel (uint16_t s._frequency_mhz.get) with
  | some (band, channel) =>
    let s1 := { s with _band := s._band.set_and_save (band : Nat) }
    { s1 with _channel := s1._channel.set_and_save (channel : Nat) }
  | none => s.update_configured_frequency

/-- The reconciliation `set_defaults()`: the new state and the returned `bool`. -/
def set_defaults (s : AP_VideoTX) : AP_VideoTX × Bool :=
  if s._defaults_set then (s, false)
  else
    let calced_freq := get_frequency_mhz (uint8_t (s._current_band : Nat)) s._current_channel
    let s1 :=
      if s._current_frequency ≠ calced_freq then
        if s._current_frequency > 0 then
          match get_band_and_channel s._current_frequency with
          | some (band, channel) =>
            { s with _current_band := band, _current_channel := channel }
          | none => { s with _current_frequency := calced_freq }
        else { s with _current_frequency := calced_freq }
      else s
    let s2 :=
      if !s1._options.configured then
        { s1 with _options := s1._options.set_and_save (s1._current_options : Nat) }
      else s1
    let s3 :=
      if !s2._channel.configured then
        { s2 with _channel := s2._channel.set_and_save (s2._current_channel : Nat) }
      else s2
    let s4 :=
      if !s3._band.configured then
        { s3 with _band := s3._band.set_and_save (s3._current_band : Nat) }
      else s3
    let s5 :=
      if !s4._power_mw.configured then
        { s4 with _power_mw := s4._power_mw.set_and_save (s4.get_power_mw : Nat) }
      else s4
    let s6 :=
      if !s5._frequency_mhz.configured then
        { s5 with _frequency_mhz := s5._frequency_mhz.set_and_save (s5._current_frequency : Nat) }
      else s5
    let s7 :=
      if s6._frequency_mhz.get
          ≠ (get_frequency_mhz (uint8_t s6._band.get) (uint8_t s6._channel.get) : Nat) then
        if s6._frequency_mhz.get > 0 then s6.update_configured_channel_and_band
        else s6.update_configured_frequency
      else s6
    ({ s7 with _defaults_set := true }, true)

/-! ## Power table learning

The milliwatt value `uint16_t(roundf(powf(10, power * 0.1f)))` that `update_power_dbm`
stores in the reserved slot is computed in floating point; the functions that reach it
take it as the parameter `mw_of_dbm`, and the properties hold for every such function. -/

/-- The read `_power_vals[i]`. -/
def power_val (s : AP_VideoTX) (i : Nat) : PowerValue :=
  s._power_vals.getD i ⟨0, 0⟩

/-- The write `_power_levels[i] = f(_power_levels[i])` of some members of one entry. -/
def write_level (s : AP_VideoTX) (i : Nat) (f : PowerLevel → PowerLevel) : AP_VideoTX :=
  { s with _power_levels := s._power_levels.set i (f (s.power_level i)) }

/-- The write `_power_levels[i].active = active`. -/
def write_active (s : AP_VideoTX) (i : Nat) (active : PowerActive) : AP_VideoTX :=
  s.write_level i (fun l => { l with active := active })

/-- The learner `update_power_dbm(power, active)`: the new state and the returned index. -/
def update_power_dbm (mw_of_dbm : Nat → Nat) (s : AP_VideoTX) (power : Nat)
    (active : PowerActive) : AP_VideoTX × Nat :=
  match for_while_return
      (fun i => decide (power ≤ (s.power_level i).dbm))
      (fun i => if power = (s.power_level i).dbm then some i else none)
      VTX_MAX_POWER_LEVELS 0 with
  | some i =>
    (if (s.power_level i).active ≠ active then s.write_active i active else s, i)
  | none =>
    (s.write_level (VTX_MAX_POWER_LEVELS - 1)
        (fun _ => ⟨255, mw_of_dbm power, power, 255, active⟩),
      VTX_MAX_POWER_LEVELS - 1)

/-- The body of the loop of `set_power_dbm` at the entry `i` whose dbm is the one asked
for, up to its `return`. -/
def set_power_dbm_found (s : AP_VideoTX) (i : Nat) (active : PowerActive) : AP_VideoTX :=
  let s1 := { s with _current_power := i }
  let s2 := s1.write_active i active
  let s3 :=
    if (s2.power_level i).level &&& 0xF0 = 0x10 then
      s2.write_level i (fun l => { l with level := l.level &&& 0xF })
    else s2
  if i > 0 ∧ (s3.power_level (i - 1)).level = (s3.power_level i).level then
    s3.write_level (i - 1) (fun l => { l with level := 0xFF, active := .Inactive })
  else if i < VTX_MAX_POWER_LEVELS - 1
      ∧ (s3.power_level (i + 1)).level = (s3.power_level i).level then
    s3.write_level (i + 1) (fun l => { l with level := 0xFF, active := .Inactive })
  else s3

/-- The learner `set_power_dbm(power, active)`. -/
def set_power_dbm (mw_of_dbm : Nat → Nat) (s : AP_VideoTX) (power : Nat)
    (active : PowerActive) : AP_VideoTX :=
  if power = (s.power_level s._current_power).dbm
      ∧ (s.power_level s._current_power).active = active then s
  else
    match for_return (fun i => if power = (s.power_level i).dbm then some i else none)
        VTX_MAX_POWER_LEVELS 0 with
    | some i => s.set_power_dbm_found i active
    | none =>
      let r := update_power_dbm mw_of_dbm s power active
      { r.1 with _current_power := r.2 }

/-- The learner `update_all_power_dbm(nlevels, power)`; the list is the array
`power[0 .. nlevels-1]`. -/
def update_all_power_dbm (mw_of_dbm : Nat → Nat) (s : AP_VideoTX) (power : List Nat) :
    AP_VideoTX :=
  let s1 := power.foldl (fun t p => (update_power_dbm mw_of_dbm t p .Active).1) s
  for_loop (fun i t =>
      if (t.power_level i).active = .Unknown then t.write_active i .Inactive else t)
    VTX_MAX_POWER_LEVELS 0 s1

/-- The learner `set_power_mw(power)`. -/
def set_power_mw (s : AP_VideoTX) (power : Nat) : AP_VideoTX :=
  match for_while_return
      (fun i => decide (power ≥ (s.power_level i).mw))
      (fun i => if power = (s.power_level i).mw then some i else none)
      VTX_MAX_POWER_LEVELS 0 with
  | some i => { s with _current_power := i }
  | none => s

/-- The learner `set_power_level(level, active)`. -/
def set_power_level (s : AP_VideoTX) (level : Nat) (active : PowerActive) : AP_VideoTX :=
  if level = (s.power_level s._current_power).level
      ∧ (s.power_level s._current_power).active = active then s
  else
    match for_return (fun i => if level = (s.power_level i).level then some i else none)
        VTX_MAX_POWER_LEVELS 0 with
    | some i => ({ s with _current_power := i } : AP_VideoTX).write_active i active
    | none => s

/-- The learner `set_power_dac(power, active)`; its loop has no `break`. -/
def set_power_dac (s : AP_VideoTX) (power : Nat) (active : PowerActive) : AP_VideoTX :=
  if power = (s.power_level s._current_power).dac
      ∧ (s.power_level s._current_power).active = active then s
  else
    for_loop (fun i t =>
        if power = (t.power_level i).dac then
          ({ t with _current_power := i } : AP_VideoTX).write_active i active
        else t)
      VTX_MAX_POWER_LEVELS 0 s

/-- The validation `validate_cpowlevs()`; its counter `custom_levels_validated` is never
read. -/
def validate_cpowlevs (s : AP_VideoTX) : AP_VideoTX :=
  for_loop (fun i t =>
      let t1 := t.write_active i .Inactive
      match for_return
          (fun j => if (t1.power_val j).mw = (t1.power_level i).mw then some j else none)
          VTX_MAX_ADJUSTABLE_POWER_LEVELS 0 with
      | some _ => t1.write_active i .Active
      | none => t1)
    VTX_MAX_POWER_LEVELS 0 s

/-- The lambda `cmw` of `set_power_val`: the mW of a power value, of a neighbouring slot
when no slot holds the value.  The subtractions are done in `int`. -/
def cmw (s : AP_VideoTX) (val : Nat) : Nat :=
  match for_while_exit
      (fun i => decide ((s.power_val i).val ≤ val))
      (fun i => if val = (s.power_val i).val then some (s.power_val i).mw else none)
      VTX_MAX_ADJUSTABLE_POWER_LEVELS 0 with
  | .inl mw => mw
  | .inr i =>
    if i > 0 ∧ ((s.power_val i).mw : Int) - (val : Int)
        > (val : Int) - ((s.power_val (i - 1)).mw : Int) then
      (s.power_val (i - 1)).mw
    else (s.power_val i).mw

/-- The learner `set_power_val(power, active)`; its outer loop has no `break`. -/
def set_power_val (s : AP_VideoTX) (power : Nat) (active : PowerActive) : AP_VideoTX :=
  if s.cmw power = (s.power_level s._current_power).mw
      ∧ (s.power_level s._current_power).active = active then s
  else
    for_loop (fun i t =>
        if (t.power_val i).val = power then
          match for_return
              (fun j => if (t.power_val i).mw = (t.power_level j).mw then some j else none)
              VTX_MAX_POWER_LEVELS 0 with
          | some j => ({ t with _current_power := j } : AP_VideoTX).write_active j active
          | none => t
        else t)
      VTX_MAX_ADJUSTABLE_POWER_LEVELS 0 s

/-! ## Initialisation and the power switch -/

/-- The enumerators of `enum class Model`. -/
def Model_GENERIC : Nat := 0
/-- Model D1. -/
def Model_D1 : Nat := 1
/-- Model FXR10. -/
def Model_FXR10 : Nat := 2
/-- Model CUSTOM. -/
def Model_CUSTOM : Nat := 9

/-- The header's `model()`: the model parameter converted to `uint8_t`. -/
def model (s : AP_VideoTX) : Nat := uint8_t s._model.get

/-- The write `_power_vals[i] = v`. -/
def write_power_val (s : AP_VideoTX) (i : Nat) (v : PowerValue) : AP_VideoTX :=
  { s with _power_vals := s._power_vals.set i v }

/-- The array `mws` of the D1 case of `init()`. -/
def D1_mws : List Nat := [25, 500, 1000, 2500]

/-- The initializer list `pws` of the FXR10 case of `init()`. -/
def FXR10_pws : List PowerValue := [⟨25, 500⟩, ⟨100, 2500⟩, ⟨200, 5000⟩, ⟨400, 7500⟩, ⟨600, 10000⟩]

/-- The D1 case of `init()`.  The loop state is the index `j` into `mws` and the object;
the warning sent when an entry exceeds the expected value is left to `init_D1_warned`. -/
def init_D1 (s : AP_VideoTX) : AP_VideoTX :=
  let s1 := { s with _max_power_mw := s._max_power_mw.set_and_save 2500 }
  let s2 := { s1 with _num_active_levels := s1._num_active_levels.set_and_save D1_mws.length }
  (for_while
    (fun _ (js : Nat × AP_VideoTX) => decide (js.1 < VTX_MAX_POWER_LEVELS))
    (fun i (js : Nat × AP_VideoTX) =>
      if (js.1 : Int) ≥ js.2._num_active_levels.get
          ∨ (js.2.power_level i).mw < D1_mws.getD js.1 0 then
        (js.1, js.2.write_active i .Inactive)
      else if (js.2.power_level i).mw ≥ D1_mws.getD js.1 0 then (js.1 + 1, js.2)
      else js)
    VTX_MAX_POWER_LEVELS 0 (0, s2)).2

/-- The FXR10 case of `init()`; `std::copy` writes the slots 0 to 4 of `_power_vals`. -/
def init_FXR10 (s : AP_VideoTX) : AP_VideoTX :=
  let s1 := { s with _max_power_mw := s._max_power_mw.set_and_save 10000 }
  let s2 := for_loop (fun i t => t.write_power_val i (FXR10_pws.getD i ⟨0, 0⟩))
    FXR10_pws.length 0 s1
  let s3 := { s2 with _num_active_levels := s2._num_active_levels.set_and_save 5 }
  s3.validate_cpowlevs

/-- The CUSTOM case of `init()`; the loop runs while `i < _num_active_levels`. -/
def init_CUSTOM (s : AP_VideoTX) : AP_VideoTX :=
  let s1 := for_loop (fun i t =>
      t.write_power_val i
        ⟨uint16_t ((t._cvals.getD i ⟨0, false⟩).get), uint16_t ((t._cmws.getD i ⟨0, false⟩).get)⟩)
    s._num_active_levels.get.toNat 0 s
  s1.validate_cpowlevs

/-- The default case of `init()`: the loop `for (i = n; i > 0; --i)` that marks Inactive,
from the top of the table down, the entries above `_max_power_mw`, and stops at the
first entry that is not Inactive and not above it. -/
def init_cap : Nat → AP_VideoTX → AP_VideoTX
  | 0, s => s
  | i + 1, s =>
    if (s.power_level (i + 1)).active ≠ .Inactive then
      if ((s.power_level (i + 1)).mw : Int) > s._max_power_mw.get then
        init_cap i (s.write_active (i + 1) .Inactive)
      else s
    else init_cap i s

/-- The loop `while (_current_power < VTX_MAX_POWER_LEVELS && _power_mw >
_power_levels[_current_power].mw) ++_current_power;` of `init()`. -/
def init_power_index (s : AP_VideoTX) : Nat → Nat → Nat
  | 0, cp => cp
  | n + 1, cp =>
    if cp < VTX_MAX_POWER_LEVELS ∧ s._power_mw.get > ((s.power_level cp).mw : Int) then
      init_power_index s n (cp + 1)
    else cp

/-- The initialisation `init()`: the new state and the returned `bool`.  The parameter
width conversion of `_options` concerns the parameter store and is not modelled. -/
def init (s : AP_VideoTX) : AP_VideoTX × Bool :=
  if s._initialized then (s, false)
  else
    let s1 :=
      if s._num_active_levels.get ≥ VTX_MAX_ADJUSTABLE_POWER_LEVELS then
        { s with _num_active_levels :=
            s._num_active_levels.set_and_save VTX_MAX_ADJUSTABLE_POWER_LEVELS }
      else s
    let s2 :=
      if s1.model = Model_D1 then s1.init_D1
      else if s1.model = Model_FXR10 then s1.init_FXR10
      else if s1.model = Model_CUSTOM then s1.init_CUSTOM
      else init_cap (VTX_MAX_POWER_LEVELS - 1) s1
    let cp := init_power_index s2 VTX_MAX_POWER_LEVELS 0
    let cp1 :=
      if cp ≠ 0 ∧ s2._power_mw.get < ((s2.power_level cp).mw : Int) then cp - 1 else cp
    let s3 := { s2 with _current_power := cp1 }
    let s4 := { s3 with _power_mw := s3._power_mw.set_and_save (s3.get_power_mw : Nat) }
    ({ s4 with
        _current_band := uint16_t s4._band.get,
        _current_channel := uint8_t s4._channel.get,
        _current_frequency := uint16_t s4._frequency_mhz.get,
        _current_options := uint16_t s4._options.get,
        _current_enabled := decide (s4._enabled.get ≠ 0),
        _initialized := true }, true)

/-- The first step of `init()`: `_num_active_levels` is limited to
`VTX_MAX_ADJUSTABLE_POWER_LEVELS`. -/
def init_clamp (s : AP_VideoTX) : AP_VideoTX :=
  if s._num_active_levels.get ≥ VTX_MAX_ADJUSTABLE_POWER_LEVELS then
    { s with _num_active_levels :=
        s._num_active_levels.set_and_save VTX_MAX_ADJUSTABLE_POWER_LEVELS }
  else s

/-- The second step of `init()`: the `switch (model())`. -/
def init_switch (s : AP_VideoTX) : AP_VideoTX :=
  if s.model = Model_D1 then s.init_D1
  else if s.model = Model_FXR10 then s.init_FXR10
  else if s.model = Model_CUSTOM then s.init_CUSTOM
  else init_cap (VTX_MAX_POWER_LEVELS - 1) s

/-- The third step of `init()`: the index into the power table found for `_power_mw`. -/
def init_index (s : AP_VideoTX) : Nat :=
  let cp := init_power_index s VTX_MAX_POWER_LEVELS 0
  if cp ≠ 0 ∧ s._power_mw.get < ((s.power_level cp).mw : Int) then cp - 1 else cp

/-- The header's `set_configured_options(options)`; the argument is a `uint16_t`. -/
def set_configured_options (s : AP_VideoTX) (options : Nat) : AP_VideoTX :=
  { s with _options := s._options.set_and_save_ifchanged (options : Nat) }

/-- The setter `set_configured_power_mw(power)`. -/
def set_configured_power_mw (s : AP_VideoTX) (power : Nat) : AP_VideoTX :=
  { s with _power_mw := s._power_mw.set_and_save_ifchanged (power : Nat) }

/-- Modelled from the spec: `constrain_int16(amt, low, high)` of AP_Math, a macro that is
not in the sources at hand; the spec calls it `clamp`.  The value below `low` gives
`low`, above `high` gives `high`. -/
def constrain_int16 (amt low high : Int) : Int :=
  if int16_t amt < int16_t low then int16_t low
  else if int16_t amt > int16_t high then int16_t high
  else int16_t amt

/-- The C library's `roundf` on the quotient `a / n` of two integers with `n > 0`: the
nearest integer, halves away from zero. -/
def roundf_ratio (a n : Int) : Int :=
  if 0 ≤ a then (2 * a + n) / (2 * n) else -((2 * (-a) + n) / (2 * n))

/-- The first loop of `change_power`: the number of entries that are not Inactive and
not above `_max_power_mw`. -/
def count_power_levels (s : AP_VideoTX) : Nat :=
  for_loop (fun i n =>
      if (s.power_level i).active ≠ .Inactive
          ∧ ((s.power_level i).mw : Int) ≤ s._max_power_mw.get then n + 1 else n)
    VTX_MAX_POWER_LEVELS 0 0

/-- The inner loop `while (j < VTX_MAX_POWER_LEVELS-1 && _power_levels[j].active ==
PowerActive::Inactive) ++j;` of `change_power`; `j` rises with every step and the loop
ends at `VTX_MAX_POWER_LEVELS-1` at the latest, so `VTX_MAX_POWER_LEVELS-1` steps are
enough. -/
def skip_inactive (s : AP_VideoTX) : Nat → Nat → Nat
  | 0, j => j
  | n + 1, j =>
    if j < VTX_MAX_POWER_LEVELS - 1 ∧ (s.power_level j).active = .Inactive then
      skip_inactive s n (j + 1)
    else j

/-- The second loop of `change_power`, `for (i = 0, j = 0; i < num_active_levels; ++i,
++j)`: the power it assigns before its `break`, `none` when it ends without one. -/
def find_power_level (s : AP_VideoTX) (num_active_levels level : Nat) :
    Nat → Nat → Nat → Option Nat
  | 0, _, _ => none
  | n + 1, i, j =>
    if i < num_active_levels then
      let j1 := skip_inactive s (VTX_MAX_POWER_LEVELS - 1) j
      if i = level then some (s.power_level j1).mw
      else find_power_level s num_active_levels level n (i + 1) (j1 + 1)
    else none

/-- The end of `change_power`, from the announcement on: pitmode for a power of zero,
otherwise the PITMODE bit cleared and the power configured. -/
def change_power_set (s : AP_VideoTX) (power : Nat) : AP_VideoTX :=
  if power = 0 then
    s.set_configured_options (s.get_configured_options ||| VTX_PITMODE)
  else
    let s1 :=
      if s.has_option VTX_PITMODE then
        s.set_configured_options (s.get_configured_options &&& (0xFFFF - VTX_PITMODE))
      else s
    s1.set_configured_power_mw power

/-- The switch handler `change_power(position)`; `position` is an `int8_t`.  In
`roundf((num_active_levels * (position + 1) / float(_num_active_levels)) - 1)` the
operands are integers below `2^12`, so the float quotient is exact at the halves and off
by less than `2^-20` elsewhere, and `roundf` returns the rounding of the exact quotient
`(num_active_levels * (position + 1) - _num_active_levels) / _num_active_levels`. -/
def change_power (s : AP_VideoTX) (position : Int) : AP_VideoTX :=
  if s.model = Model_CUSTOM then
    if position ≥ VTX_MAX_ADJUSTABLE_POWER_LEVELS ∨ position < 0 then s
    else s.change_power_set (s.power_val position.toNat).mw
  else
    if s._enabled.get = 0 ∨ position < 0 ∨ position ≥ s._num_active_levels.get then s
    else
      let num_active_levels := s.count_power_levels
      let level := uint16_t (constrain_int16
        (roundf_ratio
          ((num_active_levels : Int) * (position + 1) - s._num_active_levels.get)
          s._num_active_levels.get)
        0 ((num_active_levels : Int) - 1))
      match find_power_level s num_active_levels level num_active_levels 0 0 with
      | some power => s.change_power_set power
      | none => s.change_power_set 0

/-! ## Sequences of power table operations -/

/-- A call of `init()` or of one of the operations that touch the power table. -/
inductive PowerOp where
  | init
  | set_power_mw (power : Nat)
  | set_power_level (level : Nat) (active : PowerActive)
  | set_power_dbm (power : Nat) (active : PowerActive)
  | update_power_dbm (power : Nat) (active : PowerActive)
  | update_all_power_dbm (power : List Nat)
  | set_power_dac (power : Nat) (active : PowerActive)
  | set_power_val (power : Nat) (active : PowerActive)
  | validate_cpowlevs
deriving DecidableEq, Repr

/-- The state after one call. -/
def apply_op (mw_of_dbm : Nat → Nat) (s : AP_VideoTX) : PowerOp → AP_VideoTX
  | .init => s.init.1
  | .set_power_mw power => s.set_power_mw power
  | .set_power_level level active => s.set_power_level level active
  | .set_power_dbm power active => s.set_power_dbm mw_of_dbm power active
  | .update_power_dbm power active => (s.update_power_dbm mw_of_dbm power active).1
  | .update_all_power_dbm power => s.update_all_power_dbm mw_of_dbm power
  | .set_power_dac power active => s.set_power_dac power active
  | .set_power_val power active => s.set_power_val power active
  | .validate_cpowlevs => s.validate_cpowlevs

/-- The state after a sequence of calls. -/
def run_ops (mw_of_dbm : Nat → Nat) (s : AP_VideoTX) (ops : List PowerOp) : AP_VideoTX :=
  ops.foldl (apply_op mw_of_dbm) s

/-- The state after a sequence of `set_power_dbm(power, active)` calls. -/
def run_set_power_dbm (mw_of_dbm : Nat → Nat) (s : AP_VideoTX)
    (calls : List (Nat × PowerActive)) : AP_VideoTX :=
  calls.foldl (fun t c => t.set_power_dbm mw_of_dbm c.1 c.2) s

/-- Bisection for the integer root: the greatest `r` in `[lo, hi)` with `r ^ 10 ≤ m`,
given `lo ^ 10 ≤ m < hi ^ 10`. -/
def iroot10 (m : Nat) : Nat → Nat → Nat → Nat
  | 0, lo, _ => lo
  | fuel + 1, lo, hi =>
    if hi ≤ lo + 1 then lo
    else if ((lo + hi) / 2) ^ 10 ≤ m then iroot10 m fuel ((lo + hi) / 2) hi
    else iroot10 m fuel lo ((lo + hi) / 2)

/-- Modelled from the spec: the conversion `uint16_t(roundf(powf(10, power * 0.1f)))` of
`update_power_dbm`, whose library functions `powf` and `roundf` are not in the sources at
hand; the spec gives `mw = round(10^(p/10))`.  The definition is the integer nearest to
`10 ^ (power / 10)`, reduced to 16 bits, and an instance of the parameter `mw_of_dbm`.  It
stands for the conversion for `power ≤ 48` only, the dBm values whose milliwatts fit in 16
bits: above them the conversion to `uint16_t` of a value it cannot hold is undefined in
C++, and no statement uses the definition there. -/
def dbm_to_mw (power : Nat) : Nat :=
  ((iroot10 (1024 * 10 ^ power) (4 * power + 10) 0 (2 * 10 ^ (power / 10 + 1)) + 1) / 2) % 65536

/-! ## Presets, accessors and the warnings of `init()` -/

/-- The header's `get_configured_power_mw()`, a `uint16_t`. -/
def get_configured_power_mw (s : AP_VideoTX) : Nat := uint16_t s._power_mw.get

/-- The header's `get_band()`: `_current_band` returned as a `uint8_t`. -/
def get_band (s : AP_VideoTX) : Nat := s._current_band % 256

/-- The header's `get_channel()`. -/
def get_channel (s : AP_VideoTX) : Nat := s._current_channel

/-- The check `band_valid(band)`; the error text it sends is not modelled. -/
def band_valid (band : Nat) : Bool :=
  if band ≥ MAX_BANDS then false else true

/-- The check `channel_valid(channel)`; the error text it sends is not modelled. -/
def channel_valid (channel : Nat) : Bool :=
  if channel ≥ 8 then false else true

/-- The header's `set_band(band)`; the argument is a `uint8_t`. -/
def set_band (s : AP_VideoTX) (band : Nat) : AP_VideoTX :=
  if band_valid band then { s with _current_band := band } else s

/-- The header's `set_channel(channel)`; the argument is a `uint8_t`. -/
def set_channel (s : AP_VideoTX) (channel : Nat) : AP_VideoTX :=
  if channel_valid channel then { s with _current_channel := channel } else s

/-- The switch handler `set_preset(preset_no)`; `sizeof(_preset) / sizeof(*_preset)` is
6.  The quotient and the remainder of the stored `int16_t` by 10 are taken in `int`, with
truncation towards zero, and converted to the `uint8_t` arguments. -/
def set_preset (s : AP_VideoTX) (preset_no : Nat) : AP_VideoTX :=
  if preset_no ≥ 6 then s
  else
    let s1 := s.set_band (uint8_t ((s._preset.getD preset_no ⟨0, false⟩).get.tdiv 10))
    s1.set_channel (uint8_t ((s1._preset.getD preset_no ⟨0, false⟩).get.tmod 10))

/-- The D1 case of `init()` together with the warnings it sends: the loop state is the
index `j` into `mws`, the object, and the values `mws[j]` reported so far by the warning
"VTX power list lacks predefined level". -/
def init_D1_warned (s : AP_VideoTX) : AP_VideoTX × List Nat :=
  let s1 := { s with _max_power_mw := s._max_power_mw.set_and_save 2500 }
  let s2 := { s1 with _num_active_levels := s1._num_active_levels.set_and_save D1_mws.length }
  (for_while
    (fun _ (js : Nat × AP_VideoTX × List Nat) => decide (js.1 < VTX_MAX_POWER_LEVELS))
    (fun i (js : Nat × AP_VideoTX × List Nat) =>
      if (js.1 : Int) ≥ js.2.1._num_active_levels.get
          ∨ (js.2.1.power_level i).mw < D1_mws.getD js.1 0 then
        (js.1, js.2.1.write_active i .Inactive, js.2.2)
      else if (js.2.1.power_level i).mw ≥ D1_mws.getD js.1 0 then
        (js.1 + 1, js.2.1,
          if (js.2.1.power_level i).mw > D1_mws.getD js.1 0 then
            js.2.2 ++ [D1_mws.getD js.1 0]
          else js.2.2)
      else js)
    VTX_MAX_POWER_LEVELS 0 (0, s2, [])).2

/-- The warnings "VTX power list lacks predefined level" that `init()` sends: the values
`mws[j]` they report, in order. -/
def init_warnings (s : AP_VideoTX) : List Nat :=
  if s._initialized then []
  else
    let s1 :=
      if s._num_active_levels.get ≥ VTX_MAX_ADJUSTABLE_POWER_LEVELS then
        { s with _num_active_levels :=
            s._num_active_levels.set_and_save VTX_MAX_ADJUSTABLE_POWER_LEVELS }
      else s
    if s1.model = Model_D1 then (init_D1_warned s1).2 else []

/-! ## The indices of array reads

The functions below repeat a search of the source together with the list of the indices
at which it reads its array, in the order of the reads. -/

/-- The loop `while (_current_power < VTX_MAX_POWER_LEVELS && _power_mw >
_power_levels[_current_power].mw) ++_current_power;` of `init()` with the indices at
which it reads `_power_levels`: the comparison is evaluated, and the table read, only
when `_current_power < VTX_MAX_POWER_LEVELS`. -/
def init_power_index_traced (s : AP_VideoTX) : Nat → Nat → List Nat → Nat × List Nat
  | 0, cp, reads => (cp, reads)
  | n + 1, cp, reads =>
    if cp < VTX_MAX_POWER_LEVELS then
      if s._power_mw.get > ((s.power_level cp).mw : Int) then
        init_power_index_traced s n (cp + 1) (reads ++ [cp])
      else (cp, reads ++ [cp])
    else (cp, reads)

/-- The search of `init()` for the index into the power table with the indices at which
it reads `_power_levels`: the loop, then `if (_current_power && _power_mw <
_power_levels[_current_power].mw) --_current_power;`, which reads the table when
`_current_power` is not zero, then `get_power_mw()`, which reads it at the index found. -/
def init_index_traced (s : AP_VideoTX) : Nat × List Nat :=
  let r := init_power_index_traced s VTX_MAX_POWER_LEVELS 0 []
  let r1 :=
    if r.1 ≠ 0 then
      (if s._power_mw.get < ((s.power_level r.1).mw : Int) then r.1 - 1 else r.1, r.2 ++ [r.1])
    else r
  (r1.1, r1.2 ++ [r1.1])

/-- The indices at which `init()` reads `_power_levels` while it looks for the current
power index and stores its mw. -/
def init_index_reads (s : AP_VideoTX) : List Nat :=
  if s._initialized then [] else (init_index_traced s.init_clamp.init_switch).2

/-- The loop of the lambda `cmw` of `set_power_val` with the indices at which it reads
`_power_vals`: the value returned from inside the loop, or the index the loop stopped
at. -/
def cmw_scan_traced (s : AP_VideoTX) (val : Nat) : Nat → Nat → List Nat → (Nat ⊕ Nat) × List Nat
  | 0, i, reads => (.inr i, reads)
  | n + 1, i, reads =>
    if (s.power_val i).val ≤ val then
      if val = (s.power_val i).val then (.inl (s.power_val i).mw, reads ++ [i])
      else cmw_scan_traced s val n (i + 1) (reads ++ [i])
    else (.inr i, reads ++ [i])

/-- The lambda `cmw` of `set_power_val` with the indices at which it reads `_power_vals`.
After the loop `_power_vals[i]` and `_power_vals[i-1]` are read when `i > 0`, and
`_power_vals[i]` is read for the result, whatever `i` the loop stopped at. -/
def cmw_traced (s : AP_VideoTX) (val : Nat) : Nat × List Nat :=
  match cmw_scan_traced s val VTX_MAX_ADJUSTABLE_POWER_LEVELS 0 [] with
  | (.inl mw, reads) => (mw, reads)
  | (.inr i, reads) =>
    if i > 0 then
      if ((s.power_val i).mw : Int) - (val : Int)
          > (val : Int) - ((s.power_val (i - 1)).mw : Int) then
        ((s.power_val (i - 1)).mw, reads ++ [i, i - 1, i - 1])
      else ((s.power_val i).mw, reads ++ [i, i - 1, i])
    else ((s.power_val i).mw, reads ++ [i])

/-- The indices at which `set_power_val(power, active)` reads `_power_vals`: those of
`cmw(power)` and, unless the call returns early, those of the loop over `i <
VTX_MAX_ADJUSTABLE_POWER_LEVELS`, which reads slot `i` for its value and, when the value
is `power`, for its mw at each step of the inner loop. -/
def set_power_val_reads (s : AP_VideoTX) (power : Nat) (active : PowerActive) : List Nat :=
  (s.cmw_traced power).2 ++
    (if (s.cmw_traced power).1 = (s.power_level s._current_power).mw
        ∧ (s.power_level s._current_power).active = active then []
     else
      (for_loop (fun i (tr : AP_VideoTX × List Nat) =>
          if (tr.1.power_val i).val = power then
            match for_return
                (fun j => if (tr.1.power_val i).mw = (tr.1.power_level j).mw then some j else none)
                VTX_MAX_POWER_LEVELS 0 with
            | some j =>
              ((({ tr.1 with _current_power := j } : AP_VideoTX).write_active j active),
                tr.2 ++ i :: List.replicate (j + 1) i)
            | none => (tr.1, tr.2 ++ i :: List.replicate VTX_MAX_POWER_LEVELS i)
          else (tr.1, tr.2 ++ [i]))
        VTX_MAX_ADJUSTABLE_POWER_LEVELS 0 (s, [])).2)

/-- The loop of `get_configured_power_val()` with the indices at which it reads
`_power_vals`; its bound is `VTX_MAX_POWER_LEVELS`.  The result is the value of the slot
whose mw is the configured power, 0 when the loop ends without one. -/
def get_configured_power_val_traced (s : AP_VideoTX) : Nat → Nat → List Nat → Nat × List Nat
  | 0, _, reads => (0, reads)
  | n + 1, i, reads =>
    if ((s.power_val i).mw : Int) ≤ s._power_mw.get then
      if ((s.power_val i).mw : Int) = s._power_mw.get then ((s.power_val i).val, reads ++ [i])
      else get_configured_power_val_traced s n (i + 1) (reads ++ [i])
    else (0, reads ++ [i])

/-- The getter `get_configured_power_val()`. -/
def get_configured_power_val (s : AP_VideoTX) : Nat :=
  (get_configured_power_val_traced s VTX_MAX_POWER_LEVELS 0 []).1

/-- The indices at which `get_configured_power_val()` reads `_power_vals`. -/
def get_configured_power_val_reads (s : AP_VideoTX) : List Nat :=
  (get_configured_power_val_traced s VTX_MAX_POWER_LEVELS 0 []).2

/-! ## Predicates and states used in the statements -/

/-- The configured view agrees with the channel table: band and channel are in range
and the configured frequency is the table's frequency of that cell. -/
def configured_consistent (s : AP_VideoTX) : Prop :=
  0 ≤ s._band.get ∧ s._band.get < MAX_BANDS ∧ 0 ≤ s._channel.get
    ∧ s._channel.get < VTX_MAX_CHANNELS
    ∧ s._frequency_mhz.get
        = (get_frequency_mhz (uint8_t s._band.get) (uint8_t s._channel.get) : Nat)

instance (s : AP_VideoTX) : Decidable (configured_consistent s) := by
  unfold configured_consistent
  infer_instance

/-- The object after construction: every parameter holds its default of `var_info` and
is reported as not configured, the other members are zero, the power table is the
initial one. -/
def initial_state : AP_VideoTX :=
  { _frequency_mhz := ⟨0, false⟩, _current_frequency := 0,
    _power_mw := ⟨0, false⟩, _current_power := 0, _max_power_mw := ⟨2500, false⟩,
    _band := ⟨0, false⟩, _current_band := 0,
    _channel := ⟨0, false⟩, _current_channel := 0,
    _options := ⟨0, false⟩, _current_options := 0,
    _enabled := ⟨0, false⟩, _current_enabled := false,
    _preset := [⟨0, false⟩, ⟨1, false⟩, ⟨2, false⟩, ⟨3, false⟩, ⟨4, false⟩, ⟨5, false⟩],
    _model := ⟨0, false⟩, _num_active_levels := ⟨6, false⟩,
    _cvals := [⟨0, false⟩, ⟨1, false⟩, ⟨2, false⟩, ⟨3, false⟩, ⟨4, false⟩, ⟨5, false⟩],
    _cmws := [⟨0, false⟩, ⟨0, false⟩, ⟨0, false⟩, ⟨0, false⟩, ⟨0, false⟩, ⟨0, false⟩],
    _initialized := false, _defaults_set := false, _configuration_finished := false,
    _types := 0, _power_levels := default_power_levels,
    _power_vals := [⟨0, 0⟩, ⟨0, 0⟩, ⟨0, 0⟩, ⟨0, 0⟩, ⟨0, 0⟩, ⟨0, 0⟩] }

/-- A VTX found on band B channel 3 (5790 MHz) while the user has configured only the
band, to band E. -/
def vtx_found_state : AP_VideoTX :=
  { initial_state with
    _enabled := ⟨1, true⟩, _current_enabled := true,
    _band := ⟨2, true⟩,
    _current_band := 1, _current_channel := 3, _current_frequency := 5790 }

/-- Defaults are set, the VTX is on the 0 mW entry of the initial power table (no entry
of which has been confirmed by the VTX yet) and the user asks for 25 mW. -/
def unlearned_power_state : AP_VideoTX :=
  { initial_state with
    _enabled := ⟨1, true⟩, _current_enabled := true, _defaults_set := true,
    _power_mw := ⟨25, true⟩, _current_power := 0 }

/-- The module is enabled and the configured options are PITMODE | PITMODE_UNTIL_ARM. -/
def pitmode_until_arm_state : AP_VideoTX :=
  { initial_state with
    _enabled := ⟨1, true⟩, _current_enabled := true, _options := ⟨3, true⟩ }

/-- The initial power table after the VTX has denied the 25 mW level. -/
def denied_25mw_levels : List PowerLevel :=
  default_power_levels.set 1 ⟨0, 25, 14, 7, .Inactive⟩

/-- The VTX is on the denied 25 mW entry and the user asks for 200 mW, an entry that is
not Inactive. -/
def current_entry_denied_state : AP_VideoTX :=
  { initial_state with
    _enabled := ⟨1, true⟩, _current_enabled := true, _defaults_set := true,
    _power_levels := denied_25mw_levels, _current_power := 1, _power_mw := ⟨200, true⟩ }

/-- The VTX is on the 200 mW entry, which is not Inactive, and the user asks for the
denied 25 mW. -/
def requested_entry_denied_state : AP_VideoTX :=
  { initial_state with
    _enabled := ⟨1, true⟩, _current_enabled := true, _defaults_set := true,
    _power_levels := denied_25mw_levels, _current_power := 3, _power_mw := ⟨25, true⟩ }

/-- The user has configured band R, channel 2 and the matching frequency 5732 MHz; the
VTX is on band A channel 0. -/
def agreeing_user_state : AP_VideoTX :=
  { initial_state with
    _enabled := ⟨1, true⟩, _current_enabled := true,
    _band := ⟨4, true⟩, _channel := ⟨2, true⟩, _frequency_mhz := ⟨5732, true⟩,
    _current_band := 0, _current_channel := 0, _current_frequency := 5865 }

/-- The user has configured band A, channel 0 (5865 MHz) and also the frequency
5733 MHz; the VTX is on band A channel 0. -/
def conflicting_user_state : AP_VideoTX :=
  { initial_state with
    _enabled := ⟨1, true⟩, _current_enabled := true,
    _band := ⟨0, true⟩, _channel := ⟨0, true⟩, _frequency_mhz := ⟨5733, true⟩,
    _current_band := 0, _current_channel := 0, _current_frequency := 5865 }

/-- The number of Active entries among the first `k` entries of the power table. -/
def active_before (s : AP_VideoTX) : Nat → Nat
  | 0 => 0
  | k + 1 => active_before s k + (if (s.power_level k).active = .Active then 1 else 0)

/-- The number of Active entries with mw not above `_max_power_mw` among the first `k`
entries of the power table. -/
def active_within_cap (s : AP_VideoTX) : Nat → Nat
  | 0 => 0
  | k + 1 =>
    active_within_cap s k
      + (if (s.power_level k).active = .Active
            ∧ ((s.power_level k).mw : Int) ≤ s._max_power_mw.get then 1 else 0)

/-- The number of entries that are not Inactive and have mw not above `_max_power_mw`
among the first `k` entries of the power table. -/
def selectable_before (s : AP_VideoTX) : Nat → Nat
  | 0 => 0
  | k + 1 =>
    selectable_before s k
      + (if (s.power_level k).active ≠ .Inactive
            ∧ ((s.power_level k).mw : Int) ≤ s._max_power_mw.get then 1 else 0)

/-- The number of entries that are not Inactive among the first `k` entries of the power
table. -/
def not_inactive_before (s : AP_VideoTX) : Nat → Nat
  | 0 => 0
  | k + 1 =>
    not_inactive_before s k + (if (s.power_level k).active ≠ .Inactive then 1 else 0)

/-- The rank the switch position stands for, in the words of the specification:
`clamp(round(A * (position + 1) / num_active_levels) - 1, 0, A - 1)`, rounding halves
away from zero. -/
def target_rank (A position num_active_levels : Int) : Int :=
  max 0 (min (A - 1) (roundf_ratio (A * (position + 1)) num_active_levels - 1))

/-- The power table is sorted non-decreasing by mw over its first `n` slots. -/
def sorted_by_mw (s : AP_VideoTX) (n : Nat) : Prop :=
  ∀ i j, i ≤ j → j < n → (s.power_level i).mw ≤ (s.power_level j).mw

/-- No two Active entries of the power table share a level id. -/
def active_levels_distinct (s : AP_VideoTX) : Prop :=
  ∀ i j, i < VTX_MAX_POWER_LEVELS → j < VTX_MAX_POWER_LEVELS → i ≠ j →
    (s.power_level i).active = .Active → (s.power_level j).active = .Active →
    (s.power_level i).level ≠ (s.power_level j).level

/-- The enabled module after `init()` with the GENERIC model on the initial power table,
MAX_POWER 2500 and POW_LEVELS 6. -/
def generic_init_state : AP_VideoTX :=
  ({ initial_state with _enabled := ⟨1, true⟩ } : AP_VideoTX).init.1

/-- After `generic_init_state` the VTX reports the non-standard 13 dBm and then 35 dBm
(3000 mW, above MAX_POWER). -/
def learned_above_cap_state : AP_VideoTX :=
  run_set_power_dbm dbm_to_mw generic_init_state [(13, .Active), (35, .Active)]

/-- After `generic_init_state` the VTX confirms 25, 200, 500 and 800 mW, and an empty
`update_all_power_dbm` retires the levels still Unknown. -/
def four_levels_state : AP_VideoTX :=
  (run_set_power_dbm dbm_to_mw generic_init_state
    [(14, .Active), (23, .Active), (27, .Active), (29, .Active)]).update_all_power_dbm
    dbm_to_mw []

/-- After `generic_init_state` the VTX confirms 0 mW and 25 mW, and an empty
`update_all_power_dbm` retires the levels still Unknown. -/
def two_levels_state : AP_VideoTX :=
  (run_set_power_dbm dbm_to_mw generic_init_state
    [(0, .Active), (14, .Active)]).update_all_power_dbm dbm_to_mw []

/-- The initial state after the VTX has confirmed 26 dBm and then 28 dBm. -/
def learned_400_600_state : AP_VideoTX :=
  run_set_power_dbm dbm_to_mw initial_state [(26, .Active), (28, .Active)]

/-- The initial state after the VTX has confirmed 14 dBm (25 mW). -/
def learned_25mw_state : AP_VideoTX :=
  run_set_power_dbm dbm_to_mw initial_state [(14, .Active)]

/-- The FXR10 power value table in a six-slot `_power_vals`. -/
def fxr10_vals_state : AP_VideoTX :=
  { initial_state with
    _power_vals := [⟨25, 500⟩, ⟨100, 2500⟩, ⟨200, 5000⟩, ⟨400, 7500⟩, ⟨600, 10000⟩, ⟨0, 0⟩] }

/-- The table of `t` has the length of the table of `s` and, in every slot but the
reserved last one, the mw of the table of `s`. -/
def same_standard_mw (s t : AP_VideoTX) : Prop :=
  t._power_levels.length = s._power_levels.length
    ∧ ∀ k, k ≠ VTX_MAX_POWER_LEVELS - 1 → (t.power_level k).mw = (s.power_level k).mw

/-- The enabled module with MAX_POWER 800 and the configured power 1000 mW, before
`init()`. -/
def capped_800_state : AP_VideoTX :=
  { initial_state with
    _enabled := ⟨1, true⟩, _max_power_mw := ⟨800, true⟩, _power_mw := ⟨1000, true⟩ }

/-- The enabled module with the model D1 and the configured power 300 mW, before
`init()`. -/
def d1_state : AP_VideoTX :=
  { initial_state with _enabled := ⟨1, true⟩, _model := ⟨1, true⟩, _power_mw := ⟨300, true⟩ }

/-- The enabled module with the model FXR10, before `init()`; the power value table is
zero, as after construction. -/
def fxr10_state : AP_VideoTX :=
  { initial_state with _enabled := ⟨1, true⟩, _model := ⟨2, true⟩ }

/-- The module of `fxr10_state` after `init()`. -/
def fxr10_init_state : AP_VideoTX := fxr10_state.init.1

/-- The initial state after the VTX has reported the non-standard 13 dBm, stored as 20 mW
in the reserved slot, and then 14 dBm, which makes the 25 mW entry current. -/
def learned_20mw_state : AP_VideoTX :=
  run_set_power_dbm dbm_to_mw initial_state [(13, .Active), (14, .Active)]

/-- The settings `init()` copies into the current view are those of `s` in `t`. -/
def same_settings (s t : AP_VideoTX) : Prop :=
  t._power_mw = s._power_mw ∧ t._band = s._band ∧ t._channel = s._channel
    ∧ t._frequency_mhz = s._frequency_mhz ∧ t._options = s._options
    ∧ t._enabled = s._enabled

/-- The enabled module with the configured power 20000 mW, before `init()`. -/
def overpowered_state : AP_VideoTX :=
  { initial_state with _enabled := ⟨1, true⟩, _power_mw := ⟨20000, true⟩ }

/-- The enabled module with the configured power 25 mW; the power value table is zero, as
after construction. -/
def configured_25mw_state : AP_VideoTX :=
  { initial_state with _enabled := ⟨1, true⟩, _power_mw := ⟨25, true⟩ }

/-- The level ids the entry at each index of the power table can come to hold under
`set_power_dbm`: its initial id, that id without the flag `0x10`, and `0xFF` for the three
entries a neighbour can retire. -/
def possible_level_ids : List (List Nat) :=
  [[0xFF], [0], [0x11, 1], [1, 0xFF], [0x12, 2], [2, 0xFF], [0x12, 2], [3, 0xFF],
    [0x13, 3], [0x14, 4], [0x15, 5], [0x16, 6], [0x17, 7], [0x18, 8], [0x19, 9],
    [0x1A, 0xA], [0x1B, 0xB], [0x1C, 0xC], [0xFF]]

/-- The level id as `set_power_dbm` narrows it: without the flag `0x10` when it has it. -/
def narrowed_level (level : Nat) : Nat :=
  if level &&& 0xF0 = 0x10 then level &&& 0xF else level

/-- Every entry of the power table holds one of its `possible_level_ids`. -/
def levels_possible (s : AP_VideoTX) : Prop :=
  ∀ k, k < VTX_MAX_POWER_LEVELS → (s.power_level k).level ∈ possible_level_ids.getD k []

/-- No two adjacent entries of the power table share a level id. -/
def adjacent_levels_distinct (s : AP_VideoTX) : Prop :=
  ∀ i, i + 1 < VTX_MAX_POWER_LEVELS → (s.power_level i).level ≠ (s.power_level (i + 1)).level

/-- No two adjacent Active entries of the power table share a level id. -/
def adjacent_active_levels_distinct (s : AP_VideoTX) : Prop :=
  ∀ i, i + 1 < VTX_MAX_POWER_LEVELS →
    (s.power_level i).active = .Active → (s.power_level (i + 1)).active = .Active →
    (s.power_level i).level ≠ (s.power_level (i + 1)).level

end AP_VideoTX

/-! ## Loop lemmas -/

theorem for_return_eq_none {α : Type} (body : Nat → Option α) (n i : Nat) :
    for_return body n i = none ↔ ∀ k, i ≤ k → k < i + n → body k = none := by
  induction n generalizing i with
  | zero =>
    simp only [for_return, true_iff]
    intro k h1 h2
    omega
  | succ n ih =>
    unfold for_return
    cases hb : body i with
    | some r =>
      simp only [false_iff, reduceCtorEq]
      intro h
      have := h i (Nat.le_refl i) (by omega)
      rw [hb] at this
      cases this
    | none =>
      simp only
      rw [ih]
      constructor
      · intro h k h1 h2
        rcases Nat.eq_or_lt_of_le h1 with h3 | h3
        · rw [← h3]; exact hb
        · exact h k h3 (by omega)
      · intro h k h1 h2
        exact h k (by omega) (by omega)

theorem for_return_eq_some {α : Type} (body : Nat → Option α) (n i : Nat) (r : α) :
    for_return body n i = some r ↔
      ∃ k, i ≤ k ∧ k < i + n ∧ body k = some r ∧ ∀ m, i ≤ m → m < k → body m = none := by
  induction n generalizing i with
  | zero =>
    simp only [for_return, false_iff, reduceCtorEq]
    rintro ⟨k, h1, h2, _⟩
    omega
  | succ n ih =>
    unfold for_return
    cases hb : body i with
    | some r' =>
      simp only
      constructor
      · intro h
        refine ⟨i, Nat.le_refl i, by omega, ?_, ?_⟩
        · rw [hb, h]
        · intro m h1 h2; omega
      · rintro ⟨k, h1, _, h3, h4⟩
        rcases Nat.eq_or_lt_of_le h1 with h5 | h5
        · rw [← h5, hb] at h3; exact h3
        · have := h4 i (Nat.le_refl i) h5
          rw [hb] at this
          cases this
    | none =>
      simp only
      rw [ih]
      constructor
      · rintro ⟨k, h1, h2, h3, h4⟩
        refine ⟨k, by omega, by omega, h3, ?_⟩
        intro m h5 h6
        rcases Nat.eq_or_lt_of_le h5 with h7 | h7
        · rw [← h7]; exact hb
        · exact h4 m h7 h6
      · rintro ⟨k, h1, h2, h3, h4⟩
        rcases Nat.eq_or_lt_of_le h1 with h5 | h5
        · rw [← h5, hb] at h3; cases h3
        · exact ⟨k, h5, by omega, h3, fun m h6 h7 => h4 m (by omega) h7⟩

theorem for_while_return_eq_some {α : Type} (guard : Nat → Bool) (body : Nat → Option α)
    (n i : Nat) (r : α) :
    for_while_return guard body n i = some r ↔
      ∃ k, i ≤ k ∧ k < i + n ∧ body k = some r ∧ guard k = true
        ∧ ∀ m, i ≤ m → m < k → guard m = true ∧ body m = none := by
  induction n generalizing i with
  | zero =>
    simp only [for_while_return, false_iff, reduceCtorEq]
    rintro ⟨k, h1, h2, _⟩
    omega
  | succ n ih =>
    unfold for_while_return
    cases hg : guard i with
    | false =>
      simp only [Bool.false_eq_true, if_false, false_iff, reduceCtorEq]
      rintro ⟨k, h1, _, _, h4, h5⟩
      rcases Nat.eq_or_lt_of_le h1 with h6 | h6
      · rw [← h6, hg] at h4; cases h4
      · have := (h5 i (Nat.le_refl i) h6).1
        rw [hg] at this
        cases this
    | true =>
      simp only [if_true]
      cases hb : body i with
      | some r' =>
        simp only
        constructor
        · intro h
          refine ⟨i, Nat.le_refl i, by omega, ?_, hg, ?_⟩
          · rw [hb, h]
          · intro m h1 h2; omega
        · rintro ⟨k, h1, _, h3, _, h5⟩
          rcases Nat.eq_or_lt_of_le h1 with h6 | h6
          · rw [← h6, hb] at h3; exact h3
          · have := (h5 i (Nat.le_refl i) h6).2
            rw [hb] at this
            cases this
      | none =>
        simp only
        rw [ih]
        constructor
        · rintro ⟨k, h1, h2, h3, h4, h5⟩
          refine ⟨k, by omega, by omega, h3, h4, ?_⟩
          intro m h6 h7
          rcases Nat.eq_or_lt_of_le h6 with h8 | h8
          · rw [← h8]; exact ⟨hg, hb⟩
          · exact h5 m h8 h7
        · rintro ⟨k, h1, h2, h3, h4, h5⟩
          rcases Nat.eq_or_lt_of_le h1 with h6 | h6
          · rw [← h6, hb] at h3; cases h3
          · exact ⟨k, h6, by omega, h3, h4, fun m h7 h8 => h5 m (by omega) h8⟩

/-! ## Channel table -/

namespace AP_VideoTX

theorem scan_band_eq_none (f i : Nat) :
    for_return (fun j => if get_frequency_mhz i j = f then some (i, j) else none)
        VTX_MAX_CHANNELS 0 = none
      ↔ ∀ c, c < VTX_MAX_CHANNELS → get_frequency_mhz i c ≠ f := by
  rw [for_return_eq_none]
  constructor
  · intro h c hc heq
    have := h c (Nat.zero_le c) (by omega)
    simp [heq] at this
  · intro h k _ hk
    have := h k (by omega)
    simp [this]

theorem scan_band_eq_some (f i b c : Nat) :
    for_return (fun j => if get_frequency_mhz i j = f then some (i, j) else none)
        VTX_MAX_CHANNELS 0 = some (b, c)
      ↔ b = i ∧ c < VTX_MAX_CHANNELS ∧ get_frequency_mhz i c = f
          ∧ ∀ c', c' < c → get_frequency_mhz i c' ≠ f := by
  rw [for_return_eq_some]
  constructor
  · rintro ⟨k, _, h2, h3, h4⟩
    by_cases hk : get_frequency_mhz i k = f
    · simp only [hk, if_true, Option.some.injEq, Prod.mk.injEq] at h3
      obtain ⟨rfl, rfl⟩ := h3
      refine ⟨rfl, by omega, hk, ?_⟩
      intro c' hc' heq
      have := h4 c' (Nat.zero_le c') hc'
      simp [heq] at this
    · simp [hk] at h3
  · rintro ⟨rfl, h2, h3, h4⟩
    refine ⟨c, Nat.zero_le c, by omega, by simp [h3], ?_⟩
    intro m _ hm
    have := h4 m hm
    simp [this]

theorem get_band_and_channel_eq_none (f : Nat) :
    get_band_and_channel f = none
      ↔ ∀ b c, b < MAX_BANDS → c < VTX_MAX_CHANNELS → get_frequency_mhz b c ≠ f := by
  unfold get_band_and_channel
  rw [for_return_eq_none]
  constructor
  · intro h b c hb hc
    exact (scan_band_eq_none f b).1 (h b (Nat.zero_le b) (by omega)) c hc
  · intro h k _ hk
    exact (scan_band_eq_none f k).2 (fun c hc => h k c (by omega) hc)

theorem get_band_and_channel_eq_some (f b c : Nat) :
    get_band_and_channel f = some (b, c)
      ↔ b < MAX_BANDS ∧ c < VTX_MAX_CHANNELS ∧ get_frequency_mhz b c = f
          ∧ ∀ b' c', b' < MAX_BANDS → c' < VTX_MAX_CHANNELS → cell_before b' c' b c →
              get_frequency_mhz b' c' ≠ f := by
  unfold get_band_and_channel
  rw [for_return_eq_some]
  constructor
  · rintro ⟨k, _, h2, h3, h4⟩
    obtain ⟨rfl, hc, hf, hfirst⟩ := (scan_band_eq_some f k b c).1 h3
    refine ⟨by omega, hc, hf, ?_⟩
    intro b' c' hb' hc' hbefore
    rcases hbefore with hlt | ⟨rfl, hlt⟩
    · exact (scan_band_eq_none f b').1 (h4 b' (Nat.zero_le b') hlt) c' hc'
    · exact hfirst c' hlt
  · rintro ⟨hb, hc, hf, hfirst⟩
    refine ⟨b, Nat.zero_le b, by omega, ?_, ?_⟩
    · exact (scan_band_eq_some f b b c).2
        ⟨rfl, hc, hf, fun c' hc' => hfirst b c' hb (by omega) (Or.inr ⟨rfl, hc'⟩)⟩
    · intro m _ hm
      exact (scan_band_eq_none f m).2 (fun c' hc' => hfirst m c' (by omega) hc' (Or.inl hm))

theorem get_frequency_mhz_pos (b c : Nat) (hb : b < MAX_BANDS) (hc : c < VTX_MAX_CHANNELS) :
    0 < get_frequency_mhz b c := by
  simp only [MAX_BANDS, VTX_MAX_CHANNELS] at hb hc
  interval_cases b <;> interval_cases c <;> decide

theorem get_frequency_mhz_lt (b c : Nat) (hb : b < MAX_BANDS) (hc : c < VTX_MAX_CHANNELS) :
    get_frequency_mhz b c < 32768 := by
  simp only [MAX_BANDS, VTX_MAX_CHANNELS] at hb hc
  interval_cases b <;> interval_cases c <;> decide

theorem cell_order_cases (b' c' b c : Nat) :
    (b' = b ∧ c' = c) ∨ cell_before b' c' b c ∨ cell_before b c b' c' := by
  unfold cell_before
  omega

/-- C1: every cell `(b, c)` of the channel table holds a positive frequency, and the
reverse search of that frequency succeeds with a cell `(b', c')` of the same frequency
that is the first such cell in row-major order; it is `(b, c)` itself unless an earlier
cell holds the same frequency, and otherwise it is that earlier cell. -/
theorem channel_table_round_trip (b c : Nat) (hb : b < MAX_BANDS)
    (hc : c < VTX_MAX_CHANNELS) :
    0 < get_frequency_mhz b c ∧
    ∃ b' c', get_band_and_channel (get_frequency_mhz b c) = some (b', c')
      ∧ get_frequency_mhz b' c' = get_frequency_mhz b c
      ∧ (∀ i j, i < MAX_BANDS → j < VTX_MAX_CHANNELS → cell_before i j b' c' →
          get_frequency_mhz i j ≠ get_frequency_mhz b c)
      ∧ ((b' = b ∧ c' = c) ∨ cell_before b' c' b c)
      ∧ ((∀ i j, i < MAX_BANDS → j < VTX_MAX_CHANNELS → cell_before i j b c →
            get_frequency_mhz i j ≠ get_frequency_mhz b c) → b' = b ∧ c' = c) := by
  refine ⟨get_frequency_mhz_pos b c hb hc, ?_⟩
  cases hres : get_band_and_channel (get_frequency_mhz b c) with
  | none =>
    exact absurd rfl ((get_band_and_channel_eq_none _).1 hres b c hb hc)
  | some r =>
    obtain ⟨b', c'⟩ := r
    obtain ⟨hb', hc', hf, hfirst⟩ := (get_band_and_channel_eq_some _ b' c').1 hres
    have hpos : (b' = b ∧ c' = c) ∨ cell_before b' c' b c := by
      rcases cell_order_cases b' c' b c with h | h | h
      · exact Or.inl h
      · exact Or.inr h
      · exact absurd rfl (hfirst b c hb hc h)
    refine ⟨b', c', rfl, hf, hfirst, hpos, ?_⟩
    intro hnone
    rcases hpos with h | h
    · exact h
    · exact absurd hf (hnone b' c' hb' hc' h)

/-- C1 at the cell (band P, channel 2), whose frequency 5733 also sits in (band B,
channel 0). -/
theorem channel_table_round_trip_witness :
    11 < MAX_BANDS ∧ 2 < VTX_MAX_CHANNELS ∧ 0 < get_frequency_mhz 11 2 ∧
    ∃ b' c', get_band_and_channel (get_frequency_mhz 11 2) = some (b', c')
      ∧ get_frequency_mhz b' c' = get_frequency_mhz 11 2
      ∧ (∀ i j, i < MAX_BANDS → j < VTX_MAX_CHANNELS → cell_before i j b' c' →
          get_frequency_mhz i j ≠ get_frequency_mhz 11 2)
      ∧ ((b' = 11 ∧ c' = 2) ∨ cell_before b' c' 11 2)
      ∧ ((∀ i j, i < MAX_BANDS → j < VTX_MAX_CHANNELS → cell_before i j 11 2 →
            get_frequency_mhz i j ≠ get_frequency_mhz 11 2) → b' = 11 ∧ c' = 2) :=
  ⟨by decide, by decide, channel_table_round_trip 11 2 (by decide) (by decide)⟩

/-- C2: the reverse search fails exactly when no cell of the channel table holds `f`,
and it returns `(b, c)` exactly when `(b, c)` is the first cell, row-major by band then
channel, that holds `f`; 5733, held by (band B, channel 0) and (band P, channel 2),
yields (1, 0). -/
theorem get_band_and_channel_first_match (f : Nat) :
    (get_band_and_channel f = none
      ↔ ∀ b c, b < MAX_BANDS → c < VTX_MAX_CHANNELS → get_frequency_mhz b c ≠ f)
    ∧ (∀ b c, get_band_and_channel f = some (b, c)
      ↔ b < MAX_BANDS ∧ c < VTX_MAX_CHANNELS ∧ get_frequency_mhz b c = f
          ∧ ∀ b' c', b' < MAX_BANDS → c' < VTX_MAX_CHANNELS →
              (b' < b ∨ (b' = b ∧ c' < c)) → get_frequency_mhz b' c' ≠ f)
    ∧ get_frequency_mhz 1 0 = 5733 ∧ get_frequency_mhz 11 2 = 5733
    ∧ get_band_and_channel 5733 = some (1, 0) :=
  ⟨get_band_and_channel_eq_none f, fun b c => get_band_and_channel_eq_some f b c,
    by decide, by decide, by decide⟩

end AP_VideoTX

/-! ## Conversions -/

theorem uint8_t_natCast (n : Nat) (h : n < 256) : uint8_t (n : Int) = n := by
  unfold uint8_t; omega

theorem uint16_t_natCast (n : Nat) (h : n < 65536) : uint16_t (n : Int) = n := by
  unfold uint16_t; omega

theorem int8_t_natCast (n : Nat) (h : n < 128) : int8_t (n : Int) = n := by
  unfold int8_t; omega

theorem int16_t_natCast (n : Nat) (h : n < 32768) : int16_t (n : Int) = n := by
  unfold int16_t; omega

theorem uint8_t_cast_of_nonneg (v : Int) (h0 : 0 ≤ v) (h1 : v < 256) : (uint8_t v : Int) = v := by
  unfold uint8_t; omega

theorem uint16_t_cast_of_nonneg (v : Int) (h0 : 0 ≤ v) (h1 : v < 65536) :
    (uint16_t v : Int) = v := by
  unfold uint16_t; omega

theorem uint16_t_lt (v : Int) : uint16_t v < 65536 := by
  unfold uint16_t; omega

theorem uint16_t_int16_t (n : Nat) (h : n < 65536) : uint16_t (int16_t (n : Int)) = n := by
  unfold uint16_t int16_t; omega

theorem int16_t_uint16_t (v : Int) (h0 : -32768 ≤ v) (h1 : v ≤ 32767) :
    int16_t (uint16_t v : Int) = v := by
  unfold uint16_t int16_t; omega

/-! ## Reconciliation -/

namespace AP_VideoTX

theorem set_and_save_ifchanged_get (p : AP_Int16) (v : Int) :
    (p.set_and_save_ifchanged v).get = int16_t v := by
  unfold AP_Int16.set_and_save_ifchanged
  split
  · rename_i h; simp [AP_Int16.get, h]
  · rfl

theorem update_configured_frequency_consistent (s : AP_VideoTX)
    (hb0 : 0 ≤ s._band.get) (hb1 : s._band.get < MAX_BANDS)
    (hc0 : 0 ≤ s._channel.get) (hc1 : s._channel.get < VTX_MAX_CHANNELS) :
    configured_consistent s.update_configured_frequency := by
  simp only [MAX_BANDS, VTX_MAX_CHANNELS, Nat.cast_ofNat] at hb1 hc1
  have h1 : uint8_t s._band.get < MAX_BANDS := by
    unfold uint8_t MAX_BANDS; omega
  have h2 : uint8_t s._channel.get < VTX_MAX_CHANNELS := by
    unfold uint8_t VTX_MAX_CHANNELS; omega
  have h3 := get_frequency_mhz_lt _ _ h1 h2
  unfold configured_consistent update_configured_frequency
  simp only [AP_Int16.set_and_save, AP_Int16.set, AP_Int16.get, MAX_BANDS, VTX_MAX_CHANNELS,
    Nat.cast_ofNat]
  refine ⟨hb0, hb1, hc0, hc1, ?_⟩
  exact int16_t_natCast _ h3

theorem update_configured_channel_and_band_consistent (s : AP_VideoTX)
    (hf0 : 0 < s._frequency_mhz.get) (hf1 : s._frequency_mhz.get ≤ 32767)
    (hb0 : 0 ≤ s._band.get) (hb1 : s._band.get < MAX_BANDS)
    (hc0 : 0 ≤ s._channel.get) (hc1 : s._channel.get < VTX_MAX_CHANNELS) :
    configured_consistent s.update_configured_channel_and_band := by
  unfold update_configured_channel_and_band
  cases hres : get_band_and_channel (uint16_t s._frequency_mhz.get) with
  | none => exact update_configured_frequency_consistent s hb0 hb1 hc0 hc1
  | some r =>
    obtain ⟨b, c⟩ := r
    obtain ⟨hb, hc, hf, -⟩ := (get_band_and_channel_eq_some _ b c).1 hres
    simp only [MAX_BANDS, VTX_MAX_CHANNELS] at hb hc
    have hu : (uint16_t s._frequency_mhz.get : Int) = s._frequency_mhz.get :=
      uint16_t_cast_of_nonneg _ (by omega) (by omega)
    unfold configured_consistent
    simp only [AP_Int8.set_and_save, AP_Int8.set, AP_Int8.get, AP_Int16.get, MAX_BANDS,
      VTX_MAX_CHANNELS, Nat.cast_ofNat]
    rw [int8_t_natCast b (by omega), int8_t_natCast c (by omega),
      uint8_t_natCast b (by omega), uint8_t_natCast c (by omega), hf]
    refine ⟨by omega, by omega, by omega, by omega, ?_⟩
    simp only [AP_Int16.get] at hu
    exact hu.symm


theorem update_configured_frequency_current (s : AP_VideoTX) :
    s.update_configured_frequency._current_band = s._current_band
    ∧ s.update_configured_frequency._current_channel = s._current_channel
    ∧ s.update_configured_frequency._current_frequency = s._current_frequency := by
  unfold update_configured_frequency
  exact ⟨rfl, rfl, rfl⟩

theorem update_configured_channel_and_band_current (s : AP_VideoTX) :
    s.update_configured_channel_and_band._current_band = s._current_band
    ∧ s.update_configured_channel_and_band._current_channel = s._current_channel
    ∧ s.update_configured_channel_and_band._current_frequency = s._current_frequency := by
  unfold update_configured_channel_and_band
  split
  · exact ⟨rfl, rfl, rfl⟩
  · exact update_configured_frequency_current s

/-- The shape of `set_defaults()` on a state whose defaults are not set: `s6` is the
state after the current view is reconciled and the unconfigured parameters are
persisted, the result is `s6` with its configured view checked against the table. -/
theorem set_defaults_normal_form (s : AP_VideoTX) (hd : s._defaults_set = false) :
    ∃ s6 s7 : AP_VideoTX,
      s7 = (if s6._frequency_mhz.get
                ≠ (get_frequency_mhz (uint8_t s6._band.get) (uint8_t s6._channel.get) : Nat) then
              if s6._frequency_mhz.get > 0 then s6.update_configured_channel_and_band
              else s6.update_configured_frequency
            else s6)
      ∧ s.set_defaults = ({ s7 with _defaults_set := true }, true)
      ∧ s6._band = (if s._band.configured then s._band
          else s._band.set_and_save (s6._current_band : Nat))
      ∧ s6._channel = (if s._channel.configured then s._channel
          else s._channel.set_and_save (s6._current_channel : Nat))
      ∧ s6._frequency_mhz = (if s._frequency_mhz.configured then s._frequency_mhz
          else s._frequency_mhz.set_and_save (s6._current_frequency : Nat))
      ∧ (s._current_band < MAX_BANDS → s._current_channel < VTX_MAX_CHANNELS →
          s6._current_band < MAX_BANDS ∧ s6._current_channel < VTX_MAX_CHANNELS
          ∧ s6._current_frequency = get_frequency_mhz s6._current_band s6._current_channel) := by
  unfold set_defaults
  rw [if_neg (by simp [hd])]
  lift_lets
  extract_lets calced s1 s2 s3 s4 s5 s6 s7
  refine ⟨s6, s7, rfl, rfl, ?_⟩
  have h1 : s1._band = s._band ∧ s1._channel = s._channel
      ∧ s1._frequency_mhz = s._frequency_mhz
      ∧ (s._current_band < MAX_BANDS → s._current_channel < VTX_MAX_CHANNELS →
          s1._current_band < MAX_BANDS ∧ s1._current_channel < VTX_MAX_CHANNELS
          ∧ s1._current_frequency = get_frequency_mhz s1._current_band s1._current_channel) := by
    have hcalced : s._current_band < MAX_BANDS →
        calced = get_frequency_mhz s._current_band s._current_channel := by
      intro hcb
      simp only [MAX_BANDS] at hcb
      simp only [calced]
      rw [uint8_t_natCast _ (by omega)]
    simp only [s1]
    split
    · split
      · cases hres : get_band_and_channel s._current_frequency with
        | none => exact ⟨rfl, rfl, rfl, fun hcb hcc => ⟨hcb, hcc, hcalced hcb⟩⟩
        | some r =>
          obtain ⟨b, c⟩ := r
          obtain ⟨hb, hc, hf, -⟩ := (get_band_and_channel_eq_some _ b c).1 hres
          exact ⟨rfl, rfl, rfl, fun _ _ => ⟨hb, hc, hf.symm⟩⟩
      · exact ⟨rfl, rfl, rfl, fun hcb hcc => ⟨hcb, hcc, hcalced hcb⟩⟩
    · rename_i h
      exact ⟨rfl, rfl, rfl, fun hcb hcc =>
        ⟨hcb, hcc, by rw [← hcalced hcb]; exact not_not.1 h⟩⟩
  obtain ⟨h1cb, h1cc, h1cf, h1cur⟩ := h1
  have h2 : s2._current_band = s1._current_band ∧ s2._current_channel = s1._current_channel
      ∧ s2._current_frequency = s1._current_frequency
      ∧ s2._band = s1._band ∧ s2._channel = s1._channel
      ∧ s2._frequency_mhz = s1._frequency_mhz := by
    simp only [s2]; split <;> exact ⟨rfl, rfl, rfl, rfl, rfl, rfl⟩
  obtain ⟨h2b, h2c, h2f, h2cb, h2cc, h2cf⟩ := h2
  have h3 : s3._current_band = s2._current_band ∧ s3._current_channel = s2._current_channel
      ∧ s3._current_frequency = s2._current_frequency
      ∧ s3._band = s2._band
      ∧ s3._channel = (if s2._channel.configured then s2._channel
          else s2._channel.set_and_save (s2._current_channel : Nat))
      ∧ s3._frequency_mhz = s2._frequency_mhz := by
    simp only [s3]
    generalize s2 = t
    cases hcfg : t._channel.configured
    · rw [if_pos (by simp), if_neg (by simp)]; exact ⟨rfl, rfl, rfl, rfl, rfl, rfl⟩
    · rw [if_neg (by simp), if_pos rfl]; exact ⟨rfl, rfl, rfl, rfl, rfl, rfl⟩
  obtain ⟨h3b, h3c, h3f, h3cb, h3cc, h3cf⟩ := h3
  have h4 : s4._current_band = s3._current_band ∧ s4._current_channel = s3._current_channel
      ∧ s4._current_frequency = s3._current_frequency
      ∧ s4._band = (if s3._band.configured then s3._band
          else s3._band.set_and_save (s3._current_band : Nat))
      ∧ s4._channel = s3._channel
      ∧ s4._frequency_mhz = s3._frequency_mhz := by
    simp only [s4]
    generalize s3 = t
    cases hcfg : t._band.configured
    · rw [if_pos (by simp), if_neg (by simp)]; exact ⟨rfl, rfl, rfl, rfl, rfl, rfl⟩
    · rw [if_neg (by simp), if_pos rfl]; exact ⟨rfl, rfl, rfl, rfl, rfl, rfl⟩
  obtain ⟨h4b, h4c, h4f, h4cb, h4cc, h4cf⟩ := h4
  have h5 : s5._current_band = s4._current_band ∧ s5._current_channel = s4._current_channel
      ∧ s5._current_frequency = s4._current_frequency
      ∧ s5._band = s4._band ∧ s5._channel = s4._channel
      ∧ s5._frequency_mhz = s4._frequency_mhz := by
    simp only [s5]; split <;> exact ⟨rfl, rfl, rfl, rfl, rfl, rfl⟩
  obtain ⟨h5b, h5c, h5f, h5cb, h5cc, h5cf⟩ := h5
  have h6 : s6._current_band = s5._current_band ∧ s6._current_channel = s5._current_channel
      ∧ s6._current_frequency = s5._current_frequency
      ∧ s6._band = s5._band ∧ s6._channel = s5._channel
      ∧ s6._frequency_mhz = (if s5._frequency_mhz.configured then s5._frequency_mhz
          else s5._frequency_mhz.set_and_save (s5._current_frequency : Nat)) := by
    simp only [s6]
    generalize s5 = t
    cases hcfg : t._frequency_mhz.configured
    · rw [if_pos (by simp), if_neg (by simp)]; exact ⟨rfl, rfl, rfl, rfl, rfl, rfl⟩
    · rw [if_neg (by simp), if_pos rfl]; exact ⟨rfl, rfl, rfl, rfl, rfl, rfl⟩
  obtain ⟨h6b, h6c, h6f, h6cb, h6cc, h6cf⟩ := h6
  have eb : s6._current_band = s1._current_band := by rw [h6b, h5b, h4b, h3b, h2b]
  have ec : s6._current_channel = s1._current_channel := by rw [h6c, h5c, h4c, h3c, h2c]
  have ef : s6._current_frequency = s1._current_frequency := by rw [h6f, h5f, h4f, h3f, h2f]
  refine ⟨?_, ?_, ?_, ?_⟩
  · rw [h6cb, h5cb, h4cb, h3cb, h2cb, h1cb, eb, h3b, h2b]
  · rw [h6cc, h5cc, h4cc, h3cc, h2cc, h1cc, ec, h2c]
  · rw [h6cf, h5cf, h4cf, h3cf, h2cf, h1cf, ef, h5f, h4f, h3f, h2f]
  · intro hcb hcc
    rw [eb, ec, ef]
    exact h1cur hcb hcc

/-- The last step of `set_defaults()`, the check of the configured view, on a state
with band and channel in range and the frequency an `int16_t`. -/
theorem set_defaults_check_consistent (s6 : AP_VideoTX)
    (hb0 : 0 ≤ s6._band.get) (hb1 : s6._band.get < MAX_BANDS)
    (hc0 : 0 ≤ s6._channel.get) (hc1 : s6._channel.get < VTX_MAX_CHANNELS)
    (hf1 : s6._frequency_mhz.get ≤ 32767) (s7 : AP_VideoTX)
    (h7 : s7 = if s6._frequency_mhz.get
                ≠ (get_frequency_mhz (uint8_t s6._band.get) (uint8_t s6._channel.get) : Nat) then
              if s6._frequency_mhz.get > 0 then s6.update_configured_channel_and_band
              else s6.update_configured_frequency
            else s6) :
    configured_consistent s7
      ∧ s7._current_band = s6._current_band ∧ s7._current_channel = s6._current_channel
      ∧ s7._current_frequency = s6._current_frequency := by
  subst h7
  split
  · split
    · rename_i hpos
      exact ⟨update_configured_channel_and_band_consistent s6 hpos hf1 hb0 hb1 hc0 hc1,
        update_configured_channel_and_band_current s6⟩
    · exact ⟨update_configured_frequency_consistent s6 hb0 hb1 hc0 hc1,
        update_configured_frequency_current s6⟩
  · rename_i heq
    exact ⟨⟨hb0, hb1, hc0, hc1, not_not.1 heq⟩, rfl, rfl, rfl⟩

/-- C3: the first `set_defaults()` (defaults not yet set, bands and channels in range,
the frequency parameter an `int16_t`) returns true, sets `_defaults_set`, and leaves both
views consistent with the channel table: the current frequency is the table's frequency
of the current band and channel, and the configured frequency is the table's frequency of
the configured band and channel, whatever the store reports as configured. -/
theorem set_defaults_makes_views_consistent (s : AP_VideoTX) (hd : s._defaults_set = false)
    (hcb : s._current_band < MAX_BANDS) (hcc : s._current_channel < VTX_MAX_CHANNELS)
    (hb0 : 0 ≤ s._band.get) (hb1 : s._band.get < MAX_BANDS)
    (hc0 : 0 ≤ s._channel.get) (hc1 : s._channel.get < VTX_MAX_CHANNELS)
    (hf1 : s._frequency_mhz.get ≤ 32767) :
    s.set_defaults.2 = true ∧ s.set_defaults.1._defaults_set = true
    ∧ s.set_defaults.1._current_band < MAX_BANDS
    ∧ s.set_defaults.1._current_channel < VTX_MAX_CHANNELS
    ∧ s.set_defaults.1._current_frequency
        = get_frequency_mhz s.set_defaults.1._current_band s.set_defaults.1._current_channel
    ∧ s.set_defaults.1.get_configured_band < MAX_BANDS
    ∧ s.set_defaults.1.get_configured_channel < VTX_MAX_CHANNELS
    ∧ s.set_defaults.1._frequency_mhz.get
        = (get_frequency_mhz s.set_defaults.1.get_configured_band
            s.set_defaults.1.get_configured_channel : Nat)
    ∧ s.set_defaults.1.get_configured_frequency_mhz
        = get_frequency_mhz s.set_defaults.1.get_configured_band
            s.set_defaults.1.get_configured_channel := by
  obtain ⟨s6, s7, hs7, heq, hb, hc, hf, hcur⟩ := set_defaults_normal_form s hd
  obtain ⟨h6b, h6c, h6f⟩ := hcur hcb hcc
  have hfl := get_frequency_mhz_lt _ _ h6b h6c
  simp only [MAX_BANDS, VTX_MAX_CHANNELS, Nat.cast_ofNat] at hb1 hc1 h6b h6c
  have hb6 : 0 ≤ s6._band.get ∧ s6._band.get < MAX_BANDS := by
    rw [hb]
    simp only [MAX_BANDS, Nat.cast_ofNat]
    split
    · exact ⟨hb0, hb1⟩
    · simp only [AP_Int8.set_and_save, AP_Int8.set, AP_Int8.get]
      rw [int8_t_natCast _ (by omega)]
      omega
  have hc6 : 0 ≤ s6._channel.get ∧ s6._channel.get < VTX_MAX_CHANNELS := by
    rw [hc]
    simp only [VTX_MAX_CHANNELS, Nat.cast_ofNat]
    split
    · exact ⟨hc0, hc1⟩
    · simp only [AP_Int8.set_and_save, AP_Int8.set, AP_Int8.get]
      rw [int8_t_natCast _ (by omega)]
      omega
  have hf6 : s6._frequency_mhz.get ≤ 32767 := by
    rw [hf]
    split
    · exact hf1
    · simp only [AP_Int16.set_and_save, AP_Int16.set, AP_Int16.get]
      rw [int16_t_natCast _ (by omega)]
      omega
  obtain ⟨⟨k1, k2, k3, k4, k5⟩, k6, k7, k8⟩ :=
    set_defaults_check_consistent s6 hb6.1 hb6.2 hc6.1 hc6.2 hf6 s7 hs7
  rw [heq]
  simp only [MAX_BANDS, VTX_MAX_CHANNELS, Nat.cast_ofNat] at k2 k4
  have e2 : uint8_t s7._band.get < MAX_BANDS := by unfold uint8_t MAX_BANDS; omega
  have e3 : uint8_t s7._channel.get < VTX_MAX_CHANNELS := by
    unfold uint8_t VTX_MAX_CHANNELS; omega
  have e1 := get_frequency_mhz_lt _ _ e2 e3
  refine ⟨rfl, rfl, ?_, ?_, ?_, e2, e3, k5, ?_⟩
  · show s7._current_band < MAX_BANDS
    rw [k6]; exact h6b
  · show s7._current_channel < VTX_MAX_CHANNELS
    rw [k7]; exact h6c
  · show s7._current_frequency = get_frequency_mhz s7._current_band s7._current_channel
    rw [k6, k7, k8]; exact h6f
  · show uint16_t s7._frequency_mhz.get
      = get_frequency_mhz (uint8_t s7._band.get) (uint8_t s7._channel.get)
    rw [k5]
    exact uint16_t_natCast _ (by omega)

/-- C3 on a state where the VTX was found on band B channel 3 and the user has
configured only the band. -/
theorem set_defaults_makes_views_consistent_witness :
    vtx_found_state._defaults_set = false
    ∧ vtx_found_state._current_band < MAX_BANDS
    ∧ vtx_found_state._current_channel < VTX_MAX_CHANNELS
    ∧ 0 ≤ vtx_found_state._band.get ∧ vtx_found_state._band.get < MAX_BANDS
    ∧ 0 ≤ vtx_found_state._channel.get ∧ vtx_found_state._channel.get < VTX_MAX_CHANNELS
    ∧ vtx_found_state._frequency_mhz.get ≤ 32767
    ∧ vtx_found_state.set_defaults.2 = true
    ∧ vtx_found_state.set_defaults.1._defaults_set = true
    ∧ vtx_found_state.set_defaults.1._current_frequency
        = get_frequency_mhz vtx_found_state.set_defaults.1._current_band
            vtx_found_state.set_defaults.1._current_channel
    ∧ vtx_found_state.set_defaults.1.get_configured_frequency_mhz
        = get_frequency_mhz vtx_found_state.set_defaults.1.get_configured_band
            vtx_found_state.set_defaults.1.get_configured_channel :=
  have h := set_defaults_makes_views_consistent vtx_found_state (by decide) (by decide)
    (by decide) (by decide) (by decide) (by decide) (by decide) (by decide)
  ⟨by decide, by decide, by decide, by decide, by decide, by decide, by decide, by decide,
    h.1, h.2.1, h.2.2.2.2.1, h.2.2.2.2.2.2.2.2⟩

theorem update_configured_frequency_band (s : AP_VideoTX) :
    s.update_configured_frequency._band = s._band
    ∧ s.update_configured_frequency._channel = s._channel := by
  unfold update_configured_frequency
  exact ⟨rfl, rfl⟩

/-- C4 as stated fails: band A and channel 0 are configured by the user and in range,
and `set_defaults()` replaces the configured band by band B, because the configured
frequency 5733 MHz is in the table at (band B, channel 0). -/
theorem set_defaults_overwrites_user_band_counterexample :
    conflicting_user_state._defaults_set = false
    ∧ conflicting_user_state._band.configured = true
    ∧ conflicting_user_state._channel.configured = true
    ∧ conflicting_user_state._band.get = 0
    ∧ conflicting_user_state._channel.get = 0
    ∧ conflicting_user_state.set_defaults.2 = true
    ∧ conflicting_user_state.set_defaults.1._band.get = 1
    ∧ conflicting_user_state.set_defaults.1._band ≠ conflicting_user_state._band := by
  decide

/-- C4, amended: with band and channel configured by the user and in range,
`set_defaults()` keeps the configured band and channel unless the frequency `f` it
reconciles them with (the configured frequency when the store reports it configured,
otherwise the reconciled current frequency) is positive, differs from the table's
frequency of that band and channel, and is found in the table; in that case band and
channel become the cell the reverse search returns for `f`, which differs from the
user's. -/
theorem set_defaults_keeps_user_band_channel (s : AP_VideoTX) (hd : s._defaults_set = false)
    (hbu : s._band.configured = true) (hcu : s._channel.configured = true)
    (hcb : s._current_band < MAX_BANDS) (hcc : s._current_channel < VTX_MAX_CHANNELS)
    (_hb0 : 0 ≤ s._band.get) (_hb1 : s._band.get < MAX_BANDS)
    (_hc0 : 0 ≤ s._channel.get) (_hc1 : s._channel.get < VTX_MAX_CHANNELS)
    (hf1 : s._frequency_mhz.get ≤ 32767) (f : Int)
    (hf : f = if s._frequency_mhz.configured then s._frequency_mhz.get
      else (s.set_defaults.1._current_frequency : Int)) :
    (¬ (0 < f ∧ f ≠ (get_frequency_mhz s.get_configured_band s.get_configured_channel : Nat)
          ∧ get_band_and_channel (uint16_t f) ≠ none) →
      s.set_defaults.1._band = s._band ∧ s.set_defaults.1._channel = s._channel)
    ∧ (0 < f → f ≠ (get_frequency_mhz s.get_configured_band s.get_configured_channel : Nat) →
        ∀ b c, get_band_and_channel (uint16_t f) = some (b, c) →
          s.set_defaults.1.get_configured_band = b
          ∧ s.set_defaults.1.get_configured_channel = c
          ∧ ¬ (b = s.get_configured_band ∧ c = s.get_configured_channel)) := by
  obtain ⟨s6, s7, hs7, heq, hb, hc, hfq, hcur⟩ := set_defaults_normal_form s hd
  obtain ⟨h6b, h6c, h6f⟩ := hcur hcb hcc
  have hfl := get_frequency_mhz_lt _ _ h6b h6c
  rw [if_pos hbu] at hb
  rw [if_pos hcu] at hc
  have hcf : s.set_defaults.1._current_frequency = s6._current_frequency := by
    rw [heq]
    show s7._current_frequency = s6._current_frequency
    rw [hs7]
    split
    · split
      · exact (update_configured_channel_and_band_current s6).2.2
      · exact (update_configured_frequency_current s6).2.2
    · rfl
  have hf6 : s6._frequency_mhz.get = f := by
    rw [hf, hfq, hcf]
    split
    · rfl
    · simp only [AP_Int16.set_and_save, AP_Int16.set, AP_Int16.get]
      exact int16_t_natCast _ (by omega)
  have hfle : f ≤ 32767 := by
    rw [hf, hcf]
    split
    · exact hf1
    · omega
  have hres : s.set_defaults.1._band = s7._band ∧ s.set_defaults.1._channel = s7._channel := by
    rw [heq]; exact ⟨rfl, rfl⟩
  have hgb : s.get_configured_band = uint8_t s6._band.get := by
    unfold get_configured_band; rw [hb]
  have hgc : s.get_configured_channel = uint8_t s6._channel.get := by
    unfold get_configured_channel; rw [hc]
  rw [hgb, hgc, ← hf6]
  rw [hres.1, hres.2, ← hb, ← hc]
  constructor
  · intro hnot
    rw [hs7]
    split
    · rename_i hne
      split
      · rename_i hpos
        have hnone : get_band_and_channel (uint16_t s6._frequency_mhz.get) = none := by
          by_contra hsome
          exact hnot ⟨hpos, hne, hsome⟩
        unfold update_configured_channel_and_band
        rw [hnone]
        exact update_configured_frequency_band s6
      · exact update_configured_frequency_band s6
    · exact ⟨rfl, rfl⟩
  · intro hpos hne b c hsome
    obtain ⟨hbr, hcr, hfr, -⟩ := (get_band_and_channel_eq_some _ b c).1 hsome
    simp only [MAX_BANDS, VTX_MAX_CHANNELS] at hbr hcr
    have h7 : s7 = s6.update_configured_channel_and_band := by
      rw [hs7, if_pos hne, if_pos hpos]
    have hb7 : s.set_defaults.1.get_configured_band = b := by
      unfold get_configured_band
      rw [hres.1, h7]
      unfold update_configured_channel_and_band
      rw [hsome]
      simp only [AP_Int8.set_and_save, AP_Int8.set, AP_Int8.get]
      rw [int8_t_natCast b (by omega), uint8_t_natCast b (by omega)]
    have hc7 : s.set_defaults.1.get_configured_channel = c := by
      unfold get_configured_channel
      rw [hres.2, h7]
      unfold update_configured_channel_and_band
      rw [hsome]
      simp only [AP_Int8.set_and_save, AP_Int8.set, AP_Int8.get]
      rw [int8_t_natCast c (by omega), uint8_t_natCast c (by omega)]
    refine ⟨hb7, hc7, ?_⟩
    rintro ⟨rfl, rfl⟩
    apply hne
    rw [hfr]
    exact (uint16_t_cast_of_nonneg _ (by omega) (by omega)).symm

/-- C4, amended, on a state where the user has configured band R, channel 2 and the
matching frequency: band and channel are kept. -/
theorem set_defaults_keeps_user_band_channel_witness :
    agreeing_user_state._defaults_set = false
    ∧ agreeing_user_state._band.configured = true
    ∧ agreeing_user_state._channel.configured = true
    ∧ agreeing_user_state._current_band < MAX_BANDS
    ∧ agreeing_user_state._current_channel < VTX_MAX_CHANNELS
    ∧ 0 ≤ agreeing_user_state._band.get ∧ agreeing_user_state._band.get < MAX_BANDS
    ∧ 0 ≤ agreeing_user_state._channel.get
    ∧ agreeing_user_state._channel.get < VTX_MAX_CHANNELS
    ∧ agreeing_user_state._frequency_mhz.get ≤ 32767
    ∧ agreeing_user_state.set_defaults.1._band = agreeing_user_state._band
    ∧ agreeing_user_state.set_defaults.1._channel = agreeing_user_state._channel :=
  have h := (set_defaults_keeps_user_band_channel agreeing_user_state (by decide) (by decide)
    (by decide) (by decide) (by decide) (by decide) (by decide) (by decide) (by decide)
    (by decide) 5732 (by decide)).1 (by decide)
  ⟨by decide, by decide, by decide, by decide, by decide, by decide, by decide, by decide,
    by decide, by decide, h.1, h.2⟩

/-- C5: for a frequency `f` of the channel table, `set_configured_frequency_mhz(f)`
followed by `update_configured_channel_and_band()` leaves a configured band and channel
whose table frequency is `f`, and the configured frequency is still `f`. -/
theorem configured_frequency_round_trip (s : AP_VideoTX) (f : Nat)
    (hf : ∃ b c, b < MAX_BANDS ∧ c < VTX_MAX_CHANNELS ∧ get_frequency_mhz b c = f) :
    get_frequency_mhz
        (s.set_configured_frequency_mhz f).update_configured_channel_and_band.get_configured_band
        (s.set_configured_frequency_mhz f).update_configured_channel_and_band.get_configured_channel
      = f
    ∧ (s.set_configured_frequency_mhz f).update_configured_channel_and_band.get_configured_frequency_mhz
      = f
    ∧ (s.set_configured_frequency_mhz f).update_configured_channel_and_band._frequency_mhz.get
      = (f : Int) := by
  obtain ⟨b0, c0, hb0, hc0, hf0⟩ := hf
  have hlt : f < 32768 := by rw [← hf0]; exact get_frequency_mhz_lt b0 c0 hb0 hc0
  have h1 : (s.set_configured_frequency_mhz f)._frequency_mhz.get = (f : Int) := by
    simp only [set_configured_frequency_mhz]
    rw [set_and_save_ifchanged_get, int16_t_natCast f hlt]
  generalize s.set_configured_frequency_mhz f = t at h1
  have h2 : uint16_t t._frequency_mhz.get = f := by
    rw [h1]; exact uint16_t_natCast f (by omega)
  cases hres : get_band_and_channel f with
  | none => exact absurd hf0 ((get_band_and_channel_eq_none f).1 hres b0 c0 hb0 hc0)
  | some r =>
    obtain ⟨b, c⟩ := r
    obtain ⟨hb, hc, hfr, -⟩ := (get_band_and_channel_eq_some f b c).1 hres
    simp only [MAX_BANDS, VTX_MAX_CHANNELS] at hb hc
    unfold update_configured_channel_and_band
    rw [h2, hres]
    simp only [get_configured_band, get_configured_channel, get_configured_frequency_mhz,
      AP_Int8.set_and_save, AP_Int8.set, AP_Int8.get]
    rw [int8_t_natCast b (by omega), int8_t_natCast c (by omega),
      uint8_t_natCast b (by omega), uint8_t_natCast c (by omega)]
    exact ⟨hfr, h2, h1⟩

/-- C5 for 5733 MHz, the frequency of (band B, channel 0) and of (band P, channel 2). -/
theorem configured_frequency_round_trip_witness :
    (∃ b c, b < MAX_BANDS ∧ c < VTX_MAX_CHANNELS ∧ get_frequency_mhz b c = 5733)
    ∧ get_frequency_mhz
        (initial_state.set_configured_frequency_mhz
          5733).update_configured_channel_and_band.get_configured_band
        (initial_state.set_configured_frequency_mhz
          5733).update_configured_channel_and_band.get_configured_channel
      = 5733
    ∧ (initial_state.set_configured_frequency_mhz
          5733).update_configured_channel_and_band.get_configured_frequency_mhz
      = 5733 :=
  have h := configured_frequency_round_trip initial_state 5733 ⟨11, 2, by decide, by decide, by decide⟩
  ⟨⟨11, 2, by decide, by decide, by decide⟩, h.1, h.2.1⟩


/-! ## Diff queries -/

theorem and_option_bit (n k : Nat) : n &&& (1 <<< k) = if n.testBit k then 2 ^ k else 0 := by
  rw [Nat.one_shiftLeft, Nat.and_two_pow]
  cases n.testBit k <;> simp

theorem and_option_bit_ne_zero (n k : Nat) : n &&& (1 <<< k) ≠ 0 ↔ n.testBit k = true := by
  rw [and_option_bit]
  cases n.testBit k <;> simp

theorem and_option_bit_eq_zero (n k : Nat) : n &&& (1 <<< k) = 0 ↔ n.testBit k = false := by
  rw [and_option_bit]
  cases n.testBit k <;> simp

theorem and_option_bit_ne (n m k : Nat) :
    n &&& (1 <<< k) ≠ m &&& (1 <<< k) ↔ n.testBit k ≠ m.testBit k := by
  rw [and_option_bit, and_option_bit]
  have hk : 2 ^ k ≠ 0 := Nat.pos_iff_ne_zero.mp (Nat.two_pow_pos k)
  cases n.testBit k <;> cases m.testBit k <;> simp [hk, hk.symm]

theorem has_option_bit (s : AP_VideoTX) (k : Nat) :
    s.has_option (1 <<< k) = s.get_configured_options.testBit k := by
  unfold has_option get_configured_options
  rw [and_option_bit]
  cases (uint16_t s._options.get).testBit k <;> simp

theorem update_options_eq (s : AP_VideoTX) (crsf : Bool) :
    s.update_options crsf
      = (s._defaults_set
        && ((s.get_configured_options.testBit 0 != s._current_options.testBit 0)
          || (!crsf && s.get_configured_options.testBit 3 && !s._current_options.testBit 3))) := by
  unfold update_options get_configured_options VTX_PITMODE VTX_UNLOCKED
  simp only [and_option_bit_ne, and_option_bit_ne_zero, and_option_bit_eq_zero]
  cases s._defaults_set <;> cases crsf <;> cases (uint16_t s._options.get).testBit 0 <;>
    cases s._current_options.testBit 0 <;> cases (uint16_t s._options.get).testBit 3 <;>
    cases s._current_options.testBit 3 <;> simp

/-- C6: `have_params_changed()` is true exactly when the module is enabled and one of
the five per-field diff queries is true; and while `_defaults_set` is false each of the
five queries, and so `have_params_changed()`, is false. -/
theorem have_params_changed_iff (s : AP_VideoTX) (crsf : Bool) :
    (s.have_params_changed crsf = true
      ↔ s._enabled.get ≠ 0
        ∧ (s.update_power = true ∨ s.update_band = true ∨ s.update_channel = true
          ∨ s.update_frequency = true ∨ s.update_options crsf = true))
    ∧ (s._defaults_set = false →
        s.update_power = false ∧ s.update_band = false ∧ s.update_channel = false
        ∧ s.update_frequency = false ∧ s.update_options crsf = false
        ∧ s.have_params_changed crsf = false) := by
  constructor
  · unfold have_params_changed
    simp only [Bool.and_eq_true, Bool.or_eq_true, bne_iff_ne, ne_eq, or_assoc]
  · intro hd
    have h1 : s.update_power = false := by
      unfold update_power; simp [hd]
    have h2 : s.update_band = false := by
      unfold update_band; simp [hd]
    have h3 : s.update_channel = false := by
      unfold update_channel; simp [hd]
    have h4 : s.update_frequency = false := by
      unfold update_frequency; simp [hd]
    have h5 : s.update_options crsf = false := by
      unfold update_options; simp [hd]
    refine ⟨h1, h2, h3, h4, h5, ?_⟩
    unfold have_params_changed
    rw [h1, h2, h3, h4, h5]
    simp

/-- C8: `update_options()` is false while defaults are not set; with defaults set it is
true when the PITMODE bit (bit 0) differs between configured and current options, and
with equal PITMODE bits it is false under CRSF and otherwise true exactly when UNLOCKED
(bit 3) is set in the configured and clear in the current options.  Two states that
agree on `_defaults_set` and on bits 0 and 3 of both option words give the same answer,
whatever their other option bits. -/
theorem update_options_pitmode_unlocked_only :
    (∀ (s : AP_VideoTX) (crsf : Bool),
      (s._defaults_set = false → s.update_options crsf = false)
      ∧ (s._defaults_set = true →
          s.get_configured_options.testBit 0 ≠ s._current_options.testBit 0 →
          s.update_options crsf = true)
      ∧ (s._defaults_set = true →
          s.get_configured_options.testBit 0 = s._current_options.testBit 0 →
          crsf = true → s.update_options crsf = false)
      ∧ (s._defaults_set = true →
          s.get_configured_options.testBit 0 = s._current_options.testBit 0 →
          crsf = false →
          (s.update_options crsf = true
            ↔ s.get_configured_options.testBit 3 = true
              ∧ s._current_options.testBit 3 = false)))
    ∧ (∀ (s t : AP_VideoTX) (crsf : Bool),
        s._defaults_set = t._defaults_set →
        s.get_configured_options.testBit 0 = t.get_configured_options.testBit 0 →
        s._current_options.testBit 0 = t._current_options.testBit 0 →
        s.get_configured_options.testBit 3 = t.get_configured_options.testBit 3 →
        s._current_options.testBit 3 = t._current_options.testBit 3 →
        s.update_options crsf = t.update_options crsf) := by
  constructor
  · intro s crsf
    rw [update_options_eq]
    generalize s.get_configured_options.testBit 0 = a
    generalize s._current_options.testBit 0 = b
    generalize s.get_configured_options.testBit 3 = c
    generalize s._current_options.testBit 3 = d
    generalize s._defaults_set = e
    cases a <;> cases b <;> cases c <;> cases d <;> cases e <;> cases crsf <;> decide
  · intro s t crsf h1 h2 h3 h4 h5
    rw [update_options_eq, update_options_eq, h1, h2, h3, h4, h5]

/-- C7 as stated fails: on the initial power table, where no entry is Active,
`update_power()` is true for a configured power of 25 mW, because the 25 mW entry is
Unknown and the test is "not Inactive". -/
theorem update_power_unknown_entry_counterexample :
    unlearned_power_state._defaults_set = true
    ∧ unlearned_power_state._power_mw.get ≠ (unlearned_power_state.get_power_mw : Int)
    ∧ unlearned_power_state.get_pitmode = false
    ∧ unlearned_power_state.update_power = true
    ∧ (∀ l ∈ unlearned_power_state._power_levels, l.active ≠ PowerActive.Active)
    ∧ (unlearned_power_state.power_level 1).mw = 25
    ∧ (unlearned_power_state.power_level 1).active = PowerActive.Unknown := by
  decide

/-- C7, amended: `update_power()` returns true only if defaults are set, the configured
power differs from the currently selected entry's mw, the current options have no
PITMODE bit, and the power table has an entry whose mw equals the configured power and
whose activity is not Inactive (Active or Unknown); precisely, it is true exactly when,
besides the first three conditions, the scan from entry 0 over the entries with mw not
above the configured power reaches such an entry. -/
theorem update_power_requires_allowed_entry (s : AP_VideoTX) :
    (s.update_power = true →
      s._defaults_set = true ∧ s._power_mw.get ≠ (s.get_power_mw : Int)
      ∧ s.get_pitmode = false
      ∧ ∃ i, i < VTX_MAX_POWER_LEVELS ∧ ((s.power_level i).mw : Int) = s._power_mw.get
          ∧ (s.power_level i).active ≠ PowerActive.Inactive)
    ∧ (s.update_power = true ↔
      s._defaults_set = true ∧ s._power_mw.get ≠ (s.get_power_mw : Int)
      ∧ s.get_pitmode = false
      ∧ ∃ i, i < VTX_MAX_POWER_LEVELS ∧ ((s.power_level i).mw : Int) = s._power_mw.get
          ∧ (s.power_level i).active ≠ PowerActive.Inactive
          ∧ ∀ j, j < i → ((s.power_level j).mw : Int) ≤ s._power_mw.get) := by
  have key : s.update_power = true ↔
      s._defaults_set = true ∧ s._power_mw.get ≠ (s.get_power_mw : Int)
      ∧ s.get_pitmode = false
      ∧ ∃ i, i < VTX_MAX_POWER_LEVELS ∧ ((s.power_level i).mw : Int) = s._power_mw.get
          ∧ (s.power_level i).active ≠ PowerActive.Inactive
          ∧ ∀ j, j < i → ((s.power_level j).mw : Int) ≤ s._power_mw.get := by
    unfold update_power
    by_cases hpre : (!s._defaults_set || s._power_mw.get == (s.get_power_mw : Int)
        || s.get_pitmode) = true
    · rw [if_pos hpre]
      simp only [Bool.or_eq_true, Bool.not_eq_true', beq_iff_eq] at hpre
      constructor
      · intro h; cases h
      · rintro ⟨h1, h2, h3, -⟩
        rcases hpre with (h | h) | h
        · rw [h] at h1; cases h1
        · exact absurd h h2
        · rw [h] at h3; cases h3
    · rw [if_neg hpre]
      simp only [Bool.or_eq_true, Bool.not_eq_true', beq_iff_eq, not_or, Bool.not_eq_false,
        Bool.not_eq_true] at hpre
      obtain ⟨⟨h1, h2⟩, h3⟩ := hpre
      constructor
      · intro h
        cases hloop : for_while_return
            (fun i => decide (s._power_mw.get ≥ ((s.power_level i).mw : Int)))
            (fun i => if s._power_mw.get = ((s.power_level i).mw : Int)
              ∧ (s.power_level i).active ≠ PowerActive.Inactive then some true else none)
            VTX_MAX_POWER_LEVELS 0 with
        | none => rw [hloop] at h; cases h
        | some r =>
          obtain ⟨k, -, hk, hbody, -, hprev⟩ := (for_while_return_eq_some _ _ _ _ _).1 hloop
          refine ⟨h1, h2, h3, k, by omega, ?_⟩
          by_cases hm : s._power_mw.get = ((s.power_level k).mw : Int)
              ∧ (s.power_level k).active ≠ PowerActive.Inactive
          · refine ⟨hm.1.symm, hm.2, ?_⟩
            intro j hj
            have := (hprev j (Nat.zero_le j) hj).1
            simpa using this
          · rw [if_neg hm] at hbody; cases hbody
      · rintro ⟨-, -, -, i, hi, hmw, hact, hle⟩
        -- the first matching entry at or before `i`
        have hex : ∃ k, k ≤ i ∧ (s._power_mw.get = ((s.power_level k).mw : Int)
            ∧ (s.power_level k).active ≠ PowerActive.Inactive) := ⟨i, Nat.le_refl i, hmw.symm, hact⟩
        classical
        let k := Nat.find hex
        have hkspec := Nat.find_spec hex
        have hkmin : ∀ m, m < k → ¬ (m ≤ i ∧ (s._power_mw.get = ((s.power_level m).mw : Int)
            ∧ (s.power_level m).active ≠ PowerActive.Inactive)) := fun m hm => Nat.find_min hex hm
        have hloop : for_while_return
            (fun i => decide (s._power_mw.get ≥ ((s.power_level i).mw : Int)))
            (fun i => if s._power_mw.get = ((s.power_level i).mw : Int)
              ∧ (s.power_level i).active ≠ PowerActive.Inactive then some true else none)
            VTX_MAX_POWER_LEVELS 0 = some true := by
          rw [for_while_return_eq_some]
          refine ⟨k, Nat.zero_le k, by omega, ?_, ?_, ?_⟩
          · simp only [if_pos hkspec.2]
          · simp only [decide_eq_true_eq, ge_iff_le]
            rw [← hkspec.2.1]
          · intro m _ hm
            refine ⟨?_, ?_⟩
            · simp only [decide_eq_true_eq, ge_iff_le]
              exact hle m (by omega)
            · have := hkmin m hm
              rw [if_neg]
              intro hc
              exact this ⟨by omega, hc⟩
        rw [hloop]
  refine ⟨?_, key⟩
  intro h
  obtain ⟨h1, h2, h3, i, hi, hmw, hact, -⟩ := key.1 h
  exact ⟨h1, h2, h3, i, hi, hmw, hact⟩


/-! ## Periodic update -/

theorem power_view_congr (s t : AP_VideoTX) (h1 : t._power_mw = s._power_mw)
    (h2 : t._current_power = s._current_power) (h3 : t._power_levels = s._power_levels) :
    t.get_power_mw = s.get_power_mw ∧ t.find_current_power = s.find_current_power
      ∧ ∀ i, t.power_level i = s.power_level i := by
  unfold get_power_mw find_current_power power_level
  rw [h1, h2, h3]
  exact ⟨rfl, rfl, fun _ => rfl⟩

/-- The shape of `update()` on an enabled module: the options are rewritten by the
pitmode logic, then the configured power by the power check; nothing else changes. -/
theorem update_enabled (s : AP_VideoTX) (armed : Bool) (he : s._enabled.get ≠ 0) :
    (s.update armed)._options =
      (if s.has_option VTX_PITMODE_ON_DISARM || s.has_option VTX_PITMODE_UNTIL_ARM then
        if armed && s.has_option VTX_PITMODE then
          s._options.set ((uint16_t s._options.get &&& (0xFFFF - VTX_PITMODE) : Nat) : Int)
        else if !armed && !s.has_option VTX_PITMODE && s.has_option VTX_PITMODE_ON_DISARM then
          s._options.set ((uint16_t s._options.get ||| VTX_PITMODE : Nat) : Int)
        else s._options
      else s._options)
    ∧ (s.update armed)._power_mw =
      (if s._power_mw.get ≠ (s.get_power_mw : Int)
          ∧ (s.power_level s.find_current_power).active = PowerActive.Inactive then
        s._power_mw.set_and_save (s.get_power_mw : Int)
      else s._power_mw) := by
  unfold update
  rw [if_neg he]
  lift_lets
  extract_lets s1
  have h1 : s1._options =
      (if s.has_option VTX_PITMODE_ON_DISARM || s.has_option VTX_PITMODE_UNTIL_ARM then
        if armed && s.has_option VTX_PITMODE then
          s._options.set ((uint16_t s._options.get &&& (0xFFFF - VTX_PITMODE) : Nat) : Int)
        else if !armed && !s.has_option VTX_PITMODE && s.has_option VTX_PITMODE_ON_DISARM then
          s._options.set ((uint16_t s._options.get ||| VTX_PITMODE : Nat) : Int)
        else s._options
      else s._options)
      ∧ s1._power_mw = s._power_mw ∧ s1._current_power = s._current_power
      ∧ s1._power_levels = s._power_levels := by
    simp only [s1]
    split
    · split
      · exact ⟨rfl, rfl, rfl, rfl⟩
      · split
        · exact ⟨rfl, rfl, rfl, rfl⟩
        · exact ⟨rfl, rfl, rfl, rfl⟩
    · exact ⟨rfl, rfl, rfl, rfl⟩
  obtain ⟨ho, hp, hc, hl⟩ := h1
  obtain ⟨g1, g2, g3⟩ := power_view_congr s s1 hp hc hl
  rw [← ho, ← hp, ← g1, ← g2, ← g3]
  generalize s1 = t
  by_cases hne : t._power_mw.get ≠ (t.get_power_mw : Int)
  · by_cases hin : (t.power_level t.find_current_power).active = PowerActive.Inactive
    · rw [if_pos hne, if_pos hin, if_pos ⟨hne, hin⟩]
      exact ⟨rfl, rfl⟩
    · rw [if_pos hne, if_neg hin, if_neg (fun h => hin h.2)]
      exact ⟨rfl, rfl⟩
  · rw [if_neg hne, if_neg (fun h => hne h.1)]
    exact ⟨rfl, rfl⟩

theorem testBit_clear_pitmode (n : Nat) (hn : n < 65536) (i : Nat) :
    (n &&& (0xFFFF - VTX_PITMODE)).testBit i = (n.testBit i && decide (i ≠ 0)) := by
  have h1 : (0xFFFF - VTX_PITMODE : Nat) = 2 ^ 16 - (1 + 1) := by decide
  rw [h1, Nat.testBit_and, Nat.testBit_two_pow_sub_succ (by decide : 1 < 2 ^ 16)]
  by_cases hi : i = 0
  · subst hi
    simp
  · have h2 : Nat.testBit 1 i = false := by
      cases h : Nat.testBit 1 i
      · rfl
      · exact absurd (Nat.testBit_one_eq_true_iff_self_eq_zero.1 h) hi
    rw [h2]
    by_cases h16 : i < 16
    · simp [h16, hi]
    · have h3 : n.testBit i = false := by
        apply Nat.testBit_lt_two_pow
        calc n < 2 ^ 16 := hn
          _ ≤ 2 ^ i := Nat.pow_le_pow_right (by decide) (by omega)
      simp [h3]

theorem testBit_set_pitmode (n i : Nat) :
    (n ||| VTX_PITMODE).testBit i = (n.testBit i || decide (i = 0)) := by
  have h1 : VTX_PITMODE = 1 := by decide
  rw [h1, Nat.testBit_or]
  by_cases hi : i = 0
  · subst hi
    simp
  · have h2 : Nat.testBit 1 i = false := by
      cases h : Nat.testBit 1 i
      · rfl
      · exact absurd (Nat.testBit_one_eq_true_iff_self_eq_zero.1 h) hi
    rw [h2]
    simp [hi]

/-- The configured options word after `update()` on an enabled module. -/
theorem update_options_word (s : AP_VideoTX) (armed : Bool) (he : s._enabled.get ≠ 0) :
    (armed = true → s.get_configured_options.testBit 0 = true →
      (s.get_configured_options.testBit 2 = true ∨ s.get_configured_options.testBit 1 = true) →
      (s.update armed).get_configured_options
        = s.get_configured_options &&& (0xFFFF - VTX_PITMODE))
    ∧ (armed = false → s.get_configured_options.testBit 0 = false →
      s.get_configured_options.testBit 2 = true →
      (s.update armed).get_configured_options = s.get_configured_options ||| VTX_PITMODE)
    ∧ (¬ (armed = true ∧ s.get_configured_options.testBit 0 = true
          ∧ (s.get_configured_options.testBit 2 = true
            ∨ s.get_configured_options.testBit 1 = true)) →
      ¬ (armed = false ∧ s.get_configured_options.testBit 0 = false
          ∧ s.get_configured_options.testBit 2 = true) →
      (s.update armed)._options = s._options) := by
  obtain ⟨ho, -⟩ := update_enabled s armed he
  have hlt : s.get_configured_options < 65536 := uint16_t_lt _
  have e0 : s.has_option VTX_PITMODE = s.get_configured_options.testBit 0 := has_option_bit s 0
  have e1 : s.has_option VTX_PITMODE_UNTIL_ARM = s.get_configured_options.testBit 1 :=
    has_option_bit s 1
  have e2 : s.has_option VTX_PITMODE_ON_DISARM = s.get_configured_options.testBit 2 :=
    has_option_bit s 2
  rw [e0, e1, e2] at ho
  refine ⟨?_, ?_, ?_⟩
  · intro ha h0 h21
    have hc : (s.get_configured_options.testBit 2 || s.get_configured_options.testBit 1) = true := by
      rcases h21 with h | h <;> simp [h]
    rw [if_pos hc, if_pos (by rw [ha, h0]; rfl)] at ho
    unfold get_configured_options
    rw [ho]
    simp only [AP_Int16.set, AP_Int16.get]
    apply uint16_t_int16_t
    exact Nat.lt_of_le_of_lt Nat.and_le_left (uint16_t_lt _)
  · intro ha h0 h2
    have hc : (s.get_configured_options.testBit 2 || s.get_configured_options.testBit 1) = true := by
      simp [h2]
    rw [if_pos hc, if_neg (by rw [ha]; simp), if_pos (by rw [ha, h0, h2]; rfl)] at ho
    unfold get_configured_options
    rw [ho]
    simp only [AP_Int16.set, AP_Int16.get]
    apply uint16_t_int16_t
    exact @Nat.or_lt_two_pow _ _ 16 (uint16_t_lt _) (by decide)
  · intro hn1 hn2
    rw [ho]
    split
    · rename_i hc
      split
      · rename_i hc1
        simp only [Bool.and_eq_true, Bool.or_eq_true] at hc hc1
        exact absurd ⟨hc1.1, hc1.2, hc⟩ hn1
      · split
        · rename_i hc2
          simp only [Bool.and_eq_true, Bool.not_eq_true'] at hc2
          exact absurd ⟨hc2.1.1, hc2.1.2, hc2.2⟩ hn2
        · rfl
    · rfl

/-- C9: `update()` on a disabled module changes nothing.  On an enabled module the
configured options keep every bit but bit 0 (PITMODE); bit 0 is cleared when armed with
PITMODE set and PITMODE_ON_DISARM or PITMODE_UNTIL_ARM set, it is set when not armed with
PITMODE clear and PITMODE_ON_DISARM set, and in every other case the options parameter is
unchanged.  Armed with options PITMODE | PITMODE_UNTIL_ARM (3) the options become 2. -/
theorem update_pitmode_logic (s : AP_VideoTX) (armed : Bool) :
    (s._enabled.get = 0 → s.update armed = s)
    ∧ (s._enabled.get ≠ 0 →
      (∀ i, i ≠ 0 →
        (s.update armed).get_configured_options.testBit i = s.get_configured_options.testBit i)
      ∧ (armed = true → s.get_configured_options.testBit 0 = true →
          (s.get_configured_options.testBit 2 = true
            ∨ s.get_configured_options.testBit 1 = true) →
          (s.update armed).get_configured_options.testBit 0 = false)
      ∧ (armed = false → s.get_configured_options.testBit 0 = false →
          s.get_configured_options.testBit 2 = true →
          (s.update armed).get_configured_options.testBit 0 = true)
      ∧ (¬ (armed = true ∧ s.get_configured_options.testBit 0 = true
            ∧ (s.get_configured_options.testBit 2 = true
              ∨ s.get_configured_options.testBit 1 = true)) →
          ¬ (armed = false ∧ s.get_configured_options.testBit 0 = false
            ∧ s.get_configured_options.testBit 2 = true) →
          (s.update armed)._options = s._options))
    ∧ pitmode_until_arm_state._enabled.get ≠ 0
    ∧ pitmode_until_arm_state.get_configured_options = 3
    ∧ (pitmode_until_arm_state.update true).get_configured_options = 2 := by
  refine ⟨?_, ?_, by decide, by decide, by decide⟩
  · intro h0
    unfold update
    rw [if_pos h0]
  · intro he
    obtain ⟨hclr, hset, hsame⟩ := update_options_word s armed he
    have hlt : s.get_configured_options < 65536 := uint16_t_lt _
    refine ⟨?_, ?_, ?_, hsame⟩
    · intro i hi
      by_cases c1 : armed = true ∧ s.get_configured_options.testBit 0 = true
          ∧ (s.get_configured_options.testBit 2 = true
            ∨ s.get_configured_options.testBit 1 = true)
      · rw [hclr c1.1 c1.2.1 c1.2.2, testBit_clear_pitmode _ hlt]
        simp [hi]
      · by_cases c2 : armed = false ∧ s.get_configured_options.testBit 0 = false
            ∧ s.get_configured_options.testBit 2 = true
        · rw [hset c2.1 c2.2.1 c2.2.2, testBit_set_pitmode]
          simp [hi]
        · unfold get_configured_options
          rw [hsame c1 c2]
    · intro ha h0 h21
      rw [hclr ha h0 h21, testBit_clear_pitmode _ hlt]
      simp
    · intro ha h0 h2
      rw [hset ha h0 h2, testBit_set_pitmode]
      simp

/-- The entry `find_current_power()` returns when the configured power differs from the
currently selected entry's mw: the first entry whose mw is the configured power, entry 0
when there is none. -/
theorem find_current_power_of_ne (s : AP_VideoTX)
    (hne : s._power_mw.get ≠ (s.get_power_mw : Int)) :
    (∀ i, i < VTX_MAX_POWER_LEVELS → ((s.power_level i).mw : Int) = s._power_mw.get →
        (∀ j, j < i → ((s.power_level j).mw : Int) ≠ s._power_mw.get) →
        s.find_current_power = i)
    ∧ ((∀ i, i < VTX_MAX_POWER_LEVELS → ((s.power_level i).mw : Int) ≠ s._power_mw.get) →
        s.find_current_power = 0) := by
  have hfirst : ¬ (s._current_power < VTX_MAX_POWER_LEVELS
      ∧ s._power_mw.get = ((s.power_level s._current_power).mw : Int)) := by
    intro h
    exact hne h.2
  constructor
  · intro i hi hmw hprev
    unfold find_current_power
    rw [if_neg hfirst]
    have hloop : for_return (fun i =>
        if s._power_mw.get = ((s.power_level i).mw : Int) then some i else none)
        VTX_MAX_POWER_LEVELS 0 = some i := by
      rw [for_return_eq_some]
      refine ⟨i, Nat.zero_le i, by omega, by rw [if_pos hmw.symm], ?_⟩
      intro m _ hm
      rw [if_neg (fun h => hprev m hm h.symm)]
    rw [hloop]
  · intro hnone
    unfold find_current_power
    rw [if_neg hfirst]
    have hloop : for_return (fun i =>
        if s._power_mw.get = ((s.power_level i).mw : Int) then some i else none)
        VTX_MAX_POWER_LEVELS 0 = none := by
      rw [for_return_eq_none]
      intro k _ hk
      rw [if_neg (fun h => hnone k (by omega) h.symm)]
    rw [hloop]

/-- C10 as stated fails in both directions.  In the first state the configured 200 mW
differs from the currently selected entry (25 mW), which is Inactive, and `update()`
leaves the configured power at 200.  In the second state the currently selected entry
(200 mW) is not Inactive, and `update()` changes the configured power from 25 to 200,
because the 25 mW entry is Inactive. -/
theorem update_power_reset_counterexample :
    (current_entry_denied_state._enabled.get ≠ 0
      ∧ current_entry_denied_state._power_mw.get = 200
      ∧ current_entry_denied_state.get_power_mw = 25
      ∧ (current_entry_denied_state.power_level
          current_entry_denied_state._current_power).active = PowerActive.Inactive
      ∧ (current_entry_denied_state.update false)._power_mw.get = 200)
    ∧ (requested_entry_denied_state._enabled.get ≠ 0
      ∧ requested_entry_denied_state._power_mw.get = 25
      ∧ requested_entry_denied_state.get_power_mw = 200
      ∧ (requested_entry_denied_state.power_level
          requested_entry_denied_state._current_power).active = PowerActive.Unknown
      ∧ (requested_entry_denied_state.update false)._power_mw.get = 200) := by
  decide

/-- C10, amended: in `update()` with the module enabled, the configured power is
overwritten exactly when it differs from the currently selected entry's mw and the entry
`find_current_power()` finds for the configured power (the first entry whose mw equals it,
entry 0 when there is none) is Inactive; it is then set to the currently selected entry's
mw, and is otherwise left unchanged. -/
theorem update_resets_denied_power (s : AP_VideoTX) (armed : Bool)
    (he : s._enabled.get ≠ 0) :
    (s.update armed)._power_mw =
      (if s._power_mw.get ≠ (s.get_power_mw : Int)
          ∧ (s.power_level s.find_current_power).active = PowerActive.Inactive then
        s._power_mw.set_and_save (s.get_power_mw : Int)
      else s._power_mw)
    ∧ (s._power_mw.get ≠ (s.get_power_mw : Int) →
        (∀ i, i < VTX_MAX_POWER_LEVELS → ((s.power_level i).mw : Int) = s._power_mw.get →
          (∀ j, j < i → ((s.power_level j).mw : Int) ≠ s._power_mw.get) →
          s.find_current_power = i)
        ∧ ((∀ i, i < VTX_MAX_POWER_LEVELS →
            ((s.power_level i).mw : Int) ≠ s._power_mw.get) →
          s.find_current_power = 0))
    ∧ (s.get_power_mw < 32768 →
        ((s.update armed)._power_mw.get ≠ s._power_mw.get
          ↔ s._power_mw.get ≠ (s.get_power_mw : Int)
            ∧ (s.power_level s.find_current_power).active = PowerActive.Inactive)
        ∧ (s._power_mw.get ≠ (s.get_power_mw : Int) →
            (s.power_level s.find_current_power).active = PowerActive.Inactive →
            (s.update armed)._power_mw.get = (s.get_power_mw : Int))) := by
  obtain ⟨-, hp⟩ := update_enabled s armed he
  refine ⟨hp, find_current_power_of_ne s, ?_⟩
  intro hlt
  rw [hp]
  by_cases hc : s._power_mw.get ≠ (s.get_power_mw : Int)
      ∧ (s.power_level s.find_current_power).active = PowerActive.Inactive
  · rw [if_pos hc]
    have hv : (s._power_mw.set_and_save (s.get_power_mw : Int)).get = (s.get_power_mw : Int) := by
      simp only [AP_Int16.set_and_save, AP_Int16.set, AP_Int16.get]
      exact int16_t_natCast _ hlt
    rw [hv]
    exact ⟨⟨fun _ => hc, fun _ => fun h => hc.1 h.symm⟩, fun _ _ => rfl⟩
  · rw [if_neg hc]
    exact ⟨⟨fun h => absurd rfl h, fun h => absurd h hc⟩, fun h1 h2 => absurd ⟨h1, h2⟩ hc⟩

/-- C10, amended, on the state where the user asks for the denied 25 mW while the VTX is
on 200 mW: the configured power becomes 200. -/
theorem update_resets_denied_power_witness :
    requested_entry_denied_state._enabled.get ≠ 0
    ∧ requested_entry_denied_state.find_current_power = 1
    ∧ (requested_entry_denied_state.update false)._power_mw =
      (if requested_entry_denied_state._power_mw.get
            ≠ (requested_entry_denied_state.get_power_mw : Int)
          ∧ (requested_entry_denied_state.power_level
              requested_entry_denied_state.find_current_power).active
            = PowerActive.Inactive then
        requested_entry_denied_state._power_mw.set_and_save
          (requested_entry_denied_state.get_power_mw : Int)
      else requested_entry_denied_state._power_mw)
    ∧ (requested_entry_denied_state.update false)._power_mw.get = 200 :=
  ⟨by decide, by decide,
    (update_resets_denied_power requested_entry_denied_state false (by decide)).1,
    by decide⟩

end AP_VideoTX

/-! ## Power table writes -/

namespace AP_VideoTX

theorem power_level_write_level (s : AP_VideoTX) (i : Nat) (f : PowerLevel → PowerLevel)
    (j : Nat) :
    (s.write_level i f).power_level j =
      if j = i ∧ i < s._power_levels.length then f (s.power_level i) else s.power_level j := by
  unfold write_level power_level
  simp only [List.getD_eq_getElem?_getD, List.getElem?_set]
  by_cases hij : i = j
  · subst hij
    by_cases hlt : i < s._power_levels.length
    · simp [hlt]
    · simp [hlt, List.getElem?_eq_none (Nat.le_of_not_lt hlt)]
  · have hji : ¬ j = i := fun h => hij h.symm
    simp [hij, hji]

theorem length_write_level (s : AP_VideoTX) (i : Nat) (f : PowerLevel → PowerLevel) :
    (s.write_level i f)._power_levels.length = s._power_levels.length := by
  unfold write_level
  simp only [List.length_set]

theorem power_level_write_active (s : AP_VideoTX) (i : Nat) (a : PowerActive) (j : Nat) :
    (s.write_active i a).power_level j =
      if j = i ∧ i < s._power_levels.length then { s.power_level i with active := a }
      else s.power_level j := by
  unfold write_active
  rw [power_level_write_level]

theorem length_write_active (s : AP_VideoTX) (i : Nat) (a : PowerActive) :
    (s.write_active i a)._power_levels.length = s._power_levels.length := by
  unfold write_active
  exact length_write_level s i _

theorem power_level_set_current (s : AP_VideoTX) (c j : Nat) :
    ({ s with _current_power := c } : AP_VideoTX).power_level j = s.power_level j := rfl

theorem write_level_fields (s : AP_VideoTX) (i : Nat) (f : PowerLevel → PowerLevel) :
    (s.write_level i f)._power_vals = s._power_vals
    ∧ (s.write_level i f)._current_power = s._current_power
    ∧ (s.write_level i f)._max_power_mw = s._max_power_mw
    ∧ (s.write_level i f)._num_active_levels = s._num_active_levels
    ∧ (s.write_level i f)._power_mw = s._power_mw
    ∧ (s.write_level i f)._options = s._options := by
  unfold write_level
  exact ⟨rfl, rfl, rfl, rfl, rfl, rfl⟩

theorem power_val_write_level (s : AP_VideoTX) (i : Nat) (f : PowerLevel → PowerLevel)
    (j : Nat) : (s.write_level i f).power_val j = s.power_val j := rfl

/-- A loop over the table whose step `i` rewrites entry `i` by `F` and nothing else, under
an invariant `Inv` of the loop, rewrites the entries it visits by `F`. -/
theorem for_loop_pointwise (body : Nat → AP_VideoTX → AP_VideoTX)
    (Inv : AP_VideoTX → Prop) (F : PowerLevel → PowerLevel)
    (hInv : ∀ j t, Inv t → Inv (body j t))
    (hlen : ∀ j t, (body j t)._power_levels.length = t._power_levels.length)
    (hbody : ∀ j t k, Inv t → j < t._power_levels.length →
      (body j t).power_level k = if k = j then F (t.power_level j) else t.power_level k)
    (n i : Nat) (s : AP_VideoTX) (hs : Inv s) (hn : i + n ≤ s._power_levels.length) :
    Inv (for_loop body n i s)
    ∧ (for_loop body n i s)._power_levels.length = s._power_levels.length
    ∧ ∀ k, (for_loop body n i s).power_level k =
        if i ≤ k ∧ k < i + n then F (s.power_level k) else s.power_level k := by
  induction n generalizing i s with
  | zero =>
    refine ⟨hs, rfl, ?_⟩
    intro k
    rw [if_neg (by omega)]
    rfl
  | succ n ih =>
    unfold for_loop
    have hl := hlen i s
    obtain ⟨h1, h2, h3⟩ := ih (i + 1) (body i s) (hInv i s hs) (by omega)
    refine ⟨h1, by omega, ?_⟩
    intro k
    rw [h3 k]
    by_cases hk : i + 1 ≤ k ∧ k < i + 1 + n
    · rw [if_pos hk, if_pos (by omega), hbody i s k hs (by omega), if_neg (by omega)]
    · rw [if_neg hk, hbody i s k hs (by omega)]
      by_cases hki : k = i
      · rw [if_pos hki, if_pos (by omega), hki]
      · rw [if_neg hki, if_neg (by omega)]

end AP_VideoTX

/-! ## Custom level validation -/

namespace AP_VideoTX

theorem power_val_congr (s t : AP_VideoTX) (h : t._power_vals = s._power_vals) (j : Nat) :
    t.power_val j = s.power_val j := by
  unfold power_val
  rw [h]

/-- The entry `validate_cpowlevs()` leaves in place of the entry `l`. -/
theorem validate_cpowlevs_entries (s : AP_VideoTX)
    (hlen : s._power_levels.length = VTX_MAX_POWER_LEVELS) :
    s.validate_cpowlevs._power_vals = s._power_vals
    ∧ s.validate_cpowlevs._power_levels.length = s._power_levels.length
    ∧ ∀ k, s.validate_cpowlevs.power_level k =
        if k < VTX_MAX_POWER_LEVELS then
          { s.power_level k with active :=
              if (for_return (fun j =>
                  if (s.power_val j).mw = (s.power_level k).mw then some j else none)
                  VTX_MAX_ADJUSTABLE_POWER_LEVELS 0).isSome then .Active else .Inactive }
        else s.power_level k := by
  have h := for_loop_pointwise
    (fun i t =>
      let t1 := t.write_active i .Inactive
      match for_return
          (fun j => if (t1.power_val j).mw = (t1.power_level i).mw then some j else none)
          VTX_MAX_ADJUSTABLE_POWER_LEVELS 0 with
      | some _ => t1.write_active i .Active
      | none => t1)
    (fun t => t._power_vals = s._power_vals)
    (fun l => { l with active :=
      if (for_return (fun j => if (s.power_val j).mw = l.mw then some j else none)
          VTX_MAX_ADJUSTABLE_POWER_LEVELS 0).isSome then .Active else .Inactive })
    (by
      intro j t ht
      simp only
      split
      · exact ht
      · exact ht)
    (by
      intro j t
      simp only
      split
      · rw [length_write_active, length_write_active]
      · rw [length_write_active])
    (by
      intro j t k ht hj
      simp only
      have hv : ∀ m, (t.write_active j .Inactive).power_val m = s.power_val m := fun m =>
        power_val_congr s _ ht m
      have hmw : ((t.write_active j .Inactive).power_level j).mw = (t.power_level j).mw := by
        rw [power_level_write_active, if_pos ⟨rfl, hj⟩]
      simp only [hv, hmw]
      cases hres : for_return (fun m =>
          if (s.power_val m).mw = (t.power_level j).mw then some m else none)
          VTX_MAX_ADJUSTABLE_POWER_LEVELS 0 with
      | none =>
        simp only [Option.isSome_none, Bool.false_eq_true, if_false]
        rw [power_level_write_active]
        by_cases hk : k = j
        · rw [if_pos ⟨hk, hj⟩, if_pos hk]
        · rw [if_neg (fun h => hk h.1), if_neg hk]
      | some r =>
        simp only [Option.isSome_some, if_true]
        rw [power_level_write_active, length_write_active]
        by_cases hk : k = j
        · rw [if_pos ⟨hk, hj⟩, if_pos hk, power_level_write_active, if_pos ⟨rfl, hj⟩]
        · rw [if_neg (fun h => hk h.1), if_neg hk, power_level_write_active,
            if_neg (fun h => hk h.1)])
    VTX_MAX_POWER_LEVELS 0 s rfl (by omega)
  obtain ⟨h1, h2, h3⟩ := h
  refine ⟨h1, h2, ?_⟩
  intro k
  have := h3 k
  unfold validate_cpowlevs
  rw [this]
  by_cases hk : k < VTX_MAX_POWER_LEVELS
  · rw [if_pos ⟨Nat.zero_le k, by omega⟩, if_pos hk]
  · rw [if_neg (by omega), if_neg hk]

/-- C20: after `validate_cpowlevs()` every entry of the 19-slot power table keeps its
level id, mw, dbm and dac, is Active exactly when its mw is the mw of one of the six slots
of the power value table, is Inactive otherwise, and so is never Unknown; the power value
table is not changed. -/
theorem validate_cpowlevs_active_iff (s : AP_VideoTX)
    (hlen : s._power_levels.length = VTX_MAX_POWER_LEVELS) (i : Nat)
    (hi : i < VTX_MAX_POWER_LEVELS) :
    (s.validate_cpowlevs.power_level i).level = (s.power_level i).level
    ∧ (s.validate_cpowlevs.power_level i).mw = (s.power_level i).mw
    ∧ (s.validate_cpowlevs.power_level i).dbm = (s.power_level i).dbm
    ∧ (s.validate_cpowlevs.power_level i).dac = (s.power_level i).dac
    ∧ ((s.validate_cpowlevs.power_level i).active = PowerActive.Active
        ↔ ∃ j, j < VTX_MAX_ADJUSTABLE_POWER_LEVELS ∧ (s.power_val j).mw = (s.power_level i).mw)
    ∧ ((¬ ∃ j, j < VTX_MAX_ADJUSTABLE_POWER_LEVELS ∧ (s.power_val j).mw = (s.power_level i).mw)
        → (s.validate_cpowlevs.power_level i).active = PowerActive.Inactive)
    ∧ (s.validate_cpowlevs.power_level i).active ≠ PowerActive.Unknown
    ∧ s.validate_cpowlevs._power_vals = s._power_vals
    ∧ s.validate_cpowlevs._power_levels.length = VTX_MAX_POWER_LEVELS := by
  obtain ⟨h1, h2, h3⟩ := validate_cpowlevs_entries s hlen
  rw [h3 i, if_pos hi]
  have hex : (for_return (fun j =>
      if (s.power_val j).mw = (s.power_level i).mw then some j else none)
      VTX_MAX_ADJUSTABLE_POWER_LEVELS 0).isSome = true
      ↔ ∃ j, j < VTX_MAX_ADJUSTABLE_POWER_LEVELS ∧ (s.power_val j).mw = (s.power_level i).mw := by
    cases hres : for_return (fun j =>
        if (s.power_val j).mw = (s.power_level i).mw then some j else none)
        VTX_MAX_ADJUSTABLE_POWER_LEVELS 0 with
    | none =>
      simp only [Option.isSome_none, Bool.false_eq_true, false_iff]
      rintro ⟨j, hj, hmw⟩
      have := (for_return_eq_none _ _ _).1 hres j (Nat.zero_le j) (by omega)
      rw [if_pos hmw] at this
      cases this
    | some r =>
      simp only [Option.isSome_some, true_iff]
      obtain ⟨k, -, hk, hb, -⟩ := (for_return_eq_some _ _ _ _).1 hres
      refine ⟨k, by omega, ?_⟩
      by_contra hne
      rw [if_neg hne] at hb
      cases hb
  refine ⟨rfl, rfl, rfl, rfl, ?_, ?_, ?_, h1, by rw [h2, hlen]⟩
  · rw [← hex]
    cases (for_return (fun j =>
        if (s.power_val j).mw = (s.power_level i).mw then some j else none)
        VTX_MAX_ADJUSTABLE_POWER_LEVELS 0).isSome <;> simp
  · intro hno
    have hf : (for_return (fun j =>
        if (s.power_val j).mw = (s.power_level i).mw then some j else none)
        VTX_MAX_ADJUSTABLE_POWER_LEVELS 0).isSome = false := by
      cases h : (for_return (fun j =>
        if (s.power_val j).mw = (s.power_level i).mw then some j else none)
        VTX_MAX_ADJUSTABLE_POWER_LEVELS 0).isSome
      · rfl
      · exact absurd (hex.1 h) hno
    simp only [hf, Bool.false_eq_true, if_false]
  · cases (for_return (fun j =>
        if (s.power_val j).mw = (s.power_level i).mw then some j else none)
        VTX_MAX_ADJUSTABLE_POWER_LEVELS 0).isSome <;> simp

/-- C20 on the initial power table with the FXR10 power values, at the 500 mW entry. -/
theorem validate_cpowlevs_active_iff_witness :
    fxr10_vals_state._power_levels.length = VTX_MAX_POWER_LEVELS
    ∧ 5 < VTX_MAX_POWER_LEVELS
    ∧ (fxr10_vals_state.validate_cpowlevs.power_level 5).mw = 500
    ∧ ((fxr10_vals_state.validate_cpowlevs.power_level 5).active = PowerActive.Active
        ↔ ∃ j, j < VTX_MAX_ADJUSTABLE_POWER_LEVELS
          ∧ (fxr10_vals_state.power_val j).mw = (fxr10_vals_state.power_level 5).mw)
    ∧ (fxr10_vals_state.validate_cpowlevs.power_level 5).active = PowerActive.Active
    ∧ (fxr10_vals_state.validate_cpowlevs.power_level 1).active = PowerActive.Inactive :=
  have h := validate_cpowlevs_active_iff fxr10_vals_state (by decide) 5 (by decide)
  ⟨by decide, by decide, by decide, h.2.2.2.2.1, by decide, by decide⟩

end AP_VideoTX

/-! ## Learning from dBm values -/

namespace AP_VideoTX

theorem power_level_active_self (l : PowerLevel) : ({ l with active := l.active } : PowerLevel) = l := by
  cases l
  rfl

/-- What `update_power_dbm(power, active)` does to the table: it either finds an entry
with that dbm and sets its activity, or rewrites the reserved slot. -/
theorem update_power_dbm_cases (mw_of_dbm : Nat → Nat) (s : AP_VideoTX) (p : Nat)
    (a : PowerActive) (hlen : s._power_levels.length = VTX_MAX_POWER_LEVELS) :
    (s.update_power_dbm mw_of_dbm p a).1._power_levels.length = VTX_MAX_POWER_LEVELS
    ∧ (s.update_power_dbm mw_of_dbm p a).1._current_power = s._current_power
    ∧ ((∃ i, i < VTX_MAX_POWER_LEVELS ∧ (s.power_level i).dbm = p
          ∧ (∀ m, m < i → p < (s.power_level m).dbm)
          ∧ (s.update_power_dbm mw_of_dbm p a).2 = i
          ∧ ∀ k, (s.update_power_dbm mw_of_dbm p a).1.power_level k =
              if k = i then { s.power_level i with active := a } else s.power_level k)
      ∨ ((∀ i, i < VTX_MAX_POWER_LEVELS → (∀ m, m < i → p < (s.power_level m).dbm) →
            (s.power_level i).dbm ≠ p)
          ∧ (s.update_power_dbm mw_of_dbm p a).2 = VTX_MAX_POWER_LEVELS - 1
          ∧ ∀ k, (s.update_power_dbm mw_of_dbm p a).1.power_level k =
              if k = VTX_MAX_POWER_LEVELS - 1 then ⟨255, mw_of_dbm p, p, 255, a⟩
              else s.power_level k)) := by
  unfold update_power_dbm
  cases hres : for_while_return
      (fun i => decide (p ≤ (s.power_level i).dbm))
      (fun i => if p = (s.power_level i).dbm then some i else none)
      VTX_MAX_POWER_LEVELS 0 with
  | some i =>
    obtain ⟨k, -, hk, hb, -, hprev⟩ := (for_while_return_eq_some _ _ _ _ _).1 hres
    have hpk : p = (s.power_level k).dbm := by
      by_contra hne
      rw [if_neg hne] at hb
      cases hb
    rw [if_pos hpk] at hb
    have hki : k = i := Option.some.inj hb
    subst hki
    simp only
    have hprev' : ∀ m, m < k → p < (s.power_level m).dbm := by
      intro m hm
      obtain ⟨h1, h2⟩ := hprev m (Nat.zero_le m) hm
      have hle : p ≤ (s.power_level m).dbm := by simpa using h1
      have hne : p ≠ (s.power_level m).dbm := by
        intro he
        rw [if_pos he] at h2
        cases h2
      omega
    by_cases hact : (s.power_level k).active ≠ a
    · rw [if_pos hact]
      refine ⟨by rw [length_write_active, hlen], (write_level_fields s k _).2.1, Or.inl ?_⟩
      refine ⟨k, by omega, hpk.symm, hprev', rfl, ?_⟩
      intro j
      rw [power_level_write_active]
      by_cases hj : j = k
      · rw [if_pos ⟨hj, by omega⟩, if_pos hj]
      · rw [if_neg (fun h => hj h.1), if_neg hj]
    · rw [if_neg hact]
      refine ⟨hlen, rfl, Or.inl ?_⟩
      refine ⟨k, by omega, hpk.symm, hprev', rfl, ?_⟩
      intro j
      by_cases hj : j = k
      · rw [if_pos hj, hj, ← not_not.1 hact, power_level_active_self]
      · rw [if_neg hj]
  | none =>
    simp only
    refine ⟨by rw [length_write_level, hlen], (write_level_fields s _ _).2.1, Or.inr ?_⟩
    refine ⟨?_, trivial, ?_⟩
    · intro i hi hprev heq
      have hsome : for_while_return
          (fun i => decide (p ≤ (s.power_level i).dbm))
          (fun i => if p = (s.power_level i).dbm then some i else none)
          VTX_MAX_POWER_LEVELS 0 = some i := by
        rw [for_while_return_eq_some]
        refine ⟨i, Nat.zero_le i, by omega, by rw [if_pos heq.symm], by simp [heq], ?_⟩
        intro m _ hm
        have := hprev m hm
        refine ⟨by simp; omega, ?_⟩
        rw [if_neg (by omega)]
      rw [hres] at hsome
      cases hsome
    · intro j
      rw [power_level_write_level]
      by_cases hj : j = VTX_MAX_POWER_LEVELS - 1
      · rw [if_pos ⟨hj, by rw [hlen]; decide⟩, if_pos hj]
      · rw [if_neg (fun h => hj h.1), if_neg hj]

/-- C18 fails on the claim's own example: on the initial table `update_power_dbm(14,
Active)` returns 18, not 1, writes 14 dBm into the reserved slot and leaves the 25 mW
entry Unknown, because the loop guard `power <= _power_levels[i].dbm` is false at
entry 0. -/
theorem update_power_dbm_14_takes_reserved_slot :
    (initial_state.power_level 1).dbm = 14
    ∧ (initial_state.update_power_dbm dbm_to_mw 14 PowerActive.Active).2 = 18
    ∧ ((initial_state.update_power_dbm dbm_to_mw 14 PowerActive.Active).1.power_level 1)
        = ⟨0, 25, 14, 7, PowerActive.Unknown⟩
    ∧ ((initial_state.update_power_dbm dbm_to_mw 14 PowerActive.Active).1.power_level 18)
        = ⟨255, 25, 14, 255, PowerActive.Active⟩
    ∧ (initial_state.power_level 18) = ⟨255, 0, 0, 255, PowerActive.Inactive⟩ := by
  decide

end AP_VideoTX

namespace AP_VideoTX

/-- The first loop of `update_all_power_dbm`: an entry that is Active after it was Active
before or has its dbm in the list. -/
theorem update_all_learn (mw_of_dbm : Nat → Nat) (s : AP_VideoTX) (all : List Nat)
    (power : List Nat) (t : AP_VideoTX) (hsub : ∀ p, p ∈ power → p ∈ all)
    (hlen : t._power_levels.length = VTX_MAX_POWER_LEVELS)
    (ht : ∀ i, (t.power_level i).active = PowerActive.Active →
      (s.power_level i).active = PowerActive.Active ∨ (t.power_level i).dbm ∈ all) :
    (power.foldl (fun t p => (update_power_dbm mw_of_dbm t p .Active).1) t)._power_levels.length
        = VTX_MAX_POWER_LEVELS
    ∧ ∀ i, ((power.foldl (fun t p => (update_power_dbm mw_of_dbm t p .Active).1)
          t).power_level i).active = PowerActive.Active →
        (s.power_level i).active = PowerActive.Active
        ∨ ((power.foldl (fun t p => (update_power_dbm mw_of_dbm t p .Active).1)
            t).power_level i).dbm ∈ all := by
  induction power generalizing t with
  | nil => exact ⟨hlen, ht⟩
  | cons p rest ih =>
    simp only [List.foldl_cons]
    obtain ⟨h1, -, h3⟩ := update_power_dbm_cases mw_of_dbm t p .Active hlen
    apply ih _ (fun q hq => hsub q (List.mem_cons_of_mem p hq)) h1
    intro i hact
    have hp : p ∈ all := hsub p (List.mem_cons_self p rest)
    rcases h3 with ⟨k, -, hk, -, -, hall⟩ | ⟨-, -, hall⟩
    · rw [hall i] at hact ⊢
      by_cases hik : i = k
      · rw [if_pos hik]
        right
        show (t.power_level k).dbm ∈ all
        rw [hk]; exact hp
      · rw [if_neg hik] at hact ⊢
        exact ht i hact
    · rw [hall i] at hact ⊢
      by_cases hik : i = VTX_MAX_POWER_LEVELS - 1
      · rw [if_pos hik]
        right
        exact hp
      · rw [if_neg hik] at hact ⊢
        exact ht i hact

/-- The second loop of `update_all_power_dbm`: Unknown becomes Inactive. -/
theorem retire_unknown_entries (s : AP_VideoTX)
    (hlen : s._power_levels.length = VTX_MAX_POWER_LEVELS) (k : Nat) :
    (for_loop (fun i t =>
        if (t.power_level i).active = .Unknown then t.write_active i .Inactive else t)
      VTX_MAX_POWER_LEVELS 0 s).power_level k =
      if k < VTX_MAX_POWER_LEVELS then
        (if (s.power_level k).active = .Unknown then
          { s.power_level k with active := .Inactive } else s.power_level k)
      else s.power_level k := by
  have h := for_loop_pointwise
    (fun i t => if (t.power_level i).active = .Unknown then t.write_active i .Inactive else t)
    (fun _ => True)
    (fun l => if l.active = .Unknown then { l with active := .Inactive } else l)
    (fun _ _ _ => trivial)
    (by
      intro j t
      simp only
      split
      · rw [length_write_active]
      · rfl)
    (by
      intro j t k _ hj
      simp only
      by_cases hu : (t.power_level j).active = .Unknown
      · rw [if_pos hu, if_pos hu, power_level_write_active]
        by_cases hk : k = j
        · rw [if_pos ⟨hk, hj⟩, if_pos hk]
        · rw [if_neg (fun h => hk h.1), if_neg hk]
      · rw [if_neg hu, if_neg hu]
        by_cases hk : k = j
        · rw [if_pos hk, hk]
        · rw [if_neg hk])
    VTX_MAX_POWER_LEVELS 0 s trivial (by omega)
  rw [h.2.2 k]
  by_cases hk : k < VTX_MAX_POWER_LEVELS
  · rw [if_pos ⟨Nat.zero_le k, by omega⟩, if_pos hk]
  · rw [if_neg (by omega), if_neg hk]

set_option maxRecDepth 8192 in
/-- C19 as stated fails: after `set_power_dbm(14, Active)` the 25 mW entry is Active, and
`update_all_power_dbm` with the list [20] leaves it Active although 14 is not in the
list; only the entries still Unknown are retired. -/
theorem update_all_power_dbm_keeps_active_counterexample :
    (learned_25mw_state.power_level 1).active = PowerActive.Active
    ∧ ((learned_25mw_state.update_all_power_dbm dbm_to_mw [20]).power_level 1)
        = ⟨0, 25, 14, 7, PowerActive.Active⟩
    ∧ 14 ∉ [20] := by
  decide

/-- C19, amended: after `update_all_power_dbm(L)` on the 19-slot power table no entry is
Unknown, and every entry that is Active either was Active before the call or has its dbm
in `L`. -/
theorem update_all_power_dbm_no_unknown (mw_of_dbm : Nat → Nat) (s : AP_VideoTX)
    (power : List Nat) (hlen : s._power_levels.length = VTX_MAX_POWER_LEVELS) (i : Nat)
    (hi : i < VTX_MAX_POWER_LEVELS) :
    ((s.update_all_power_dbm mw_of_dbm power).power_level i).active ≠ PowerActive.Unknown
    ∧ (((s.update_all_power_dbm mw_of_dbm power).power_level i).active = PowerActive.Active →
        (s.power_level i).active = PowerActive.Active
        ∨ ((s.update_all_power_dbm mw_of_dbm power).power_level i).dbm ∈ power) := by
  obtain ⟨h1, h2⟩ := update_all_learn mw_of_dbm s power power s (fun _ h => h) hlen
    (fun _ h => Or.inl h)
  unfold update_all_power_dbm
  simp only
  rw [retire_unknown_entries _ h1 i, if_pos hi]
  by_cases hu : ((power.foldl (fun t p => (update_power_dbm mw_of_dbm t p .Active).1)
      s).power_level i).active = .Unknown
  · rw [if_pos hu]
    refine ⟨by simp, ?_⟩
    intro h
    cases h
  · rw [if_neg hu]
    exact ⟨hu, h2 i⟩

/-- C19, amended, on the state where 25 mW is already Active, for the list [20]. -/
theorem update_all_power_dbm_no_unknown_witness :
    learned_25mw_state._power_levels.length = VTX_MAX_POWER_LEVELS
    ∧ 1 < VTX_MAX_POWER_LEVELS
    ∧ ((learned_25mw_state.update_all_power_dbm dbm_to_mw [20]).power_level 1).active
        ≠ PowerActive.Unknown
    ∧ (((learned_25mw_state.update_all_power_dbm dbm_to_mw [20]).power_level 1).active
          = PowerActive.Active →
        (learned_25mw_state.power_level 1).active = PowerActive.Active
        ∨ ((learned_25mw_state.update_all_power_dbm dbm_to_mw [20]).power_level 1).dbm
            ∈ [20]) :=
  have h := update_all_power_dbm_no_unknown dbm_to_mw learned_25mw_state [20] (by decide) 1
    (by decide)
  ⟨by decide, by decide, h.1, h.2⟩

end AP_VideoTX

namespace AP_VideoTX

/-- The table after the loop body of `set_power_dbm` at entry `i`: entry `i` has the new
activity and its level id without the flag `0x10`; one neighbour that shares this level
id, the lower one first, is retired; the other entries are as before. -/
theorem set_power_dbm_found_entries (s : AP_VideoTX) (i : Nat) (a : PowerActive)
    (hi : i < s._power_levels.length) (lv : Nat)
    (hlv : lv = if (s.power_level i).level &&& 0xF0 = 0x10
          then (s.power_level i).level &&& 0xF else (s.power_level i).level) :
    (s.set_power_dbm_found i a)._current_power = i
    ∧ (s.set_power_dbm_found i a)._power_levels.length = s._power_levels.length
    ∧ (s.set_power_dbm_found i a).power_level i
        = ⟨lv, (s.power_level i).mw, (s.power_level i).dbm, (s.power_level i).dac, a⟩
    ∧ ∀ k, k ≠ i → (s.set_power_dbm_found i a).power_level k =
        if k + 1 = i ∧ (s.power_level k).level = lv then
          ⟨0xFF, (s.power_level k).mw, (s.power_level k).dbm, (s.power_level k).dac, .Inactive⟩
        else if k = i + 1 ∧ k < s._power_levels.length ∧ i < VTX_MAX_POWER_LEVELS - 1
            ∧ ¬ (i > 0 ∧ (s.power_level (i - 1)).level = lv)
            ∧ (s.power_level k).level = lv then
          ⟨0xFF, (s.power_level k).mw, (s.power_level k).dbm, (s.power_level k).dac, .Inactive⟩
        else s.power_level k := by
  unfold set_power_dbm_found
  lift_lets
  extract_lets s1 s2 s3
  have e2 : ∀ k, s2.power_level k =
      if k = i then ⟨(s.power_level i).level, (s.power_level i).mw, (s.power_level i).dbm,
        (s.power_level i).dac, a⟩ else s.power_level k := by
    intro k
    simp only [s2]
    rw [power_level_write_active]
    by_cases hk : k = i
    · rw [if_pos ⟨hk, hi⟩, if_pos hk]; rfl
    · rw [if_neg (fun h => hk h.1), if_neg hk]; rfl
  have l2 : s2._power_levels.length = s._power_levels.length := by
    simp only [s2]
    rw [length_write_active]
  have c2 : s2._current_power = i := by
    simp only [s2]
    exact (write_level_fields s1 i _).2.1
  have e3 : ∀ k, s3.power_level k =
      if k = i then ⟨lv, (s.power_level i).mw, (s.power_level i).dbm,
        (s.power_level i).dac, a⟩ else s.power_level k := by
    intro k
    simp only [s3]
    have h2i := e2 i
    rw [if_pos rfl] at h2i
    by_cases hn : (s.power_level i).level &&& 0xF0 = 0x10
    · rw [if_pos (by rw [h2i]; exact hn), power_level_write_level, l2, h2i]
      rw [if_pos hn] at hlv
      by_cases hk : k = i
      · rw [if_pos ⟨hk, hi⟩, if_pos hk, hlv]
      · rw [if_neg (fun h => hk h.1), if_neg hk, e2 k, if_neg hk]
    · rw [if_neg (by rw [h2i]; exact hn), e2 k]
      rw [if_neg hn] at hlv
      rw [hlv]
  have l3 : s3._power_levels.length = s._power_levels.length := by
    simp only [s3]
    split
    · rw [length_write_level, l2]
    · exact l2
  have c3 : s3._current_power = i := by
    simp only [s3]
    split
    · rw [(write_level_fields s2 i _).2.1, c2]
    · exact c2
  have e3i := e3 i
  rw [if_pos rfl] at e3i
  have hlow : i > 0 → s3.power_level (i - 1) = s.power_level (i - 1) := by
    intro h
    rw [e3, if_neg (by omega)]
  have hup : s3.power_level (i + 1) = s.power_level (i + 1) := by
    rw [e3, if_neg (by omega)]
  by_cases c1 : i > 0 ∧ (s3.power_level (i - 1)).level = (s3.power_level i).level
  · rw [if_pos c1]
    have c1' : (s.power_level (i - 1)).level = lv := by
      rw [← hlow c1.1, c1.2, e3i]
    refine ⟨by rw [(write_level_fields s3 _ _).2.1, c3], by rw [length_write_level, l3], ?_, ?_⟩
    · rw [power_level_write_level, if_neg (by omega), e3i]
    · intro k hk
      rw [power_level_write_level, l3]
      by_cases hk1 : k + 1 = i
      · have hk2 : k = i - 1 := by omega
        rw [if_pos ⟨hk2, by omega⟩, if_pos ⟨hk1, by rw [hk2]; exact c1'⟩, hlow c1.1, hk2]
      · rw [if_neg (by omega), if_neg (fun h => hk1 h.1), e3 k, if_neg hk]
        rw [if_neg]
        rintro ⟨-, -, -, hno, -⟩
        exact hno ⟨c1.1, c1'⟩
  · rw [if_neg c1]
    have c1' : ¬ (i > 0 ∧ (s.power_level (i - 1)).level = lv) := by
      rintro ⟨h1, h2⟩
      apply c1
      refine ⟨h1, ?_⟩
      rw [hlow h1, h2, e3i]
    by_cases c2' : i < VTX_MAX_POWER_LEVELS - 1
        ∧ (s3.power_level (i + 1)).level = (s3.power_level i).level
    · rw [if_pos c2']
      have c2'' : (s.power_level (i + 1)).level = lv := by
        rw [← hup, c2'.2, e3i]
      refine ⟨by rw [(write_level_fields s3 _ _).2.1, c3], by rw [length_write_level, l3], ?_, ?_⟩
      · rw [power_level_write_level, if_neg (by omega), e3i]
      · intro k hk
        rw [power_level_write_level, l3]
        have hlowk : ¬ (k + 1 = i ∧ (s.power_level k).level = lv) := by
          rintro ⟨h1, h2⟩
          apply c1'
          have : k = i - 1 := by omega
          rw [this] at h2
          exact ⟨by omega, h2⟩
        rw [if_neg hlowk]
        by_cases hk1 : k = i + 1 ∧ i + 1 < s._power_levels.length
        · rw [if_pos hk1, hup, if_pos ⟨hk1.1, by rw [hk1.1]; exact hk1.2, c2'.1, c1',
            by rw [hk1.1]; exact c2''⟩, hk1.1]
        · rw [if_neg hk1, e3 k, if_neg hk, if_neg]
          rintro ⟨h1, h2, -⟩
          exact hk1 ⟨h1, by rw [← h1]; exact h2⟩
    · rw [if_neg c2']
      refine ⟨c3, l3, e3i, ?_⟩
      intro k hk
      rw [e3 k, if_neg hk]
      have hlowk : ¬ (k + 1 = i ∧ (s.power_level k).level = lv) := by
        rintro ⟨h1, h2⟩
        apply c1'
        have : k = i - 1 := by omega
        rw [this] at h2
        exact ⟨by omega, h2⟩
      rw [if_neg hlowk, if_neg]
      rintro ⟨h1, -, h3, -, h5⟩
      apply c2'
      refine ⟨h3, ?_⟩
      rw [hup, e3i, ← h1, h5]

end AP_VideoTX

namespace AP_VideoTX

/-- After `set_power_dbm(power, active)` on the 19-slot table the current entry has that
dbm and that activity. -/
theorem set_power_dbm_current_entry (mw_of_dbm : Nat → Nat) (s : AP_VideoTX) (p : Nat)
    (a : PowerActive) (hlen : s._power_levels.length = VTX_MAX_POWER_LEVELS) :
    p = ((s.set_power_dbm mw_of_dbm p a).power_level
        (s.set_power_dbm mw_of_dbm p a)._current_power).dbm
    ∧ ((s.set_power_dbm mw_of_dbm p a).power_level
        (s.set_power_dbm mw_of_dbm p a)._current_power).active = a := by
  unfold set_power_dbm
  by_cases hearly : p = (s.power_level s._current_power).dbm
      ∧ (s.power_level s._current_power).active = a
  · rw [if_pos hearly]
    exact hearly
  · rw [if_neg hearly]
    cases hres : for_return (fun i => if p = (s.power_level i).dbm then some i else none)
        VTX_MAX_POWER_LEVELS 0 with
    | some i =>
      obtain ⟨k, -, hk, hb, -⟩ := (for_return_eq_some _ _ _ _).1 hres
      have hpk : p = (s.power_level k).dbm := by
        by_contra hne
        rw [if_neg hne] at hb
        cases hb
      rw [if_pos hpk] at hb
      have hki : k = i := Option.some.inj hb
      subst hki
      simp only
      obtain ⟨h1, -, h3, -⟩ := set_power_dbm_found_entries s k a (by omega) _ rfl
      rw [h1, h3]
      exact ⟨hpk, rfl⟩
    | none =>
      simp only
      obtain ⟨-, -, h3⟩ := update_power_dbm_cases mw_of_dbm s p a hlen
      rcases h3 with ⟨i, -, hdbm, -, hret, hall⟩ | ⟨-, hret, hall⟩
      · show p = ((s.update_power_dbm mw_of_dbm p a).1.power_level
            (s.update_power_dbm mw_of_dbm p a).2).dbm
          ∧ ((s.update_power_dbm mw_of_dbm p a).1.power_level
            (s.update_power_dbm mw_of_dbm p a).2).active = a
        rw [hret, hall i, if_pos rfl]
        exact ⟨hdbm.symm, rfl⟩
      · show p = ((s.update_power_dbm mw_of_dbm p a).1.power_level
            (s.update_power_dbm mw_of_dbm p a).2).dbm
          ∧ ((s.update_power_dbm mw_of_dbm p a).1.power_level
            (s.update_power_dbm mw_of_dbm p a).2).active = a
        rw [hret, hall _, if_pos rfl]
        exact ⟨rfl, rfl⟩

theorem set_power_dbm_of_current (mw_of_dbm : Nat → Nat) (t : AP_VideoTX) (p : Nat)
    (a : PowerActive)
    (h : p = (t.power_level t._current_power).dbm ∧ (t.power_level t._current_power).active = a) :
    t.set_power_dbm mw_of_dbm p a = t := by
  unfold set_power_dbm
  rw [if_pos h]

/-- C17: `set_power_dbm` is idempotent: on every state with the 19-slot power table, for
every dBm value and activity, the second of two calls in a row changes nothing. -/
theorem set_power_dbm_idempotent (mw_of_dbm : Nat → Nat) (s : AP_VideoTX) (p : Nat)
    (a : PowerActive) (hlen : s._power_levels.length = VTX_MAX_POWER_LEVELS) :
    (s.set_power_dbm mw_of_dbm p a).set_power_dbm mw_of_dbm p a
      = s.set_power_dbm mw_of_dbm p a :=
  set_power_dbm_of_current mw_of_dbm _ p a (set_power_dbm_current_entry mw_of_dbm s p a hlen)

/-- C17 for the non-standard 13 dBm on the initial table. -/
theorem set_power_dbm_idempotent_witness :
    initial_state._power_levels.length = VTX_MAX_POWER_LEVELS
    ∧ (initial_state.set_power_dbm dbm_to_mw 13 PowerActive.Active).set_power_dbm dbm_to_mw 13
        PowerActive.Active
      = initial_state.set_power_dbm dbm_to_mw 13 PowerActive.Active :=
  ⟨by decide, set_power_dbm_idempotent dbm_to_mw initial_state 13 PowerActive.Active (by decide)⟩

theorem default_power_levels_not_active (c : Nat) :
    (default_power_levels.getD c ⟨0, 0, 0, 0, .Unknown⟩).active ≠ PowerActive.Active := by
  by_cases hc : c < 19
  · interval_cases c <;> decide
  · rw [List.getD_eq_default _ _ (by simp only [default_power_levels, List.length]; omega)]
    decide

/-- C16 as stated fails: after `set_power_dbm(28, Active)` on the initial table the 400 mW
entry still has level id 0x12 and is Unknown; the entry retired is the 500 mW one. -/
theorem set_power_dbm_28_keeps_400mw_counterexample :
    (initial_state.power_level 4) = ⟨0x12, 400, 26, 0xFF, PowerActive.Unknown⟩
    ∧ ((initial_state.set_power_dbm dbm_to_mw 28 PowerActive.Active).power_level 4)
        = ⟨0x12, 400, 26, 0xFF, PowerActive.Unknown⟩
    ∧ ((initial_state.set_power_dbm dbm_to_mw 28 PowerActive.Active).power_level 5)
        = ⟨0xFF, 500, 27, 25, PowerActive.Inactive⟩ := by
  decide

/-- C16, amended: on the initial power table `set_power_dbm(28, Active)` makes the 600 mW
entry the current entry, marks it Active and narrows its level id from 0x12 to 2; the
adjacent 500 mW entry, whose level id is 2, gets level id 0xFF and becomes Inactive; the
400 mW entry and every other entry are unchanged. -/
theorem set_power_dbm_28_on_default (mw_of_dbm : Nat → Nat) (s : AP_VideoTX)
    (h : s._power_levels = default_power_levels) :
    (s.set_power_dbm mw_of_dbm 28 PowerActive.Active)._current_power = 6
    ∧ (s.set_power_dbm mw_of_dbm 28 PowerActive.Active).power_level 6
        = ⟨2, 600, 28, 0xFF, PowerActive.Active⟩
    ∧ (s.set_power_dbm mw_of_dbm 28 PowerActive.Active).power_level 5
        = ⟨0xFF, 500, 27, 25, PowerActive.Inactive⟩
    ∧ (s.set_power_dbm mw_of_dbm 28 PowerActive.Active).power_level 4
        = ⟨0x12, 400, 26, 0xFF, PowerActive.Unknown⟩
    ∧ ∀ k, k ≠ 5 → k ≠ 6 →
        (s.set_power_dbm mw_of_dbm 28 PowerActive.Active).power_level k = s.power_level k := by
  have hpl : ∀ k, s.power_level k = default_power_levels.getD k ⟨0, 0, 0, 0, .Unknown⟩ := by
    intro k
    unfold power_level
    rw [h]
  have hearly : ¬ (28 = (s.power_level s._current_power).dbm
      ∧ (s.power_level s._current_power).active = PowerActive.Active) := by
    rintro ⟨-, h2⟩
    rw [hpl] at h2
    exact default_power_levels_not_active _ h2
  have hloop : for_return (fun i => if 28 = (s.power_level i).dbm then some i else none)
      VTX_MAX_POWER_LEVELS 0 = some 6 := by
    simp only [hpl]
    decide
  have hfound : s.set_power_dbm mw_of_dbm 28 PowerActive.Active
      = s.set_power_dbm_found 6 PowerActive.Active := by
    unfold set_power_dbm
    rw [if_neg hearly, hloop]
  have hlv : (2 : Nat) = if (s.power_level 6).level &&& 0xF0 = 0x10
      then (s.power_level 6).level &&& 0xF else (s.power_level 6).level := by
    rw [hpl]
    decide
  obtain ⟨h1, -, h3, h4⟩ := set_power_dbm_found_entries s 6 PowerActive.Active
    (by rw [h]; decide) 2 hlv
  rw [hfound]
  refine ⟨h1, ?_, ?_, ?_, ?_⟩
  · rw [h3, hpl]
    decide
  · rw [h4 5 (by decide), if_pos ⟨rfl, by rw [hpl]; decide⟩, hpl]
    decide
  · rw [h4 4 (by decide), if_neg (fun hc => absurd hc.1 (by decide)),
      if_neg (fun hc => absurd hc.1 (by decide)), hpl]
    decide
  · intro k hk5 hk6
    rw [h4 k hk6, if_neg (fun hc => hk5 (by omega)), if_neg]
    rintro ⟨-, -, -, hno, -⟩
    apply hno
    refine ⟨by decide, ?_⟩
    rw [hpl]
    decide

/-- C16, amended, on the initial state. -/
theorem set_power_dbm_28_on_default_witness :
    initial_state._power_levels = default_power_levels
    ∧ (initial_state.set_power_dbm dbm_to_mw 28 PowerActive.Active)._current_power = 6
    ∧ (initial_state.set_power_dbm dbm_to_mw 28 PowerActive.Active).power_level 6
        = ⟨2, 600, 28, 0xFF, PowerActive.Active⟩
    ∧ (initial_state.set_power_dbm dbm_to_mw 28 PowerActive.Active).power_level 5
        = ⟨0xFF, 500, 27, 25, PowerActive.Inactive⟩ :=
  have h := set_power_dbm_28_on_default dbm_to_mw initial_state rfl
  ⟨rfl, h.1, h.2.1, h.2.2.1⟩

/-- C15 as stated fails after `set_power_dbm(26, Active)` and `set_power_dbm(28, Active)`
on the initial table: the 400 mW entry and the 600 mW entry are both Active with level
id 2.  The invalidation step of `set_power_dbm` tests the two neighbours of the matched
entry only; the first call retires the 500 mW entry between them, so the second call
finds no neighbour with level id 2 to retire. -/
theorem set_power_dbm_26_28_share_level_counterexample :
    learned_400_600_state = run_set_power_dbm dbm_to_mw initial_state
        [(26, PowerActive.Active), (28, PowerActive.Active)]
    ∧ learned_400_600_state.power_level 4 = ⟨2, 400, 26, 0xFF, PowerActive.Active⟩
    ∧ learned_400_600_state.power_level 5 = ⟨0xFF, 500, 27, 25, PowerActive.Inactive⟩
    ∧ learned_400_600_state.power_level 6 = ⟨2, 600, 28, 0xFF, PowerActive.Active⟩
    ∧ ¬ active_levels_distinct learned_400_600_state := by
  refine ⟨rfl, by decide, by decide, by decide, ?_⟩
  intro hd
  exact hd 4 6 (by decide) (by decide) (by decide) (by decide) (by decide) (by decide)

end AP_VideoTX

/-! ## The order of the power table -/

namespace AP_VideoTX

theorem same_standard_mw_refl (s : AP_VideoTX) : same_standard_mw s s :=
  ⟨rfl, fun _ _ => rfl⟩

theorem same_standard_mw_trans {s t u : AP_VideoTX} (h1 : same_standard_mw s t)
    (h2 : same_standard_mw t u) : same_standard_mw s u :=
  ⟨h2.1.trans h1.1, fun k hk => (h2.2 k hk).trans (h1.2 k hk)⟩

theorem same_standard_mw_of_table (s t : AP_VideoTX) (h : t._power_levels = s._power_levels) :
    same_standard_mw s t := by
  unfold same_standard_mw power_level
  rw [h]
  exact ⟨rfl, fun _ _ => rfl⟩

theorem same_standard_mw_write (s : AP_VideoTX) (i : Nat) (f : PowerLevel → PowerLevel)
    (hf : ∀ l, (f l).mw = l.mw) : same_standard_mw s (s.write_level i f) := by
  refine ⟨length_write_level s i f, ?_⟩
  intro k _
  rw [power_level_write_level]
  split
  · rename_i h
    rw [hf, h.1]
  · rfl

theorem same_standard_mw_write_active (s : AP_VideoTX) (i : Nat) (a : PowerActive) :
    same_standard_mw s (s.write_active i a) :=
  same_standard_mw_write s i _ (fun _ => rfl)

theorem same_standard_mw_write_last (s : AP_VideoTX) (f : PowerLevel → PowerLevel) :
    same_standard_mw s (s.write_level (VTX_MAX_POWER_LEVELS - 1) f) := by
  refine ⟨length_write_level s _ f, ?_⟩
  intro k hk
  rw [power_level_write_level, if_neg (fun h => hk h.1)]

theorem same_standard_mw_for_loop (body : Nat → AP_VideoTX → AP_VideoTX)
    (hbody : ∀ i t, same_standard_mw t (body i t)) (n i : Nat) (s : AP_VideoTX) :
    same_standard_mw s (for_loop body n i s) := by
  induction n generalizing i s with
  | zero => exact same_standard_mw_refl s
  | succ n ih =>
    unfold for_loop
    exact same_standard_mw_trans (hbody i s) (ih (i + 1) (body i s))

theorem same_standard_mw_update_power_dbm (mw_of_dbm : Nat → Nat) (s : AP_VideoTX) (p : Nat)
    (a : PowerActive) : same_standard_mw s (s.update_power_dbm mw_of_dbm p a).1 := by
  unfold update_power_dbm
  split
  · simp only
    split
    · exact same_standard_mw_write_active s _ a
    · exact same_standard_mw_refl s
  · exact same_standard_mw_write_last s _

theorem same_standard_mw_set_power_dbm_found (s : AP_VideoTX) (i : Nat) (a : PowerActive) :
    same_standard_mw s (s.set_power_dbm_found i a) := by
  unfold set_power_dbm_found
  lift_lets
  extract_lets s1 s2 s3
  have h1 : same_standard_mw s s1 := same_standard_mw_of_table s s1 rfl
  have h2 : same_standard_mw s1 s2 := same_standard_mw_write_active s1 i a
  have h3 : same_standard_mw s2 s3 := by
    simp only [s3]
    split
    · exact same_standard_mw_write s2 i _ (fun _ => rfl)
    · exact same_standard_mw_refl s2
  have h123 := same_standard_mw_trans (same_standard_mw_trans h1 h2) h3
  split
  · exact same_standard_mw_trans h123 (same_standard_mw_write s3 _ _ (fun _ => rfl))
  · split
    · exact same_standard_mw_trans h123 (same_standard_mw_write s3 _ _ (fun _ => rfl))
    · exact h123

theorem same_standard_mw_set_power_dbm (mw_of_dbm : Nat → Nat) (s : AP_VideoTX) (p : Nat)
    (a : PowerActive) : same_standard_mw s (s.set_power_dbm mw_of_dbm p a) := by
  unfold set_power_dbm
  split
  · exact same_standard_mw_refl s
  · split
    · exact same_standard_mw_set_power_dbm_found s _ a
    · exact same_standard_mw_trans (same_standard_mw_update_power_dbm mw_of_dbm s p a)
        (same_standard_mw_of_table _ _ rfl)

theorem same_standard_mw_update_all_power_dbm (mw_of_dbm : Nat → Nat) (s : AP_VideoTX)
    (power : List Nat) : same_standard_mw s (s.update_all_power_dbm mw_of_dbm power) := by
  unfold update_all_power_dbm
  have h1 : ∀ (l : List Nat) (t : AP_VideoTX), same_standard_mw t
      (l.foldl (fun t p => (update_power_dbm mw_of_dbm t p .Active).1) t) := by
    intro l
    induction l with
    | nil => exact fun t => same_standard_mw_refl t
    | cons p rest ih =>
      intro t
      simp only [List.foldl_cons]
      exact same_standard_mw_trans (same_standard_mw_update_power_dbm mw_of_dbm t p .Active)
        (ih _)
  refine same_standard_mw_trans (h1 power s) (same_standard_mw_for_loop _ ?_ _ _ _)
  intro i t
  split
  · exact same_standard_mw_write_active t i _
  · exact same_standard_mw_refl t

theorem same_standard_mw_set_power_mw (s : AP_VideoTX) (p : Nat) :
    same_standard_mw s (s.set_power_mw p) := by
  unfold set_power_mw
  split
  · exact same_standard_mw_of_table _ _ rfl
  · exact same_standard_mw_refl s

theorem same_standard_mw_set_power_level (s : AP_VideoTX) (l : Nat) (a : PowerActive) :
    same_standard_mw s (s.set_power_level l a) := by
  unfold set_power_level
  split
  · exact same_standard_mw_refl s
  · split
    · exact same_standard_mw_trans (same_standard_mw_of_table s _ rfl)
        (same_standard_mw_write_active _ _ a)
    · exact same_standard_mw_refl s

theorem same_standard_mw_set_power_dac (s : AP_VideoTX) (p : Nat) (a : PowerActive) :
    same_standard_mw s (s.set_power_dac p a) := by
  unfold set_power_dac
  split
  · exact same_standard_mw_refl s
  · apply same_standard_mw_for_loop
    intro i t
    split
    · exact same_standard_mw_trans (same_standard_mw_of_table t _ rfl)
        (same_standard_mw_write_active _ _ a)
    · exact same_standard_mw_refl t

theorem same_standard_mw_set_power_val (s : AP_VideoTX) (p : Nat) (a : PowerActive) :
    same_standard_mw s (s.set_power_val p a) := by
  unfold set_power_val
  split
  · exact same_standard_mw_refl s
  · apply same_standard_mw_for_loop
    intro i t
    split
    · split
      · exact same_standard_mw_trans (same_standard_mw_of_table t _ rfl)
          (same_standard_mw_write_active _ _ a)
      · exact same_standard_mw_refl t
    · exact same_standard_mw_refl t

theorem same_standard_mw_validate_cpowlevs (s : AP_VideoTX) :
    same_standard_mw s s.validate_cpowlevs := by
  unfold validate_cpowlevs
  apply same_standard_mw_for_loop
  intro i t
  simp only
  split
  · exact same_standard_mw_trans (same_standard_mw_write_active t i _)
      (same_standard_mw_write_active _ i _)
  · exact same_standard_mw_write_active t i _

end AP_VideoTX

namespace AP_VideoTX

theorem same_standard_mw_init_cap (n : Nat) (s : AP_VideoTX) :
    same_standard_mw s (init_cap n s) := by
  induction n generalizing s with
  | zero => exact same_standard_mw_refl s
  | succ n ih =>
    unfold init_cap
    split
    · split
      · exact same_standard_mw_trans (same_standard_mw_write_active s _ _) (ih _)
      · exact same_standard_mw_refl s
    · exact ih s

theorem same_standard_mw_for_while_pair
    (guard : Nat → Nat × AP_VideoTX → Bool) (body : Nat → Nat × AP_VideoTX → Nat × AP_VideoTX)
    (hbody : ∀ i js, same_standard_mw js.2 (body i js).2) (n i : Nat) (js : Nat × AP_VideoTX) :
    same_standard_mw js.2 (for_while guard body n i js).2 := by
  induction n generalizing i js with
  | zero => exact same_standard_mw_refl js.2
  | succ n ih =>
    unfold for_while
    split
    · exact same_standard_mw_trans (hbody i js) (ih (i + 1) (body i js))
    · exact same_standard_mw_refl js.2

theorem same_standard_mw_init_D1 (s : AP_VideoTX) : same_standard_mw s s.init_D1 := by
  unfold init_D1
  lift_lets
  extract_lets s1 s2
  have h12 : same_standard_mw s s2 := same_standard_mw_of_table s s2 rfl
  refine same_standard_mw_trans h12 ?_
  apply same_standard_mw_for_while_pair _ _ _ _ _ (0, s2)
  intro i js
  split
  · exact same_standard_mw_write_active js.2 i _
  · split
    · exact same_standard_mw_refl js.2
    · exact same_standard_mw_refl js.2

theorem same_standard_mw_write_power_vals (f : Nat → AP_VideoTX → PowerValue) (n i : Nat)
    (s : AP_VideoTX) :
    same_standard_mw s (for_loop (fun i t => t.write_power_val i (f i t)) n i s) := by
  apply same_standard_mw_for_loop
  intro j t
  exact same_standard_mw_of_table t _ rfl

theorem same_standard_mw_init_FXR10 (s : AP_VideoTX) : same_standard_mw s s.init_FXR10 := by
  unfold init_FXR10
  lift_lets
  extract_lets s1 s2 s3
  have h1 : same_standard_mw s s1 := same_standard_mw_of_table s s1 rfl
  have h2 : same_standard_mw s1 s2 :=
    same_standard_mw_write_power_vals (fun i _ => FXR10_pws.getD i ⟨0, 0⟩) _ _ s1
  have h3 : same_standard_mw s2 s3 := same_standard_mw_of_table s2 s3 rfl
  exact same_standard_mw_trans (same_standard_mw_trans (same_standard_mw_trans h1 h2) h3)
    (same_standard_mw_validate_cpowlevs s3)

theorem same_standard_mw_init_CUSTOM (s : AP_VideoTX) : same_standard_mw s s.init_CUSTOM := by
  unfold init_CUSTOM
  lift_lets
  extract_lets s1
  have h1 : same_standard_mw s s1 :=
    same_standard_mw_write_power_vals
      (fun i t => ⟨uint16_t ((t._cvals.getD i ⟨0, false⟩).get),
        uint16_t ((t._cmws.getD i ⟨0, false⟩).get)⟩) _ _ s
  exact same_standard_mw_trans h1 (same_standard_mw_validate_cpowlevs s1)

theorem same_standard_mw_init (s : AP_VideoTX) : same_standard_mw s s.init.1 := by
  unfold init
  split
  · exact same_standard_mw_refl s
  · lift_lets
    extract_lets s1 s2 cp cp1 s3 s4
    have h1 : same_standard_mw s s1 := by
      simp only [s1]
      split
      · exact same_standard_mw_of_table s _ rfl
      · exact same_standard_mw_refl s
    have h2 : same_standard_mw s1 s2 := by
      simp only [s2]
      split
      · exact same_standard_mw_init_D1 s1
      · split
        · exact same_standard_mw_init_FXR10 s1
        · split
          · exact same_standard_mw_init_CUSTOM s1
          · exact same_standard_mw_init_cap _ s1
    have h3 : same_standard_mw s2 s4 := same_standard_mw_of_table s2 s4 rfl
    exact same_standard_mw_trans (same_standard_mw_trans (same_standard_mw_trans h1 h2) h3)
      (same_standard_mw_of_table s4 _ rfl)

theorem same_standard_mw_apply_op (mw_of_dbm : Nat → Nat) (s : AP_VideoTX) (op : PowerOp) :
    same_standard_mw s (apply_op mw_of_dbm s op) := by
  cases op with
  | init => exact same_standard_mw_init s
  | set_power_mw p => exact same_standard_mw_set_power_mw s p
  | set_power_level l a => exact same_standard_mw_set_power_level s l a
  | set_power_dbm p a => exact same_standard_mw_set_power_dbm mw_of_dbm s p a
  | update_power_dbm p a => exact same_standard_mw_update_power_dbm mw_of_dbm s p a
  | update_all_power_dbm l => exact same_standard_mw_update_all_power_dbm mw_of_dbm s l
  | set_power_dac p a => exact same_standard_mw_set_power_dac s p a
  | set_power_val p a => exact same_standard_mw_set_power_val s p a
  | validate_cpowlevs => exact same_standard_mw_validate_cpowlevs s

theorem same_standard_mw_run_ops (mw_of_dbm : Nat → Nat) (ops : List PowerOp) (s : AP_VideoTX) :
    same_standard_mw s (run_ops mw_of_dbm s ops) := by
  induction ops generalizing s with
  | nil => exact same_standard_mw_refl s
  | cons op rest ih =>
    unfold run_ops
    simp only [List.foldl_cons]
    exact same_standard_mw_trans (same_standard_mw_apply_op mw_of_dbm s op) (ih _)

theorem default_power_levels_sorted (j : Nat) (hj : j < VTX_MAX_POWER_LEVELS - 1) (i : Nat)
    (hi : i ≤ j) :
    (default_power_levels.getD i ⟨0, 0, 0, 0, .Unknown⟩).mw
      ≤ (default_power_levels.getD j ⟨0, 0, 0, 0, .Unknown⟩).mw := by
  have h : ∀ j, j < VTX_MAX_POWER_LEVELS - 1 → ∀ i, i ≤ j →
      (default_power_levels.getD i ⟨0, 0, 0, 0, .Unknown⟩).mw
        ≤ (default_power_levels.getD j ⟨0, 0, 0, 0, .Unknown⟩).mw := by
    decide
  exact h j hj i hi

/-- C14 as stated fails on the initial table itself: the reserved last slot holds 0 mW
and follows the 10000 mW entry. -/
theorem power_table_reserved_slot_unsorted_counterexample :
    (initial_state.power_level 17).mw = 10000
    ∧ (initial_state.power_level 18).mw = 0
    ∧ ¬ sorted_by_mw initial_state VTX_MAX_POWER_LEVELS := by
  refine ⟨by decide, by decide, ?_⟩
  intro h
  exact absurd (h 17 18 (by decide) (by decide)) (by decide)

/-- C14, amended: the power table without its reserved last slot, the slots 0 to 17, is
sorted non-decreasing by mw in the initial table and after any sequence of `init`,
`set_power_mw`, `set_power_level`, `set_power_dbm`, `update_power_dbm`,
`update_all_power_dbm`, `set_power_dac`, `set_power_val` and `validate_cpowlevs` calls;
these slots keep the mw of the initial table, and the table keeps its 19 slots. -/
theorem standard_levels_stay_sorted (mw_of_dbm : Nat → Nat) (s : AP_VideoTX)
    (ops : List PowerOp) (h : s._power_levels = default_power_levels) :
    sorted_by_mw (run_ops mw_of_dbm s ops) (VTX_MAX_POWER_LEVELS - 1)
    ∧ (∀ k, k < VTX_MAX_POWER_LEVELS - 1 →
        ((run_ops mw_of_dbm s ops).power_level k).mw
          = (default_power_levels.getD k ⟨0, 0, 0, 0, .Unknown⟩).mw)
    ∧ (run_ops mw_of_dbm s ops)._power_levels.length = VTX_MAX_POWER_LEVELS := by
  obtain ⟨h1, h2⟩ := same_standard_mw_run_ops mw_of_dbm ops s
  have hk : ∀ k, k < VTX_MAX_POWER_LEVELS - 1 →
      ((run_ops mw_of_dbm s ops).power_level k).mw
        = (default_power_levels.getD k ⟨0, 0, 0, 0, .Unknown⟩).mw := by
    intro k hk
    rw [h2 k (by omega)]
    unfold power_level
    rw [h]
  refine ⟨?_, hk, by rw [h1, h]; rfl⟩
  intro i j hij hj
  rw [hk i (by omega), hk j hj]
  exact default_power_levels_sorted j hj i hij

/-- C14, amended, for a sequence that initialises, learns a non-standard 13 dBm and
validates the custom levels. -/
theorem standard_levels_stay_sorted_witness :
    initial_state._power_levels = default_power_levels
    ∧ sorted_by_mw
        (run_ops dbm_to_mw initial_state
          [PowerOp.init, PowerOp.set_power_dbm 13 PowerActive.Active,
            PowerOp.set_power_dac 255 PowerActive.Active, PowerOp.validate_cpowlevs])
        (VTX_MAX_POWER_LEVELS - 1)
    ∧ ((run_ops dbm_to_mw initial_state
          [PowerOp.init, PowerOp.set_power_dbm 13 PowerActive.Active]).power_level 18).mw = 20 :=
  ⟨rfl,
    (standard_levels_stay_sorted dbm_to_mw initial_state
      [PowerOp.init, PowerOp.set_power_dbm 13 PowerActive.Active,
        PowerOp.set_power_dac 255 PowerActive.Active, PowerOp.validate_cpowlevs] rfl).1,
    by decide⟩

end AP_VideoTX

/-! ## The power switch -/

namespace AP_VideoTX

theorem count_power_levels_eq (s : AP_VideoTX) :
    s.count_power_levels = selectable_before s VTX_MAX_POWER_LEVELS := by
  have h : ∀ n i, for_loop (fun i n =>
      if (s.power_level i).active ≠ .Inactive
          ∧ ((s.power_level i).mw : Int) ≤ s._max_power_mw.get then n + 1 else n)
      n i (selectable_before s i) = selectable_before s (i + n) := by
    intro n
    induction n with
    | zero => intro i; rfl
    | succ n ih =>
      intro i
      unfold for_loop
      have hstep : (if (s.power_level i).active ≠ .Inactive
          ∧ ((s.power_level i).mw : Int) ≤ s._max_power_mw.get
          then selectable_before s i + 1 else selectable_before s i)
          = selectable_before s (i + 1) := by
        rw [selectable_before]
        split <;> rfl
      rw [hstep, ih (i + 1)]
      congr 1
      omega
  have := h VTX_MAX_POWER_LEVELS 0
  simp only [Nat.zero_add] at this
  exact this

theorem not_inactive_before_mono (s : AP_VideoTX) (j k : Nat) (h : j ≤ k) :
    not_inactive_before s j ≤ not_inactive_before s k := by
  induction k with
  | zero =>
    have : j = 0 := by omega
    rw [this]
  | succ k ih =>
    by_cases hjk : j = k + 1
    · rw [hjk]
    · have := ih (by omega)
      rw [not_inactive_before]
      omega

theorem not_inactive_before_skip (s : AP_VideoTX) (j k : Nat) (h : j ≤ k)
    (hin : ∀ m, j ≤ m → m < k → (s.power_level m).active = .Inactive) :
    not_inactive_before s k = not_inactive_before s j := by
  induction k with
  | zero =>
    have : j = 0 := by omega
    rw [this]
  | succ k ih =>
    by_cases hjk : j = k + 1
    · rw [hjk]
    · have h1 := ih (by omega) (fun m h1 h2 => hin m h1 (by omega))
      rw [not_inactive_before, h1, if_neg (by
        intro hne
        exact hne (hin k (by omega) (by omega)))]
      rfl

theorem selectable_le_not_inactive (s : AP_VideoTX) (k : Nat) :
    selectable_before s k ≤ not_inactive_before s k := by
  induction k with
  | zero => exact Nat.le_refl 0
  | succ k ih =>
    rw [selectable_before, not_inactive_before]
    by_cases h : (s.power_level k).active ≠ .Inactive
    · rw [if_pos h]
      split <;> omega
    · rw [if_neg h, if_neg (fun hc => h hc.1)]
      omega

theorem exists_entry_of_rank (s : AP_VideoTX) (level m : Nat)
    (h : level < not_inactive_before s m) :
    ∃ k, k < m ∧ (s.power_level k).active ≠ .Inactive ∧ not_inactive_before s k = level := by
  induction m with
  | zero =>
    rw [not_inactive_before] at h
    omega
  | succ m ih =>
    by_cases hlt : level < not_inactive_before s m
    · obtain ⟨k, hk, h1, h2⟩ := ih hlt
      exact ⟨k, by omega, h1, h2⟩
    · rw [not_inactive_before] at h
      by_cases hact : (s.power_level m).active ≠ .Inactive
      · rw [if_pos hact] at h
        exact ⟨m, by omega, hact, by omega⟩
      · rw [if_neg hact] at h
        omega

theorem skip_inactive_spec (s : AP_VideoTX) (n j : Nat)
    (hn : VTX_MAX_POWER_LEVELS - 1 ≤ j + n) :
    j ≤ skip_inactive s n j
    ∧ (∀ m, j ≤ m → m < skip_inactive s n j → (s.power_level m).active = .Inactive)
    ∧ (skip_inactive s n j < VTX_MAX_POWER_LEVELS - 1 →
        (s.power_level (skip_inactive s n j)).active ≠ .Inactive) := by
  induction n generalizing j with
  | zero =>
    unfold skip_inactive
    refine ⟨Nat.le_refl j, fun m h1 h2 => by omega, fun h => by omega⟩
  | succ n ih =>
    unfold skip_inactive
    by_cases hc : j < VTX_MAX_POWER_LEVELS - 1 ∧ (s.power_level j).active = .Inactive
    · rw [if_pos hc]
      obtain ⟨h1, h2, h3⟩ := ih (j + 1) (by omega)
      refine ⟨by omega, ?_, h3⟩
      intro m hm1 hm2
      by_cases hmj : m = j
      · rw [hmj]; exact hc.2
      · exact h2 m (by omega) hm2
    · rw [if_neg hc]
      refine ⟨Nat.le_refl j, fun m h1 h2 => by omega, ?_⟩
      intro hlt hin
      exact hc ⟨hlt, hin⟩

/-- The second loop of `change_power` returns the mw of the entry of rank `level` among
the entries that are not Inactive. -/
theorem find_power_level_spec (s : AP_VideoTX) (A level k : Nat)
    (hk : k < VTX_MAX_POWER_LEVELS) (hact : (s.power_level k).active ≠ .Inactive)
    (hrank : not_inactive_before s k = level) (hA : level < A) (n i j : Nat)
    (hi : i ≤ level) (hn : level < i + n) (hij : not_inactive_before s j = i) (hjk : j ≤ k) :
    find_power_level s A level n i j = some (s.power_level k).mw := by
  induction n generalizing i j with
  | zero => omega
  | succ n ih =>
    unfold find_power_level
    rw [if_pos (by omega)]
    simp only
    obtain ⟨h1, h2, h3⟩ := skip_inactive_spec s (VTX_MAX_POWER_LEVELS - 1) j (by omega)
    have hle : skip_inactive s (VTX_MAX_POWER_LEVELS - 1) j ≤ k := by
      by_contra hgt
      exact hact (h2 k hjk (by omega))
    have hcnt : not_inactive_before s (skip_inactive s (VTX_MAX_POWER_LEVELS - 1) j) = i := by
      rw [not_inactive_before_skip s j _ h1 h2, hij]
    have hnext : skip_inactive s (VTX_MAX_POWER_LEVELS - 1) j < k →
        not_inactive_before s (skip_inactive s (VTX_MAX_POWER_LEVELS - 1) j + 1) = i + 1 := by
      intro hlt
      rw [not_inactive_before, hcnt, if_pos (h3 (by omega))]
    by_cases hil : i = level
    · rw [if_pos hil]
      have : skip_inactive s (VTX_MAX_POWER_LEVELS - 1) j = k := by
        by_contra hne
        have hlt : skip_inactive s (VTX_MAX_POWER_LEVELS - 1) j < k := by omega
        have := not_inactive_before_mono s _ k (show skip_inactive s (VTX_MAX_POWER_LEVELS - 1) j + 1 ≤ k by omega)
        rw [hnext hlt, hrank] at this
        omega
      rw [this]
    · rw [if_neg hil]
      have hlt : skip_inactive s (VTX_MAX_POWER_LEVELS - 1) j < k := by
        by_contra hge
        have : skip_inactive s (VTX_MAX_POWER_LEVELS - 1) j = k := by omega
        rw [this, hrank] at hcnt
        exact hil hcnt.symm
      exact ih (i + 1) _ (by omega) (by omega) (hnext hlt) (by omega)

/-- The level `change_power` computes is the rank of the specification. -/
theorem change_power_level_eq (A p N : Int) (hA : 1 ≤ A) (hA2 : A ≤ 19) (hp : 0 ≤ p)
    (hpN : p < N) :
    constrain_int16 (roundf_ratio (A * (p + 1) - N) N) 0 (A - 1) = target_rank A p N
    ∧ 0 ≤ target_rank A p N ∧ target_rank A p N ≤ A - 1 := by
  have hx1 : 1 ≤ A * (p + 1) := by nlinarith
  have hx2 : 2 * (A * (p + 1)) + N < (A + 1) * (2 * N) := by nlinarith
  unfold target_rank
  generalize A * (p + 1) = x at hx1 hx2 ⊢
  have hN0 : 0 < N := by omega
  have h2N : (0 : Int) < 2 * N := by omega
  have hq0 : 0 ≤ (2 * x + N) / (2 * N) := Int.ediv_nonneg (by omega) (by omega)
  have hq1 : (2 * x + N) / (2 * N) < A + 1 := Int.ediv_lt_of_lt_mul h2N hx2
  have hspec : roundf_ratio x N = (2 * x + N) / (2 * N) := by
    unfold roundf_ratio
    rw [if_pos (by omega)]
  rw [hspec]
  by_cases hxN : N ≤ x
  · have hcode : roundf_ratio (x - N) N = (2 * x + N) / (2 * N) + -1 := by
      unfold roundf_ratio
      rw [if_pos (by omega)]
      have : 2 * (x - N) + N = (2 * x + N) + (-1) * (2 * N) := by ring
      rw [this, Int.add_mul_ediv_right _ _ (by omega)]
    rw [hcode]
    generalize (2 * x + N) / (2 * N) = q at hq0 hq1
    unfold constrain_int16 int16_t
    simp only [max_def, min_def]
    split_ifs <;> omega
  · have hq2 : (2 * x + N) / (2 * N) < 2 := Int.ediv_lt_of_lt_mul h2N (by omega)
    have hc0 : 0 ≤ (2 * (-(x - N)) + N) / (2 * N) := Int.ediv_nonneg (by omega) (by omega)
    have hc2 : (2 * (-(x - N)) + N) / (2 * N) < 2 := Int.ediv_lt_of_lt_mul h2N (by omega)
    have hcode : roundf_ratio (x - N) N = -((2 * (-(x - N)) + N) / (2 * N)) := by
      unfold roundf_ratio
      rw [if_neg (by omega)]
    rw [hcode]
    generalize (2 * x + N) / (2 * N) = q at hq0 hq1 hq2
    generalize (2 * (-(x - N)) + N) / (2 * N) = c at hc0 hc2
    unfold constrain_int16 int16_t
    simp only [max_def, min_def]
    split_ifs <;> omega

/-- The level `change_power` computes for position 0 is 0 when fewer than one and a half
times `num_active_levels` entries can be selected. -/
theorem change_power_level_zero (A N : Int) (hA : 0 ≤ A) (hA2 : A ≤ 19) (hN : 1 ≤ N)
    (h : 2 * A < 3 * N) :
    uint16_t (constrain_int16 (roundf_ratio (A * (0 + 1) - N) N) 0 (A - 1)) = 0
    ∨ A = 0 := by
  by_cases hA0 : A = 0
  · exact Or.inr hA0
  left
  have h2N : (0 : Int) < 2 * N := by omega
  have hx : A * (0 + 1) = A := by ring
  rw [hx]
  by_cases hxN : N ≤ A
  · have hcode : roundf_ratio (A - N) N = (2 * (A - N) + N) / (2 * N) := by
      unfold roundf_ratio
      rw [if_pos (by omega)]
    have hc0 : 0 ≤ (2 * (A - N) + N) / (2 * N) := Int.ediv_nonneg (by omega) (by omega)
    have hc1 : (2 * (A - N) + N) / (2 * N) < 1 := Int.ediv_lt_of_lt_mul h2N (by omega)
    rw [hcode]
    generalize (2 * (A - N) + N) / (2 * N) = c at hc0 hc1
    unfold uint16_t constrain_int16 int16_t
    split_ifs <;> omega
  · have hcode : roundf_ratio (A - N) N = -((2 * (-(A - N)) + N) / (2 * N)) := by
      unfold roundf_ratio
      rw [if_neg (by omega)]
    have hc0 : 0 ≤ (2 * (-(A - N)) + N) / (2 * N) := Int.ediv_nonneg (by omega) (by omega)
    have hc2 : (2 * (-(A - N)) + N) / (2 * N) < 2 := Int.ediv_lt_of_lt_mul h2N (by omega)
    rw [hcode]
    generalize (2 * (-(A - N)) + N) / (2 * N) = c at hc0 hc2
    unfold uint16_t constrain_int16 int16_t
    split_ifs <;> omega

theorem get_configured_options_set (s : AP_VideoTX) (n : Nat) (hn : n < 65536) :
    (s.set_configured_options n).get_configured_options = n := by
  unfold get_configured_options set_configured_options
  simp only
  rw [set_and_save_ifchanged_get]
  exact uint16_t_int16_t n hn

/-- The state `change_power` leaves for a power of zero: the PITMODE bit set, the other
option bits and the configured power as they were. -/
theorem change_power_set_zero (s : AP_VideoTX) :
    (s.change_power_set 0).get_configured_options.testBit 0 = true
    ∧ (∀ i, i ≠ 0 → (s.change_power_set 0).get_configured_options.testBit i
        = s.get_configured_options.testBit i)
    ∧ (s.change_power_set 0)._power_mw = s._power_mw := by
  unfold change_power_set
  rw [if_pos rfl]
  have hlt : s.get_configured_options ||| VTX_PITMODE < 65536 :=
    @Nat.or_lt_two_pow _ _ 16 (uint16_t_lt _) (by decide)
  rw [get_configured_options_set _ _ hlt]
  refine ⟨?_, ?_, ?_⟩
  · rw [testBit_set_pitmode]; simp
  · intro i hi
    rw [testBit_set_pitmode]; simp [hi]
  · unfold set_configured_options
    rfl

/-- The state `change_power` leaves for a power that is not zero: the PITMODE bit clear,
the other option bits as they were, the power configured. -/
theorem change_power_set_pos (s : AP_VideoTX) (power : Nat) (hp : power ≠ 0) :
    (s.change_power_set power).get_configured_options.testBit 0 = false
    ∧ (∀ i, i ≠ 0 → (s.change_power_set power).get_configured_options.testBit i
        = s.get_configured_options.testBit i)
    ∧ (s.change_power_set power)._power_mw.get = int16_t (power : Nat) := by
  unfold change_power_set
  rw [if_neg hp]
  lift_lets
  extract_lets s1
  have hlt : s.get_configured_options < 65536 := uint16_t_lt _
  have h1 : s1.get_configured_options.testBit 0 = false
      ∧ ∀ i, i ≠ 0 → s1.get_configured_options.testBit i = s.get_configured_options.testBit i := by
    simp only [s1]
    have e0 : s.has_option VTX_PITMODE = s.get_configured_options.testBit 0 := has_option_bit s 0
    by_cases hb : s.get_configured_options.testBit 0 = true
    · rw [if_pos (by rw [e0]; exact hb),
        get_configured_options_set _ _ (Nat.lt_of_le_of_lt Nat.and_le_left hlt)]
      refine ⟨?_, ?_⟩
      · rw [testBit_clear_pitmode _ hlt]; simp
      · intro i hi
        rw [testBit_clear_pitmode _ hlt]; simp [hi]
    · rw [if_neg (by rw [e0]; exact hb)]
      exact ⟨by simpa using hb, fun _ _ => rfl⟩
  have h2 : (s1.set_configured_power_mw power).get_configured_options
      = s1.get_configured_options := by
    unfold set_configured_power_mw get_configured_options
    rfl
  rw [h2]
  refine ⟨h1.1, h1.2, ?_⟩
  unfold set_configured_power_mw
  simp only
  rw [set_and_save_ifchanged_get]

/-- The shape of `change_power` for a model other than CUSTOM on an enabled module with
the position in range. -/
theorem change_power_switch (s : AP_VideoTX) (position : Int) (hm : s.model ≠ Model_CUSTOM)
    (he : s._enabled.get ≠ 0) (hp0 : 0 ≤ position)
    (hpN : position < s._num_active_levels.get) :
    s.change_power position =
      s.change_power_set
        ((find_power_level s s.count_power_levels
          (uint16_t (constrain_int16
            (roundf_ratio
              ((s.count_power_levels : Int) * (position + 1) - s._num_active_levels.get)
              s._num_active_levels.get)
            0 ((s.count_power_levels : Int) - 1)))
          s.count_power_levels 0 0).getD 0) := by
  unfold change_power
  rw [if_neg hm, if_neg (by omega)]
  simp only
  split
  · rename_i h
    rw [h]; rfl
  · rename_i h
    rw [h]; rfl

theorem not_inactive_before_le (s : AP_VideoTX) (k : Nat) : not_inactive_before s k ≤ k := by
  induction k with
  | zero => exact Nat.le_refl 0
  | succ k ih =>
    rw [not_inactive_before]
    split <;> omega

/-- With no entry Unknown, the entries that are not Inactive are the Active ones. -/
theorem counts_without_unknown (s : AP_VideoTX)
    (hu : ∀ i, i < VTX_MAX_POWER_LEVELS → (s.power_level i).active ≠ .Unknown) (k : Nat)
    (hk : k ≤ VTX_MAX_POWER_LEVELS) :
    selectable_before s k = active_within_cap s k
    ∧ not_inactive_before s k = active_before s k := by
  induction k with
  | zero => exact ⟨rfl, rfl⟩
  | succ k ih =>
    obtain ⟨h1, h2⟩ := ih (by omega)
    have hk1 := hu k (by omega)
    rw [selectable_before, active_within_cap, not_inactive_before, active_before, h1, h2]
    cases hact : (s.power_level k).active
    · exact absurd hact hk1
    · simp
    · simp

/-- C11: `change_power` for a model other than CUSTOM.  A disabled module or a position
outside `[0, num_active_levels)` leaves the state unchanged.  Otherwise, when no entry of
the power table is Unknown and `A ≥ 1` entries are Active with mw not above
`max_power_mw`, the chosen power is the mw of the Active entry `k` that has exactly
`target_rank A position num_active_levels` Active entries before it; a non-zero power
becomes the configured power and the PITMODE bit is cleared, a power of zero sets the
PITMODE bit and keeps the configured power, and the other option bits stay.  Position 3
of 6 with `A = 4` has rank 2, the third Active entry. -/
theorem change_power_selects_ranked_level (s : AP_VideoTX) (position : Int)
    (hm : s.model ≠ Model_CUSTOM) :
    ((s._enabled.get = 0 ∨ position < 0 ∨ position ≥ s._num_active_levels.get) →
      s.change_power position = s)
    ∧ (s._enabled.get ≠ 0 → 0 ≤ position → position < s._num_active_levels.get →
        (∀ i, i < VTX_MAX_POWER_LEVELS → (s.power_level i).active ≠ .Unknown) →
        1 ≤ active_within_cap s VTX_MAX_POWER_LEVELS →
        ∃ k, k < VTX_MAX_POWER_LEVELS ∧ (s.power_level k).active = .Active
          ∧ (active_before s k : Int)
              = target_rank (active_within_cap s VTX_MAX_POWER_LEVELS) position
                  s._num_active_levels.get
          ∧ ((s.power_level k).mw ≠ 0 →
              (s.change_power position)._power_mw.get = int16_t ((s.power_level k).mw : Nat)
              ∧ (s.change_power position).get_configured_options.testBit 0 = false)
          ∧ ((s.power_level k).mw = 0 →
              (s.change_power position)._power_mw = s._power_mw
              ∧ (s.change_power position).get_configured_options.testBit 0 = true)
          ∧ ∀ i, i ≠ 0 → (s.change_power position).get_configured_options.testBit i
              = s.get_configured_options.testBit i)
    ∧ target_rank 4 3 6 = 2 := by
  refine ⟨?_, ?_, by decide⟩
  · intro h
    unfold change_power
    rw [if_neg hm, if_pos h]
  · intro he hp0 hpN hu hA
    obtain ⟨hsel, hnot⟩ := counts_without_unknown s hu VTX_MAX_POWER_LEVELS (Nat.le_refl _)
    have hcnt : s.count_power_levels = active_within_cap s VTX_MAX_POWER_LEVELS := by
      rw [count_power_levels_eq, hsel]
    have hle : active_within_cap s VTX_MAX_POWER_LEVELS ≤ not_inactive_before s VTX_MAX_POWER_LEVELS := by
      rw [← hsel]
      exact selectable_le_not_inactive s _
    have hle19 := not_inactive_before_le s VTX_MAX_POWER_LEVELS
    have h19 : VTX_MAX_POWER_LEVELS = 19 := rfl
    obtain ⟨hlev, hr0, hr1⟩ := change_power_level_eq
      (active_within_cap s VTX_MAX_POWER_LEVELS : Int) position s._num_active_levels.get
      (by omega) (by omega) hp0 hpN
    have hsw := change_power_switch s position hm he hp0 hpN
    rw [hcnt, hlev] at hsw
    generalize target_rank (active_within_cap s VTX_MAX_POWER_LEVELS : Int) position
      s._num_active_levels.get = r at hr0 hr1 hsw ⊢
    have hlevel : uint16_t r = r.toNat := by
      unfold uint16_t
      omega
    rw [hlevel] at hsw
    obtain ⟨k, hk, hact, hrank⟩ :=
      exists_entry_of_rank s r.toNat VTX_MAX_POWER_LEVELS (by omega)
    have hfind := find_power_level_spec s (active_within_cap s VTX_MAX_POWER_LEVELS) r.toNat k
      hk hact hrank (by omega) (active_within_cap s VTX_MAX_POWER_LEVELS) 0 0
      (Nat.zero_le _) (by omega) rfl (Nat.zero_le _)
    rw [hfind] at hsw
    simp only [Option.getD_some] at hsw
    have hk1 := hu k hk
    have hactive : (s.power_level k).active = .Active := by
      cases hc : (s.power_level k).active
      · exact absurd hc hk1
      · rfl
      · exact absurd hc hact
    have hrk : (active_before s k : Int) = r := by
      rw [← (counts_without_unknown s hu k (by omega)).2, hrank]
      omega
    refine ⟨k, hk, hactive, hrk, ?_, ?_, ?_⟩
    · intro hmw
      rw [hsw]
      obtain ⟨h1, _, h3⟩ := change_power_set_pos s _ hmw
      exact ⟨h3, h1⟩
    · intro hmw
      rw [hsw, hmw]
      obtain ⟨h1, _, h3⟩ := change_power_set_zero s
      exact ⟨h3, h1⟩
    · intro i hi
      rw [hsw]
      by_cases hmw : (s.power_level k).mw = 0
      · rw [hmw]
        exact (change_power_set_zero s).2.1 i hi
      · exact (change_power_set_pos s _ hmw).2.1 i hi

set_option maxRecDepth 8192 in
/-- C11 on the generic model with 25, 200, 500 and 800 mW confirmed, for position 3 of
6: the entry of rank 2 is the 500 mW entry, which becomes the configured power. -/
theorem change_power_selects_ranked_level_witness :
    four_levels_state.model ≠ Model_CUSTOM
    ∧ active_within_cap four_levels_state VTX_MAX_POWER_LEVELS = 4
    ∧ four_levels_state._num_active_levels.get = 6
    ∧ (∃ k, k < VTX_MAX_POWER_LEVELS ∧ (four_levels_state.power_level k).active = .Active
        ∧ (active_before four_levels_state k : Int)
            = target_rank (active_within_cap four_levels_state VTX_MAX_POWER_LEVELS) 3
                four_levels_state._num_active_levels.get
        ∧ ((four_levels_state.power_level k).mw ≠ 0 →
            (four_levels_state.change_power 3)._power_mw.get
              = int16_t ((four_levels_state.power_level k).mw : Nat)
            ∧ (four_levels_state.change_power 3).get_configured_options.testBit 0 = false)
        ∧ ((four_levels_state.power_level k).mw = 0 →
            (four_levels_state.change_power 3)._power_mw = four_levels_state._power_mw
            ∧ (four_levels_state.change_power 3).get_configured_options.testBit 0 = true)
        ∧ ∀ i, i ≠ 0 → (four_levels_state.change_power 3).get_configured_options.testBit i
            = four_levels_state.get_configured_options.testBit i)
    ∧ (four_levels_state.change_power 3)._power_mw.get = 500 :=
  ⟨by decide, by decide, by decide,
    (change_power_selects_ranked_level four_levels_state 3 (by decide)).2.1
      (by decide) (by decide) (by decide) (by decide) (by decide),
    by decide⟩

/-- C12: on the generic model with MAX_POWER 2500 the VTX reports 13 dBm, which takes the
reserved last slot as 20 mW, and then 35 dBm, which activates the 3000 mW entry; fourteen
entries count as selectable, and the top switch position 5 of 6 configures 3000 mW, above
the cap. -/
theorem change_power_exceeds_max_power :
    learned_above_cap_state.model = Model_GENERIC
    ∧ learned_above_cap_state._enabled.get = 1
    ∧ learned_above_cap_state._max_power_mw.get = 2500
    ∧ learned_above_cap_state._num_active_levels.get = 6
    ∧ learned_above_cap_state.count_power_levels = 14
    ∧ learned_above_cap_state._power_mw.get ≠ 3000
    ∧ (learned_above_cap_state.change_power 5)._power_mw.get = 3000 := by
  decide

/-- C13 as stated fails on its own witness state: after `init()` with the GENERIC model,
MAX_POWER 2500 and POW_LEVELS 6, thirteen entries can be selected, position 0 ranks
`round(13 / 6) - 1 = 1`, and `change_power(0)` configures 25 mW with PITMODE clear. -/
theorem change_power_zero_selects_25mw_counterexample :
    generic_init_state.model ≠ Model_CUSTOM
    ∧ generic_init_state._enabled.get ≠ 0
    ∧ 1 ≤ generic_init_state._num_active_levels.get
    ∧ generic_init_state._max_power_mw.get = 2500
    ∧ generic_init_state._num_active_levels.get = 6
    ∧ (generic_init_state.power_level 0).mw = 0
    ∧ (generic_init_state.power_level 0).active ≠ .Inactive
    ∧ generic_init_state.count_power_levels = 13
    ∧ (generic_init_state.change_power 0)._power_mw.get = 25
    ∧ (generic_init_state.change_power 0).get_configured_options.testBit 0 = false := by
  decide

/-- C13, amended: for a model other than CUSTOM with the module enabled,
`num_active_levels ≥ 1`, the entry at index 0 at 0 mW and not Inactive, and fewer than
one and a half times `num_active_levels` entries that are not Inactive and not above
`max_power_mw`, `change_power(0)` selects 0 mW: it sets the PITMODE bit of the configured
options and leaves the other option bits and the configured power as they were. -/
theorem change_power_zero_is_pitmode (s : AP_VideoTX) (hm : s.model ≠ Model_CUSTOM)
    (he : s._enabled.get ≠ 0) (hN : 1 ≤ s._num_active_levels.get)
    (hmw : (s.power_level 0).mw = 0) (hact : (s.power_level 0).active ≠ .Inactive)
    (hA : 2 * (selectable_before s VTX_MAX_POWER_LEVELS : Int)
        < 3 * s._num_active_levels.get) :
    s.change_power 0 = s.change_power_set 0
    ∧ (s.change_power 0).get_configured_options.testBit 0 = true
    ∧ (∀ i, i ≠ 0 → (s.change_power 0).get_configured_options.testBit i
        = s.get_configured_options.testBit i)
    ∧ (s.change_power 0)._power_mw = s._power_mw := by
  have hsw := change_power_switch s 0 hm he (Int.le_refl 0) (by omega)
  have hle := selectable_le_not_inactive s VTX_MAX_POWER_LEVELS
  have hle19 := not_inactive_before_le s VTX_MAX_POWER_LEVELS
  have h19 : VTX_MAX_POWER_LEVELS = 19 := rfl
  rw [count_power_levels_eq] at hsw
  have hpow : (find_power_level s (selectable_before s VTX_MAX_POWER_LEVELS)
      (uint16_t (constrain_int16
        (roundf_ratio
          ((selectable_before s VTX_MAX_POWER_LEVELS : Int) * (0 + 1)
            - s._num_active_levels.get)
          s._num_active_levels.get)
        0 ((selectable_before s VTX_MAX_POWER_LEVELS : Int) - 1)))
      (selectable_before s VTX_MAX_POWER_LEVELS) 0 0).getD 0 = 0 := by
    rcases change_power_level_zero (selectable_before s VTX_MAX_POWER_LEVELS : Int)
      s._num_active_levels.get (by omega) (by omega) hN hA with h0 | h0
    · rw [h0]
      by_cases hz : selectable_before s VTX_MAX_POWER_LEVELS = 0
      · rw [hz]
        rfl
      · rw [find_power_level_spec s _ 0 0 (by decide) hact rfl (by omega) _ 0 0
          (Nat.le_refl 0) (by omega) rfl (Nat.le_refl 0), hmw]
        rfl
    · have hz : selectable_before s VTX_MAX_POWER_LEVELS = 0 := by omega
      rw [hz]
      rfl
  rw [hpow] at hsw
  rw [hsw]
  exact ⟨rfl, change_power_set_zero s⟩

set_option maxRecDepth 8192 in
/-- C13, amended, on the generic model with only 0 mW and 25 mW confirmed: two entries
can be selected, position 0 of 6 is pitmode. -/
theorem change_power_zero_is_pitmode_witness :
    two_levels_state.model ≠ Model_CUSTOM
    ∧ two_levels_state._enabled.get ≠ 0
    ∧ selectable_before two_levels_state VTX_MAX_POWER_LEVELS = 2
    ∧ two_levels_state._num_active_levels.get = 6
    ∧ (two_levels_state.change_power 0).get_configured_options.testBit 0 = true
    ∧ (two_levels_state.change_power 0)._power_mw = two_levels_state._power_mw :=
  have h := change_power_zero_is_pitmode two_levels_state (by decide) (by decide)
    (by decide) (by decide) (by decide) (by decide)
  ⟨by decide, by decide, by decide, by decide, h.2.1, h.2.2.2⟩

end AP_VideoTX

/-! ## Initialisation -/

namespace AP_VideoTX

/-- The steps of `init()` on an object that is not initialised yet. -/
theorem init_steps (s : AP_VideoTX) (h : s._initialized = false) :
    s.init =
      ({ s.init_clamp.init_switch with
          _current_power := s.init_clamp.init_switch.init_index,
          _power_mw := s.init_clamp.init_switch._power_mw.set_and_save
            ((s.init_clamp.init_switch.power_level s.init_clamp.init_switch.init_index).mw : Nat),
          _current_band := uint16_t s.init_clamp.init_switch._band.get,
          _current_channel := uint8_t s.init_clamp.init_switch._channel.get,
          _current_frequency := uint16_t s.init_clamp.init_switch._frequency_mhz.get,
          _current_options := uint16_t s.init_clamp.init_switch._options.get,
          _current_enabled := decide (s.init_clamp.init_switch._enabled.get ≠ 0),
          _initialized := true }, true) := by
  unfold init
  rw [if_neg (by rw [h]; exact Bool.false_ne_true)]
  rfl

theorem init_power_level (s : AP_VideoTX) (h : s._initialized = false) (k : Nat) :
    s.init.1.power_level k = s.init_clamp.init_switch.power_level k := by
  rw [init_steps s h]
  rfl

theorem init_clamp_fields (s : AP_VideoTX) :
    s.init_clamp._power_levels = s._power_levels
    ∧ s.init_clamp._max_power_mw = s._max_power_mw
    ∧ s.init_clamp._power_vals = s._power_vals
    ∧ s.init_clamp._model = s._model
    ∧ same_settings s s.init_clamp := by
  unfold init_clamp same_settings
  split
  · exact ⟨rfl, rfl, rfl, rfl, rfl, rfl, rfl, rfl, rfl, rfl⟩
  · exact ⟨rfl, rfl, rfl, rfl, rfl, rfl, rfl, rfl, rfl, rfl⟩

end AP_VideoTX

namespace AP_VideoTX

theorem power_level_inactive_self (l : PowerLevel) (h : l.active = .Inactive) :
    ({ l with active := .Inactive } : PowerLevel) = l := by
  cases l
  simp only at h
  rw [h]

/-- The default case of `init()` on a table whose slots 1 to `n` are sorted by mw: the
entries of these slots above `_max_power_mw` are Inactive afterwards, the rest of the
table is as before. -/
theorem init_cap_entries (n : Nat) (s : AP_VideoTX)
    (hsort : ∀ i j, 1 ≤ i → i ≤ j → j ≤ n → (s.power_level i).mw ≤ (s.power_level j).mw)
    (hlen : n < s._power_levels.length) :
    (init_cap n s)._max_power_mw = s._max_power_mw
    ∧ (init_cap n s)._power_levels.length = s._power_levels.length
    ∧ ∀ k, (init_cap n s).power_level k =
        if 1 ≤ k ∧ k ≤ n ∧ ((s.power_level k).mw : Int) > s._max_power_mw.get then
          { s.power_level k with active := .Inactive }
        else s.power_level k := by
  induction n generalizing s with
  | zero =>
    refine ⟨rfl, rfl, ?_⟩
    intro k
    rw [if_neg (by omega)]
    rfl
  | succ n ih =>
    unfold init_cap
    by_cases hact : (s.power_level (n + 1)).active ≠ .Inactive
    · rw [if_pos hact]
      by_cases hmw : ((s.power_level (n + 1)).mw : Int) > s._max_power_mw.get
      · rw [if_pos hmw]
        have hw : ∀ k, (s.write_active (n + 1) .Inactive).power_level k =
            if k = n + 1 then { s.power_level k with active := .Inactive }
            else s.power_level k := by
          intro k
          rw [power_level_write_active]
          by_cases hk : k = n + 1
          · rw [if_pos ⟨hk, by omega⟩, if_pos hk, hk]
          · rw [if_neg (fun h => hk h.1), if_neg hk]
        have hmax : (s.write_active (n + 1) .Inactive)._max_power_mw = s._max_power_mw :=
          (write_level_fields s _ _).2.2.1
        obtain ⟨h1, h2, h3⟩ := ih (s.write_active (n + 1) .Inactive)
          (by
            intro i j hi hij hj
            rw [hw i, hw j, if_neg (by omega), if_neg (by omega)]
            exact hsort i j hi hij (by omega))
          (by rw [length_write_active]; omega)
        refine ⟨by rw [h1, hmax], by rw [h2, length_write_active], ?_⟩
        intro k
        rw [h3 k, hmax, hw k]
        by_cases hk : k = n + 1
        · rw [if_pos hk, if_neg (by omega), if_pos ⟨by omega, by omega, by rw [hk]; exact hmw⟩]
        · rw [if_neg hk]
          by_cases hc : 1 ≤ k ∧ k ≤ n ∧ ((s.power_level k).mw : Int) > s._max_power_mw.get
          · rw [if_pos hc, if_pos ⟨hc.1, by omega, hc.2.2⟩]
          · rw [if_neg hc, if_neg]
            rintro ⟨h1, h2, h3⟩
            exact hc ⟨h1, by omega, h3⟩
      · rw [if_neg hmw]
        refine ⟨rfl, rfl, ?_⟩
        intro k
        rw [if_neg]
        rintro ⟨h1, h2, h3⟩
        have := hsort k (n + 1) h1 h2 (Nat.le_refl _)
        omega
    · rw [if_neg hact]
      have hin : (s.power_level (n + 1)).active = .Inactive := not_not.1 hact
      obtain ⟨h1, h2, h3⟩ := ih s
        (fun i j hi hij hj => hsort i j hi hij (by omega)) (by omega)
      refine ⟨h1, h2, ?_⟩
      intro k
      rw [h3 k]
      by_cases hk : k = n + 1
      · rw [if_neg (by omega), hk]
        split
        · rw [power_level_inactive_self _ hin]
        · rfl
      · by_cases hc : 1 ≤ k ∧ k ≤ n ∧ ((s.power_level k).mw : Int) > s._max_power_mw.get
        · rw [if_pos hc, if_pos ⟨hc.1, by omega, hc.2.2⟩]
        · rw [if_neg hc, if_neg]
          rintro ⟨h1, h2, h3⟩
          exact hc ⟨h1, by omega, h3⟩

theorem power_level_of_default (s : AP_VideoTX) (h : s._power_levels = default_power_levels)
    (k : Nat) : s.power_level k = default_power_levels.getD k ⟨0, 0, 0, 0, .Unknown⟩ := by
  unfold power_level
  rw [h]

/-- The default case of `init()` on the initial table: the cap reaches every entry. -/
theorem init_cap_default (s : AP_VideoTX) (h : s._power_levels = default_power_levels)
    (hM : 0 ≤ s._max_power_mw.get) (k : Nat) :
    (init_cap (VTX_MAX_POWER_LEVELS - 1) s).power_level k =
      if ((s.power_level k).mw : Int) > s._max_power_mw.get then
        { s.power_level k with active := .Inactive }
      else s.power_level k := by
  have hpl := power_level_of_default s h
  have h18 : init_cap (VTX_MAX_POWER_LEVELS - 1) s = init_cap 17 s := by
    show init_cap (17 + 1) s = init_cap 17 s
    rw [init_cap, if_neg (by rw [hpl]; decide)]
  rw [h18]
  obtain ⟨-, -, h3⟩ := init_cap_entries 17 s
    (by
      intro i j _ hij hj
      rw [hpl i, hpl j]
      exact default_power_levels_sorted j (by show j < 18; omega) i hij)
    (by rw [h]; decide)
  rw [h3 k]
  by_cases hk : 1 ≤ k ∧ k ≤ 17
  · by_cases hmw : ((s.power_level k).mw : Int) > s._max_power_mw.get
    · rw [if_pos ⟨hk.1, hk.2, hmw⟩, if_pos hmw]
    · rw [if_neg (fun hc => hmw hc.2.2), if_neg hmw]
  · rw [if_neg (fun hc => hk ⟨hc.1, hc.2.1⟩)]
    have hz : (s.power_level k).mw = 0 := by
      rw [hpl]
      by_cases hk0 : k = 0
      · rw [hk0]; rfl
      · by_cases hk18 : k = 18
        · rw [hk18]; rfl
        · rw [List.getD_eq_default _ _ (by simp only [default_power_levels, List.length]; omega)]
    rw [if_neg (by rw [hz]; simpa using hM)]

end AP_VideoTX

namespace AP_VideoTX

theorem init_clamp_model (s : AP_VideoTX) : s.init_clamp.model = s.model := by
  unfold model
  rw [(init_clamp_fields s).2.2.2.1]

theorem init_clamp_power_level (s : AP_VideoTX) (k : Nat) :
    s.init_clamp.power_level k = s.power_level k := by
  unfold power_level
  rw [(init_clamp_fields s).1]

/-- C21: `init()` with the GENERIC model (or any model value without a case of its own in
the `switch`) on the initial power table and a cap `max_power_mw = M ≥ 0`: afterwards
every entry whose mw exceeds `M` is Inactive, every entry whose mw is at most `M` is as
before, and no entry changes its level id, mw, dbm or dac.  With `M = 800` the entries of
1000, 1200, 1600, 2000, 2500, 3000, 4000, 5000, 7500 and 10000 mW are Inactive and those
of 800 mW and below are unchanged. -/
theorem init_generic_caps_levels (s : AP_VideoTX) (hinit : s._initialized = false)
    (hm : s.model ≠ Model_D1 ∧ s.model ≠ Model_FXR10 ∧ s.model ≠ Model_CUSTOM)
    (h : s._power_levels = default_power_levels) (hM : 0 ≤ s._max_power_mw.get) :
    (∀ i, i < VTX_MAX_POWER_LEVELS →
        (((s.power_level i).mw : Int) > s._max_power_mw.get →
          (s.init.1.power_level i).active = .Inactive)
        ∧ (((s.power_level i).mw : Int) ≤ s._max_power_mw.get →
          s.init.1.power_level i = s.power_level i)
        ∧ (s.init.1.power_level i).level = (s.power_level i).level
        ∧ (s.init.1.power_level i).mw = (s.power_level i).mw
        ∧ (s.init.1.power_level i).dbm = (s.power_level i).dbm
        ∧ (s.init.1.power_level i).dac = (s.power_level i).dac)
    ∧ (s._max_power_mw.get = 800 →
        (∀ i, i < VTX_MAX_POWER_LEVELS →
          (s.power_level i).mw ∈ [1000, 1200, 1600, 2000, 2500, 3000, 4000, 5000, 7500, 10000] →
          (s.init.1.power_level i).active = .Inactive)
        ∧ (∀ i, i < VTX_MAX_POWER_LEVELS → (s.power_level i).mw ≤ 800 →
          s.init.1.power_level i = s.power_level i)) := by
  have hentry : ∀ i, s.init.1.power_level i =
      if ((s.power_level i).mw : Int) > s._max_power_mw.get then
        { s.power_level i with active := .Inactive }
      else s.power_level i := by
    intro i
    rw [init_power_level s hinit i]
    have hsw : s.init_clamp.init_switch = init_cap (VTX_MAX_POWER_LEVELS - 1) s.init_clamp := by
      unfold init_switch
      rw [init_clamp_model, if_neg hm.1, if_neg hm.2.1, if_neg hm.2.2]
    rw [hsw, init_cap_default s.init_clamp (by rw [(init_clamp_fields s).1, h])
      (by rw [(init_clamp_fields s).2.1]; exact hM) i, init_clamp_power_level,
      (init_clamp_fields s).2.1]
  have hall : ∀ i, i < VTX_MAX_POWER_LEVELS →
      (((s.power_level i).mw : Int) > s._max_power_mw.get →
        (s.init.1.power_level i).active = .Inactive)
      ∧ (((s.power_level i).mw : Int) ≤ s._max_power_mw.get →
        s.init.1.power_level i = s.power_level i)
      ∧ (s.init.1.power_level i).level = (s.power_level i).level
      ∧ (s.init.1.power_level i).mw = (s.power_level i).mw
      ∧ (s.init.1.power_level i).dbm = (s.power_level i).dbm
      ∧ (s.init.1.power_level i).dac = (s.power_level i).dac := by
    intro i _
    rw [hentry i]
    by_cases hmw : ((s.power_level i).mw : Int) > s._max_power_mw.get
    · rw [if_pos hmw]
      exact ⟨fun _ => rfl, fun hle => absurd hmw (by omega), rfl, rfl, rfl, rfl⟩
    · rw [if_neg hmw]
      exact ⟨fun hgt => absurd hgt hmw, fun _ => rfl, rfl, rfl, rfl, rfl⟩
  refine ⟨hall, ?_⟩
  intro h800
  refine ⟨?_, ?_⟩
  · intro i hi hmem
    refine (hall i hi).1 ?_
    rw [h800]
    simp only [List.mem_cons, List.mem_singleton, List.not_mem_nil, or_false] at hmem
    omega
  · intro i hi hle
    refine (hall i hi).2.1 ?_
    rw [h800]
    omega

/-- C21 on the enabled module with MAX_POWER 800: the 1000 mW entry becomes Inactive, the
800 mW entry stays Unknown. -/
theorem init_generic_caps_levels_witness :
    capped_800_state._initialized = false
    ∧ capped_800_state._max_power_mw.get = 800
    ∧ (capped_800_state.power_level 8).mw = 1000
    ∧ (capped_800_state.init.1.power_level 8).active = .Inactive
    ∧ capped_800_state.init.1.power_level 7 = ⟨3, 800, 29, 40, .Unknown⟩ :=
  have h := init_generic_caps_levels capped_800_state rfl
    ⟨by decide, by decide, by decide⟩ rfl (by decide)
  ⟨rfl, by decide, by decide, (h.2 (by decide)).1 8 (by decide) (by decide),
    ((h.2 (by decide)).2 7 (by decide) (by decide)).trans (by decide)⟩

end AP_VideoTX

/-! ## The D1 case of `init()` -/

theorem for_while_sim {σ τ : Type} (R : σ → τ → Prop)
    (g1 : Nat → σ → Bool) (b1 : Nat → σ → σ) (g2 : Nat → τ → Bool) (b2 : Nat → τ → τ)
    (hg : ∀ i a b, R a b → g1 i a = g2 i b)
    (hb : ∀ i a b, R a b → R (b1 i a) (b2 i b)) (n i : Nat) (a : σ) (b : τ) (h : R a b) :
    R (for_while g1 b1 n i a) (for_while g2 b2 n i b) := by
  induction n generalizing i a b with
  | zero => exact h
  | succ n ih =>
    unfold for_while
    rw [hg i a b h]
    split
    · exact ih (i + 1) _ _ (hb i a b h)
    · exact h

namespace AP_VideoTX

theorem power_level_congr (s t : AP_VideoTX) (h : s._power_levels = t._power_levels) (k : Nat) :
    s.power_level k = t.power_level k := by
  unfold power_level
  rw [h]

theorem write_active_congr (s t : AP_VideoTX) (h : s._power_levels = t._power_levels)
    (i : Nat) (a : PowerActive) :
    (s.write_active i a)._power_levels = (t.write_active i a)._power_levels := by
  unfold write_active write_level power_level
  simp only
  rw [h]

/-- The state part of `init_D1_warned` is `init_D1`. -/
theorem init_D1_warned_state (s : AP_VideoTX) : (init_D1_warned s).1 = s.init_D1 := by
  unfold init_D1_warned init_D1
  lift_lets
  extract_lets s1 s2
  have h := for_while_sim
    (fun (a : Nat × AP_VideoTX × List Nat) (b : Nat × AP_VideoTX) => a.1 = b.1 ∧ a.2.1 = b.2)
    (fun _ (js : Nat × AP_VideoTX × List Nat) => decide (js.1 < VTX_MAX_POWER_LEVELS))
    (fun i (js : Nat × AP_VideoTX × List Nat) =>
      if (js.1 : Int) ≥ js.2.1._num_active_levels.get
          ∨ (js.2.1.power_level i).mw < D1_mws.getD js.1 0 then
        (js.1, js.2.1.write_active i .Inactive, js.2.2)
      else if (js.2.1.power_level i).mw ≥ D1_mws.getD js.1 0 then
        (js.1 + 1, js.2.1,
          if (js.2.1.power_level i).mw > D1_mws.getD js.1 0 then
            js.2.2 ++ [D1_mws.getD js.1 0]
          else js.2.2)
      else js)
    (fun _ (js : Nat × AP_VideoTX) => decide (js.1 < VTX_MAX_POWER_LEVELS))
    (fun i (js : Nat × AP_VideoTX) =>
      if (js.1 : Int) ≥ js.2._num_active_levels.get
          ∨ (js.2.power_level i).mw < D1_mws.getD js.1 0 then
        (js.1, js.2.write_active i .Inactive)
      else if (js.2.power_level i).mw ≥ D1_mws.getD js.1 0 then (js.1 + 1, js.2)
      else js)
    (by
      rintro i ⟨j, t, w⟩ ⟨j', t'⟩ ⟨hj, ht⟩
      simp only at hj ht
      subst hj ht
      rfl)
    (by
      rintro i ⟨j, t, w⟩ ⟨j', t'⟩ ⟨hj, ht⟩
      simp only at hj ht
      subst hj ht
      simp only
      split
      · exact ⟨rfl, rfl⟩
      · split
        · exact ⟨rfl, rfl⟩
        · exact ⟨rfl, rfl⟩)
    VTX_MAX_POWER_LEVELS 0 (0, s2, []) (0, s2) ⟨rfl, rfl⟩
  exact h.2

/-- The table and the warnings of the D1 case depend on the power table only. -/
theorem init_D1_warned_congr (s t : AP_VideoTX) (h : s._power_levels = t._power_levels) :
    (init_D1_warned s).1._power_levels = (init_D1_warned t).1._power_levels
    ∧ (init_D1_warned s).2 = (init_D1_warned t).2 := by
  unfold init_D1_warned
  lift_lets
  extract_lets s1 s2 t1 t2
  have h := for_while_sim
    (fun (a b : Nat × AP_VideoTX × List Nat) =>
      a.1 = b.1 ∧ a.2.1._power_levels = b.2.1._power_levels
        ∧ a.2.1._num_active_levels.get = b.2.1._num_active_levels.get ∧ a.2.2 = b.2.2)
    (fun _ (js : Nat × AP_VideoTX × List Nat) => decide (js.1 < VTX_MAX_POWER_LEVELS))
    (fun i (js : Nat × AP_VideoTX × List Nat) =>
      if (js.1 : Int) ≥ js.2.1._num_active_levels.get
          ∨ (js.2.1.power_level i).mw < D1_mws.getD js.1 0 then
        (js.1, js.2.1.write_active i .Inactive, js.2.2)
      else if (js.2.1.power_level i).mw ≥ D1_mws.getD js.1 0 then
        (js.1 + 1, js.2.1,
          if (js.2.1.power_level i).mw > D1_mws.getD js.1 0 then
            js.2.2 ++ [D1_mws.getD js.1 0]
          else js.2.2)
      else js)
    (fun _ (js : Nat × AP_VideoTX × List Nat) => decide (js.1 < VTX_MAX_POWER_LEVELS))
    (fun i (js : Nat × AP_VideoTX × List Nat) =>
      if (js.1 : Int) ≥ js.2.1._num_active_levels.get
          ∨ (js.2.1.power_level i).mw < D1_mws.getD js.1 0 then
        (js.1, js.2.1.write_active i .Inactive, js.2.2)
      else if (js.2.1.power_level i).mw ≥ D1_mws.getD js.1 0 then
        (js.1 + 1, js.2.1,
          if (js.2.1.power_level i).mw > D1_mws.getD js.1 0 then
            js.2.2 ++ [D1_mws.getD js.1 0]
          else js.2.2)
      else js)
    (by
      rintro i ⟨j, a, w⟩ ⟨j', b, w'⟩ ⟨hj, -, -, -⟩
      simp only at hj
      subst hj
      rfl)
    (by
      rintro i ⟨j, a, w⟩ ⟨j', b, w'⟩ ⟨hj, ht, hn, hw⟩
      simp only at hj ht hn hw
      subst hj hw
      simp only
      rw [power_level_congr a b ht i, hn]
      split
      · exact ⟨rfl, write_active_congr a b ht i _, hn, rfl⟩
      · split
        · exact ⟨rfl, ht, hn, rfl⟩
        · exact ⟨rfl, ht, hn, rfl⟩)
    VTX_MAX_POWER_LEVELS 0 (0, s2, []) (0, t2, []) ⟨rfl, h, rfl, rfl⟩
  exact ⟨h.2.1, h.2.2.2⟩

end AP_VideoTX

theorem for_while_inv {σ : Type} (P : σ → Prop) (g : Nat → σ → Bool) (b : Nat → σ → σ)
    (hb : ∀ i a, P a → P (b i a)) (n i : Nat) (a : σ) (h : P a) :
    P (for_while g b n i a) := by
  induction n generalizing i a with
  | zero => exact h
  | succ n ih =>
    unfold for_while
    split
    · exact ih (i + 1) _ (hb i a h)
    · exact h

namespace AP_VideoTX

theorem same_settings_refl (s : AP_VideoTX) : same_settings s s :=
  ⟨rfl, rfl, rfl, rfl, rfl, rfl⟩

theorem same_settings_trans {s t u : AP_VideoTX} (h1 : same_settings s t)
    (h2 : same_settings t u) : same_settings s u :=
  ⟨h2.1.trans h1.1, h2.2.1.trans h1.2.1, h2.2.2.1.trans h1.2.2.1,
    h2.2.2.2.1.trans h1.2.2.2.1, h2.2.2.2.2.1.trans h1.2.2.2.2.1,
    h2.2.2.2.2.2.trans h1.2.2.2.2.2⟩

theorem same_settings_write_level (s : AP_VideoTX) (i : Nat) (f : PowerLevel → PowerLevel) :
    same_settings s (s.write_level i f) :=
  ⟨rfl, rfl, rfl, rfl, rfl, rfl⟩

theorem same_settings_write_active (s : AP_VideoTX) (i : Nat) (a : PowerActive) :
    same_settings s (s.write_active i a) :=
  ⟨rfl, rfl, rfl, rfl, rfl, rfl⟩

/-- The D1 case of `init()` sets the cap to 2500 and the number of levels to 4 and keeps
the settings and the power value table. -/
theorem init_D1_fields (s : AP_VideoTX) :
    s.init_D1._max_power_mw.get = 2500
    ∧ s.init_D1._num_active_levels.get = 4
    ∧ s.init_D1._power_vals = s._power_vals
    ∧ same_settings s s.init_D1 := by
  unfold init_D1
  lift_lets
  extract_lets s1 s2
  exact for_while_inv
    (fun (js : Nat × AP_VideoTX) =>
      js.2._max_power_mw.get = 2500 ∧ js.2._num_active_levels.get = 4
        ∧ js.2._power_vals = s._power_vals ∧ same_settings s js.2)
    _ _
    (by
      rintro i ⟨j, t⟩ ⟨h1, h2, h3, h4⟩
      simp only at h1 h2 h3 h4
      simp only
      split
      · exact ⟨h1, h2, h3, same_settings_trans h4 (same_settings_write_active t i _)⟩
      · split
        · exact ⟨h1, h2, h3, h4⟩
        · exact ⟨h1, h2, h3, h4⟩)
    VTX_MAX_POWER_LEVELS 0 (0, s2) ⟨rfl, rfl, rfl, same_settings_refl s⟩

theorem init_switch_D1 (s : AP_VideoTX) (hm : s.model = Model_D1) :
    s.init_clamp.init_switch = s.init_clamp.init_D1 := by
  unfold init_switch
  rw [init_clamp_model, if_pos hm]

/-- C22: `init()` with the model D1 on the initial power table: `max_power_mw` becomes
2500 and `num_active_levels` 4; every entry whose mw is not one of 25, 500, 1000 and 2500
is Inactive afterwards (the entries above 2500 mW and the 0 mW entries among them); the
four entries of 25, 500, 1000 and 2500 mW are as before; no entry changes its level id,
mw, dbm or dac; and no "lacks predefined level" warning is sent. -/
theorem init_D1_levels (s : AP_VideoTX) (hinit : s._initialized = false)
    (hm : s.model = Model_D1) (h : s._power_levels = default_power_levels) :
    s.init.1._max_power_mw.get = 2500
    ∧ s.init.1._num_active_levels.get = 4
    ∧ (∀ i, i < VTX_MAX_POWER_LEVELS →
        ((s.power_level i).mw ∉ [25, 500, 1000, 2500] →
          (s.init.1.power_level i).active = .Inactive)
        ∧ ((s.power_level i).mw ∈ [25, 500, 1000, 2500] →
          s.init.1.power_level i = s.power_level i)
        ∧ (s.init.1.power_level i).level = (s.power_level i).level
        ∧ (s.init.1.power_level i).mw = (s.power_level i).mw
        ∧ (s.init.1.power_level i).dbm = (s.power_level i).dbm
        ∧ (s.init.1.power_level i).dac = (s.power_level i).dac)
    ∧ init_warnings s = [] := by
  have hcl : s.init_clamp._power_levels = initial_state._power_levels := by
    rw [(init_clamp_fields s).1, h]
    rfl
  obtain ⟨hc1, hc2⟩ := init_D1_warned_congr s.init_clamp initial_state hcl
  obtain ⟨hf1, hf2, -, -⟩ := init_D1_fields s.init_clamp
  have hstep := init_steps s hinit
  refine ⟨?_, ?_, ?_, ?_⟩
  · rw [hstep, init_switch_D1 s hm]
    exact hf1
  · rw [hstep, init_switch_D1 s hm]
    exact hf2
  · have key : ∀ i, i < VTX_MAX_POWER_LEVELS →
        ((initial_state.power_level i).mw ∉ [25, 500, 1000, 2500] →
          ((init_D1_warned initial_state).1.power_level i).active = .Inactive)
        ∧ ((initial_state.power_level i).mw ∈ [25, 500, 1000, 2500] →
          (init_D1_warned initial_state).1.power_level i = initial_state.power_level i)
        ∧ ((init_D1_warned initial_state).1.power_level i).level
            = (initial_state.power_level i).level
        ∧ ((init_D1_warned initial_state).1.power_level i).mw
            = (initial_state.power_level i).mw
        ∧ ((init_D1_warned initial_state).1.power_level i).dbm
            = (initial_state.power_level i).dbm
        ∧ ((init_D1_warned initial_state).1.power_level i).dac
            = (initial_state.power_level i).dac := by
      decide
    intro i hi
    have e1 : s.init.1.power_level i = (init_D1_warned initial_state).1.power_level i := by
      rw [init_power_level s hinit i, init_switch_D1 s hm, ← init_D1_warned_state]
      exact power_level_congr _ _ hc1 i
    have e2 : s.power_level i = initial_state.power_level i :=
      power_level_congr _ _ (by rw [h]; rfl) i
    rw [e1, e2]
    exact key i hi
  · unfold init_warnings
    rw [if_neg (by rw [hinit]; exact Bool.false_ne_true)]
    show (if s.init_clamp.model = Model_D1 then (init_D1_warned s.init_clamp).2 else []) = []
    rw [init_clamp_model, if_pos hm, hc2]
    decide

/-- C22 on the enabled module with the model D1: the 100 mW entry becomes Inactive, the
500 mW entry stays Unknown. -/
theorem init_D1_levels_witness :
    d1_state._initialized = false ∧ d1_state.model = Model_D1
    ∧ d1_state.init.1._max_power_mw.get = 2500
    ∧ d1_state.init.1._num_active_levels.get = 4
    ∧ (d1_state.init.1.power_level 2).active = .Inactive
    ∧ d1_state.init.1.power_level 5 = ⟨2, 500, 27, 25, .Unknown⟩
    ∧ init_warnings d1_state = [] :=
  have h := init_D1_levels d1_state rfl (by decide) rfl
  ⟨rfl, by decide, h.1, h.2.1, (h.2.2.1 2 (by decide)).1 (by decide),
    ((h.2.2.1 5 (by decide)).2.1 (by decide)).trans (by decide), h.2.2.2⟩

end AP_VideoTX

/-! ## The FXR10 case of `init()` -/

theorem for_loop_inv {σ : Type} (P : σ → Prop) (b : Nat → σ → σ)
    (hb : ∀ i a, P a → P (b i a)) (n i : Nat) (a : σ) (h : P a) : P (for_loop b n i a) := by
  induction n generalizing i a with
  | zero => exact h
  | succ n ih =>
    unfold for_loop
    exact ih (i + 1) _ (hb i a h)

namespace AP_VideoTX

/-- An entry after `validate_cpowlevs()`: Active when a slot of the power value table
holds its mw, Inactive otherwise, the other members as before. -/
theorem validate_cpowlevs_entry (s : AP_VideoTX)
    (hlen : s._power_levels.length = VTX_MAX_POWER_LEVELS) (i : Nat)
    (hi : i < VTX_MAX_POWER_LEVELS) :
    ((∃ j, j < VTX_MAX_ADJUSTABLE_POWER_LEVELS ∧ (s.power_val j).mw = (s.power_level i).mw) →
        s.validate_cpowlevs.power_level i = { s.power_level i with active := .Active })
    ∧ ((¬ ∃ j, j < VTX_MAX_ADJUSTABLE_POWER_LEVELS
          ∧ (s.power_val j).mw = (s.power_level i).mw) →
        s.validate_cpowlevs.power_level i = { s.power_level i with active := .Inactive }) := by
  obtain ⟨-, -, h3⟩ := validate_cpowlevs_entries s hlen
  rw [h3 i, if_pos hi]
  cases hres : for_return (fun j =>
      if (s.power_val j).mw = (s.power_level i).mw then some j else none)
      VTX_MAX_ADJUSTABLE_POWER_LEVELS 0 with
  | none =>
    simp only [Option.isSome_none, Bool.false_eq_true, if_false]
    refine ⟨?_, fun _ => trivial⟩
    rintro ⟨j, hj, hmw⟩
    have := (for_return_eq_none _ _ _).1 hres j (Nat.zero_le j) (by omega)
    rw [if_pos hmw] at this
    cases this
  | some r =>
    simp only [Option.isSome_some, if_true]
    refine ⟨fun _ => trivial, ?_⟩
    intro hno
    obtain ⟨k, -, hk, hb, -⟩ := (for_return_eq_some _ _ _ _).1 hres
    exfalso
    apply hno
    refine ⟨k, by omega, ?_⟩
    by_contra hne
    rw [if_neg hne] at hb
    cases hb

theorem validate_cpowlevs_fields (s : AP_VideoTX) :
    s.validate_cpowlevs._max_power_mw = s._max_power_mw
    ∧ s.validate_cpowlevs._num_active_levels = s._num_active_levels
    ∧ s.validate_cpowlevs._current_power = s._current_power
    ∧ same_settings s s.validate_cpowlevs := by
  unfold validate_cpowlevs
  exact for_loop_inv
    (fun t => t._max_power_mw = s._max_power_mw
      ∧ t._num_active_levels = s._num_active_levels
      ∧ t._current_power = s._current_power ∧ same_settings s t)
    (fun i t =>
      let t1 := t.write_active i .Inactive
      match for_return
          (fun j => if (t1.power_val j).mw = (t1.power_level i).mw then some j else none)
          VTX_MAX_ADJUSTABLE_POWER_LEVELS 0 with
      | some _ => t1.write_active i .Active
      | none => t1)
    (by
      rintro i t ⟨h1, h2, h3, h4⟩
      simp only
      split
      · exact ⟨h1, h2, h3, same_settings_trans h4
          (same_settings_trans (same_settings_write_active t i _)
            (same_settings_write_active _ i _))⟩
      · exact ⟨h1, h2, h3, same_settings_trans h4 (same_settings_write_active t i _)⟩)
    VTX_MAX_POWER_LEVELS 0 s ⟨rfl, rfl, rfl, same_settings_refl s⟩

/-- A loop that writes slots of the power value table changes nothing else. -/
theorem for_loop_write_power_val (f : Nat → PowerValue) (n i : Nat) (s : AP_VideoTX) :
    for_loop (fun i t => t.write_power_val i (f i)) n i s =
      { s with _power_vals := for_loop (fun i l => l.set i (f i)) n i s._power_vals } := by
  induction n generalizing i s with
  | zero => rfl
  | succ n ih =>
    unfold for_loop
    rw [ih]
    rfl

/-- The FXR10 case of `init()`: the cap, the number of levels, the power value table and
the table entries it leaves. -/
theorem init_FXR10_entries (s : AP_VideoTX)
    (hlen : s._power_levels.length = VTX_MAX_POWER_LEVELS)
    (hv : s._power_vals.length = VTX_MAX_ADJUSTABLE_POWER_LEVELS) :
    s.init_FXR10._max_power_mw.get = 10000
    ∧ s.init_FXR10._num_active_levels.get = 5
    ∧ s.init_FXR10._power_vals
        = [⟨25, 500⟩, ⟨100, 2500⟩, ⟨200, 5000⟩, ⟨400, 7500⟩, ⟨600, 10000⟩, s.power_val 5]
    ∧ ∀ i, i < VTX_MAX_POWER_LEVELS →
        (((s.power_level i).mw ∈ [500, 2500, 5000, 7500, 10000]
            ∨ (s.power_level i).mw = (s.power_val 5).mw) →
          s.init_FXR10.power_level i = { s.power_level i with active := .Active })
        ∧ (¬ ((s.power_level i).mw ∈ [500, 2500, 5000, 7500, 10000]
            ∨ (s.power_level i).mw = (s.power_val 5).mw) →
          s.init_FXR10.power_level i = { s.power_level i with active := .Inactive }) := by
  unfold init_FXR10
  lift_lets
  extract_lets s1 s2 s3
  have hs2 : s2 = { s1 with _power_vals :=
      (for_loop (fun i l => l.set i (FXR10_pws.getD i ⟨0, 0⟩)) FXR10_pws.length 0
        s1._power_vals) } :=
    for_loop_write_power_val (fun i => FXR10_pws.getD i ⟨0, 0⟩) _ _ s1
  have hvals : s3._power_vals
      = [⟨25, 500⟩, ⟨100, 2500⟩, ⟨200, 5000⟩, ⟨400, 7500⟩, ⟨600, 10000⟩, s.power_val 5] := by
    show s2._power_vals = _
    rw [hs2]
    show for_loop (fun i l => l.set i (FXR10_pws.getD i ⟨0, 0⟩)) FXR10_pws.length 0
        s._power_vals = _
    unfold power_val
    generalize s._power_vals = l at hv
    match l, hv with
    | [a, b, c, d, e, g], _ => rfl
  have hlv : s3._power_levels = s._power_levels := by
    show s2._power_levels = _
    rw [hs2]
  have hpl : ∀ k, s3.power_level k = s.power_level k := fun k => power_level_congr _ _ hlv k
  have hlen3 : s3._power_levels.length = VTX_MAX_POWER_LEVELS := by rw [hlv, hlen]
  obtain ⟨v1, -, -⟩ := validate_cpowlevs_entries s3 hlen3
  obtain ⟨f1, f2, -, -⟩ := validate_cpowlevs_fields s3
  have hval : ∀ j, s3.power_val j =
      ([⟨25, 500⟩, ⟨100, 2500⟩, ⟨200, 5000⟩, ⟨400, 7500⟩, ⟨600, 10000⟩,
        s.power_val 5] : List PowerValue).getD j ⟨0, 0⟩ := by
    intro j
    unfold power_val
    rw [hvals]
    rfl
  refine ⟨?_, ?_, by rw [v1, hvals], ?_⟩
  · rw [f1]
    show s2._max_power_mw.get = 10000
    rw [hs2]
    rfl
  · rw [f2]
    rfl
  · intro i src hi
    have hiff : (∃ j, j < VTX_MAX_ADJUSTABLE_POWER_LEVELS
          ∧ (s3.power_val j).mw = (s3.power_level i).mw)
        ↔ ((s.power_level i).mw ∈ [500, 2500, 5000, 7500, 10000]
            ∨ (s.power_level i).mw = (s.power_val 5).mw) := by
      rw [hpl i]
      constructor
      · rintro ⟨j, hj, hmw⟩
        rw [hval j] at hmw
        have hj6 : j < 6 := hj
        interval_cases j
        · have h : (500 : Nat) = (s.power_level i).mw := hmw
          left; rw [← h]; decide
        · have h : (2500 : Nat) = (s.power_level i).mw := hmw
          left; rw [← h]; decide
        · have h : (5000 : Nat) = (s.power_level i).mw := hmw
          left; rw [← h]; decide
        · have h : (7500 : Nat) = (s.power_level i).mw := hmw
          left; rw [← h]; decide
        · have h : (10000 : Nat) = (s.power_level i).mw := hmw
          left; rw [← h]; decide
        · right; exact hmw.symm
      · rintro (hmem | heq)
        · simp only [List.mem_cons, List.mem_singleton, List.not_mem_nil, or_false] at hmem
          rcases hmem with h | h | h | h | h
          · exact ⟨0, by decide, by rw [hval, h]; rfl⟩
          · exact ⟨1, by decide, by rw [hval, h]; rfl⟩
          · exact ⟨2, by decide, by rw [hval, h]; rfl⟩
          · exact ⟨3, by decide, by rw [hval, h]; rfl⟩
          · exact ⟨4, by decide, by rw [hval, h]; rfl⟩
        · exact ⟨5, by decide, by rw [hval, heq]; rfl⟩
    obtain ⟨e1, e2⟩ := validate_cpowlevs_entry s3 hlen3 i hi
    rw [hiff, hpl i] at e1 e2
    exact ⟨e1, e2⟩

end AP_VideoTX

namespace AP_VideoTX

theorem init_fields (s : AP_VideoTX) (h : s._initialized = false) :
    s.init.1._max_power_mw = s.init_clamp.init_switch._max_power_mw
    ∧ s.init.1._num_active_levels = s.init_clamp.init_switch._num_active_levels
    ∧ s.init.1._power_vals = s.init_clamp.init_switch._power_vals
    ∧ s.init.1._current_power = s.init_clamp.init_switch.init_index := by
  rw [init_steps s h]
  exact ⟨rfl, rfl, rfl, rfl⟩

theorem init_switch_FXR10 (s : AP_VideoTX) (hm : s.model = Model_FXR10) :
    s.init_clamp.init_switch = s.init_clamp.init_FXR10 := by
  unfold init_switch
  rw [init_clamp_model, hm, if_neg (by decide), if_pos rfl]

set_option maxRecDepth 8192 in
/-- C23 fails on a new object, whose power value table is zero: the FXR10 case of
`init()` installs five values and sets `num_active_levels` to 5, slot 5 of the power value
table is not written and holds 0 mW, and `validate_cpowlevs()` compares every entry with
all six slots, so the two 0 mW entries of the power table (index 0 and the reserved last
slot) are Active after `init()`.  The switch then counts seven levels, and its top
position 4 of 5 selects the 0 mW of the reserved slot and sets PITMODE. -/
theorem init_FXR10_activates_zero_mw_entries :
    fxr10_state._initialized = false
    ∧ fxr10_state.model = Model_FXR10
    ∧ fxr10_state._power_levels = default_power_levels
    ∧ fxr10_state.power_val 5 = ⟨0, 0⟩
    ∧ fxr10_state.init.1._num_active_levels.get = 5
    ∧ fxr10_state.init.1.power_val 5 = ⟨0, 0⟩
    ∧ (fxr10_state.power_level 0).mw = 0
    ∧ (fxr10_state.power_level 0).mw ∉ [500, 2500, 5000, 7500, 10000]
    ∧ (fxr10_state.init.1.power_level 0).active = .Active
    ∧ (fxr10_state.init.1.power_level 18).active = .Active
    ∧ fxr10_state.init.1.count_power_levels = 7
    ∧ (fxr10_state.init.1.change_power 4).get_configured_options.testBit 0 = true
    ∧ (fxr10_state.init.1.change_power 3)._power_mw.get = 10000 := by
  decide

/-- What `init()` with the model FXR10 leaves on the initial power table, for every
content of the six-slot power value table: the cap 10000, `num_active_levels` 5, the five
installed power values in the slots 0 to 4 and the prior content in slot 5; an entry of
the power table is Active afterwards exactly when its mw is one of 500, 2500, 5000, 7500,
10000 or the mw of the unwritten slot 5, and Inactive otherwise. -/
theorem init_FXR10_levels (s : AP_VideoTX) (hinit : s._initialized = false)
    (hm : s.model = Model_FXR10) (h : s._power_levels = default_power_levels)
    (hv : s._power_vals.length = VTX_MAX_ADJUSTABLE_POWER_LEVELS) :
    s.init.1._max_power_mw.get = 10000
    ∧ s.init.1._num_active_levels.get = 5
    ∧ s.init.1._power_vals
        = [⟨25, 500⟩, ⟨100, 2500⟩, ⟨200, 5000⟩, ⟨400, 7500⟩, ⟨600, 10000⟩, s.power_val 5]
    ∧ ∀ i, i < VTX_MAX_POWER_LEVELS →
        ((s.init.1.power_level i).active = .Active ↔
          ((s.power_level i).mw ∈ [500, 2500, 5000, 7500, 10000]
            ∨ (s.power_level i).mw = (s.power_val 5).mw))
        ∧ (¬ ((s.power_level i).mw ∈ [500, 2500, 5000, 7500, 10000]
              ∨ (s.power_level i).mw = (s.power_val 5).mw) →
            (s.init.1.power_level i).active = .Inactive)
        ∧ (s.init.1.power_level i).level = (s.power_level i).level
        ∧ (s.init.1.power_level i).mw = (s.power_level i).mw
        ∧ (s.init.1.power_level i).dbm = (s.power_level i).dbm
        ∧ (s.init.1.power_level i).dac = (s.power_level i).dac := by
  obtain ⟨c1, -, c3, -, -⟩ := init_clamp_fields s
  obtain ⟨h1, h2, h3, h4⟩ := init_FXR10_entries s.init_clamp
    (by rw [c1, h]; rfl) (by rw [c3, hv])
  obtain ⟨g1, g2, g3, -⟩ := init_fields s hinit
  have hp5 : s.init_clamp.power_val 5 = s.power_val 5 := power_val_congr s _ c3 5
  rw [hp5] at h3 h4
  refine ⟨?_, ?_, ?_, ?_⟩
  · rw [g1, init_switch_FXR10 s hm]
    exact h1
  · rw [g2, init_switch_FXR10 s hm]
    exact h2
  · rw [g3, init_switch_FXR10 s hm]
    exact h3
  · intro i hi
    obtain ⟨e1, e2⟩ := h4 i hi
    rw [init_clamp_power_level] at e1 e2
    rw [init_power_level s hinit i, init_switch_FXR10 s hm]
    by_cases hc : (s.power_level i).mw ∈ [500, 2500, 5000, 7500, 10000]
        ∨ (s.power_level i).mw = (s.power_val 5).mw
    · rw [e1 hc]
      exact ⟨⟨fun _ => hc, fun _ => rfl⟩, fun hn => absurd hc hn, rfl, rfl, rfl, rfl⟩
    · rw [e2 hc]
      refine ⟨⟨fun hact => ?_, fun hc' => absurd hc' hc⟩, fun _ => rfl, rfl, rfl, rfl, rfl⟩
      cases hact

end AP_VideoTX

/-! ## The learners `set_power_mw`, `set_power_dac` and `set_power_val` -/

namespace AP_VideoTX

/-- What the scan of `set_power_mw(power)` finds: the first entry holding `power`, when
no entry before it holds more than `power`. -/
theorem set_power_mw_scan (s : AP_VideoTX) (p : Nat) :
    (∀ i, i < VTX_MAX_POWER_LEVELS → (s.power_level i).mw = p →
        (∀ j, j < i → (s.power_level j).mw < p) →
        s.set_power_mw p = { s with _current_power := i })
    ∧ ((¬ ∃ i, i < VTX_MAX_POWER_LEVELS ∧ (s.power_level i).mw = p
          ∧ ∀ j, j < i → (s.power_level j).mw < p) →
        s.set_power_mw p = s) := by
  unfold set_power_mw
  cases hres : for_while_return
      (fun i => decide (p ≥ (s.power_level i).mw))
      (fun i => if p = (s.power_level i).mw then some i else none)
      VTX_MAX_POWER_LEVELS 0 with
  | some r =>
    obtain ⟨k, -, hk, hb, -, hprev⟩ := (for_while_return_eq_some _ _ _ _ _).1 hres
    have hpk : p = (s.power_level k).mw := by
      by_contra hne
      rw [if_neg hne] at hb
      cases hb
    rw [if_pos hpk] at hb
    have hkr : k = r := Option.some.inj hb
    subst hkr
    have hprev' : ∀ m, m < k → (s.power_level m).mw < p := by
      intro m hm
      obtain ⟨h1, h2⟩ := hprev m (Nat.zero_le m) hm
      have hle : p ≥ (s.power_level m).mw := by simpa using h1
      have hne : p ≠ (s.power_level m).mw := by
        intro he
        rw [if_pos he] at h2
        cases h2
      omega
    simp only
    refine ⟨?_, ?_⟩
    · intro i _ hmw hlow
      have hik : i = k := by
        by_contra hne
        rcases Nat.lt_or_gt_of_ne hne with hlt | hgt
        · have := hprev' i hlt
          omega
        · have := hlow k hgt
          omega
      rw [hik]
    · intro hno
      exact absurd ⟨k, by omega, hpk.symm, hprev'⟩ hno
  | none =>
    simp only
    refine ⟨?_, fun _ => trivial⟩
    intro i hi hmw hlow
    have hsome : for_while_return
        (fun i => decide (p ≥ (s.power_level i).mw))
        (fun i => if p = (s.power_level i).mw then some i else none)
        VTX_MAX_POWER_LEVELS 0 = some i := by
      rw [for_while_return_eq_some]
      refine ⟨i, Nat.zero_le i, by omega, by rw [if_pos hmw.symm], by simp [hmw], ?_⟩
      intro m _ hm
      have := hlow m hm
      refine ⟨by simp; omega, ?_⟩
      rw [if_neg (by omega)]
    rw [hres] at hsome
    cases hsome

set_option maxRecDepth 8192 in
/-- C24 as stated fails once a non-standard level has been learned: the reserved last
slot holds 20 mW and is the only entry with that mw, the 25 mW entry is current, and
`set_power_mw(20)` leaves the current index at 1, because its scan stops at the 25 mW
entry. -/
theorem set_power_mw_misses_reserved_slot_counterexample :
    (learned_20mw_state.power_level 18).mw = 20
    ∧ (∀ j, j < 18 → (learned_20mw_state.power_level j).mw ≠ 20)
    ∧ learned_20mw_state._current_power = 1
    ∧ (learned_20mw_state.set_power_mw 20)._current_power = 1 := by
  decide

/-- C24, amended: `set_power_mw(p)` never modifies the power table or anything but the
current power index.  If some entry has mw equal to `p` and every entry before the first
such entry has an mw below `p`, the current power index becomes the index of that entry;
this is so for every `p` held by one of the slots 0 to 17 when these are sorted by mw.
If there is no such entry the state is unchanged. -/
theorem set_power_mw_first_reachable (s : AP_VideoTX) (p : Nat) :
    (s.set_power_mw p)._power_levels = s._power_levels
    ∧ s.set_power_mw p = { s with _current_power := (s.set_power_mw p)._current_power }
    ∧ (∀ i, i < VTX_MAX_POWER_LEVELS → (s.power_level i).mw = p →
        (∀ j, j < i → (s.power_level j).mw < p) →
        (s.set_power_mw p)._current_power = i)
    ∧ (sorted_by_mw s (VTX_MAX_POWER_LEVELS - 1) →
        ∀ i, i < VTX_MAX_POWER_LEVELS - 1 → (s.power_level i).mw = p →
          (∀ j, j < i → (s.power_level j).mw ≠ p) →
          (s.set_power_mw p)._current_power = i)
    ∧ ((¬ ∃ i, i < VTX_MAX_POWER_LEVELS ∧ (s.power_level i).mw = p
          ∧ ∀ j, j < i → (s.power_level j).mw < p) →
        s.set_power_mw p = s) := by
  obtain ⟨h1, h2⟩ := set_power_mw_scan s p
  have hfound : ∀ i, i < VTX_MAX_POWER_LEVELS → (s.power_level i).mw = p →
      (∀ j, j < i → (s.power_level j).mw < p) →
      (s.set_power_mw p)._current_power = i := by
    intro i hi hmw hlow
    rw [h1 i hi hmw hlow]
  have hshape : (s.set_power_mw p)._power_levels = s._power_levels
      ∧ s.set_power_mw p = { s with _current_power := (s.set_power_mw p)._current_power } := by
    by_cases hex : ∃ i, i < VTX_MAX_POWER_LEVELS ∧ (s.power_level i).mw = p
        ∧ ∀ j, j < i → (s.power_level j).mw < p
    · obtain ⟨i, hi, hmw, hlow⟩ := hex
      rw [h1 i hi hmw hlow]
      exact ⟨rfl, rfl⟩
    · rw [h2 hex]
      exact ⟨rfl, rfl⟩
  refine ⟨hshape.1, hshape.2, hfound, ?_, h2⟩
  intro hsort i hi hmw hfirst
  refine hfound i (by omega) hmw ?_
  intro j hj
  have hle := hsort j i (by omega) hi
  have hne := hfirst j hj
  omega

/-- C24, amended, on the initial table: `set_power_mw(200)` selects index 3. -/
theorem set_power_mw_first_reachable_witness :
    sorted_by_mw initial_state (VTX_MAX_POWER_LEVELS - 1)
    ∧ (initial_state.power_level 3).mw = 200
    ∧ (initial_state.set_power_mw 200)._current_power = 3 :=
  have hs : sorted_by_mw initial_state (VTX_MAX_POWER_LEVELS - 1) := by
    intro i j hij hj
    exact default_power_levels_sorted j hj i hij
  ⟨hs, by decide,
    (set_power_mw_first_reachable initial_state 200).2.2.2.1 hs 3 (by decide) (by decide)
      (by decide)⟩

end AP_VideoTX

namespace AP_VideoTX

/-- C25 fails for a dac value held by several entries: on the initial table the first
entry with dac 255 is the 100 mW entry at index 2, but `set_power_dac(255, Active)`, whose
loop does not stop at the first match, marks every entry with dac 255 Active and leaves
the current index at the last of them, 18.  `set_power_level(0x12, Active)` stops at the
first of the two entries with that level id. -/
theorem set_power_dac_255_marks_every_match :
    (initial_state.power_level 2).dac = 255
    ∧ (∀ j, j < 2 → (initial_state.power_level j).dac ≠ 255)
    ∧ initial_state._current_power = 0
    ∧ (initial_state.set_power_dac 255 .Active)._current_power = 18
    ∧ (∀ i, i < VTX_MAX_POWER_LEVELS → (initial_state.power_level i).dac = 255 →
        ((initial_state.set_power_dac 255 .Active).power_level i).active = .Active)
    ∧ (initial_state.power_level 4).active = .Unknown
    ∧ ((initial_state.set_power_dac 255 .Active).power_level 4).active = .Active
    ∧ (initial_state.set_power_level 0x12 .Active)._current_power = 4
    ∧ ((initial_state.set_power_level 0x12 .Active).power_level 6).active = .Unknown := by
  decide

set_option maxRecDepth 8192 in
/-- C26 fails for a value without an exact match: with the FXR10 power values, `cmw(30)`
resolves 30 to the 500 mW of the neighbouring slot (25, 500), and the power table entry
of 500 mW is at index 5, but `set_power_val(30, Active)` changes nothing and the current
index stays 0, because the loop that updates the power table compares the values for
equality.  The exact value 25 makes index 5 current. -/
theorem set_power_val_30_changes_nothing :
    fxr10_init_state._power_vals
        = [⟨25, 500⟩, ⟨100, 2500⟩, ⟨200, 5000⟩, ⟨400, 7500⟩, ⟨600, 10000⟩, ⟨0, 0⟩]
    ∧ fxr10_init_state.cmw 30 = 500
    ∧ (fxr10_init_state.power_level 5).mw = 500
    ∧ fxr10_init_state._current_power = 0
    ∧ fxr10_init_state.set_power_val 30 .Active = fxr10_init_state
    ∧ (fxr10_init_state.set_power_val 30 .Active)._current_power = 0
    ∧ (fxr10_init_state.set_power_val 25 .Active)._current_power = 5 := by
  decide

end AP_VideoTX

/-! ## Learning an unknown dBm value -/

namespace AP_VideoTX

set_option maxRecDepth 8192 in
/-- The instance `dbm_to_mw` is the integer nearest to `10 ^ (p / 10)` for every dBm
value whose milliwatts fit in 16 bits: `(m - 1/2) ^ 10 ≤ 10 ^ p < (m + 1/2) ^ 10`. -/
theorem dbm_to_mw_nearest (p : Nat) (hp : p ≤ 48) :
    (2 * dbm_to_mw p - 1) ^ 10 ≤ 1024 * 10 ^ p
    ∧ 1024 * 10 ^ p < (2 * dbm_to_mw p + 1) ^ 10 := by
  have h : ∀ q, q < 49 →
      (2 * dbm_to_mw q - 1) ^ 10 ≤ 1024 * 10 ^ q
      ∧ 1024 * 10 ^ q < (2 * dbm_to_mw q + 1) ^ 10 := by
    decide
  exact h p (by omega)

/-- What `set_power_dbm(p, active)` does when no entry has dbm `p`, for every conversion
`mw_of_dbm`: it rewrites the reserved last slot and makes it the current entry. -/
theorem set_power_dbm_reserved_slot (mw_of_dbm : Nat → Nat) (s : AP_VideoTX) (p : Nat)
    (a : PowerActive) (hlen : s._power_levels.length = VTX_MAX_POWER_LEVELS)
    (hcur : s._current_power < VTX_MAX_POWER_LEVELS)
    (hno : ∀ i, i < VTX_MAX_POWER_LEVELS → (s.power_level i).dbm ≠ p) :
    (s.set_power_dbm mw_of_dbm p a).power_level (VTX_MAX_POWER_LEVELS - 1)
        = ⟨255, mw_of_dbm p, p, 255, a⟩
    ∧ (s.set_power_dbm mw_of_dbm p a)._current_power = VTX_MAX_POWER_LEVELS - 1
    ∧ (∀ k, k < VTX_MAX_POWER_LEVELS - 1 →
        (s.set_power_dbm mw_of_dbm p a).power_level k = s.power_level k)
    ∧ (s.set_power_dbm mw_of_dbm p a)._power_levels.length = VTX_MAX_POWER_LEVELS := by
  have hearly : ¬ (p = (s.power_level s._current_power).dbm
      ∧ (s.power_level s._current_power).active = a) :=
    fun hc => hno _ hcur hc.1.symm
  have hloop : for_return (fun i => if p = (s.power_level i).dbm then some i else none)
      VTX_MAX_POWER_LEVELS 0 = none := by
    rw [for_return_eq_none]
    intro k _ hk
    rw [if_neg (fun hc => hno k (by omega) hc.symm)]
  have hshape : s.set_power_dbm mw_of_dbm p a =
      { (s.update_power_dbm mw_of_dbm p a).1 with
        _current_power := (s.update_power_dbm mw_of_dbm p a).2 } := by
    unfold set_power_dbm
    rw [if_neg hearly, hloop]
  obtain ⟨h1, -, h3⟩ := update_power_dbm_cases mw_of_dbm s p a hlen
  rcases h3 with ⟨i, hi, hdbm, -⟩ | ⟨-, hret, hall⟩
  · exact absurd hdbm (hno i hi)
  · rw [hshape]
    refine ⟨?_, hret, ?_, h1⟩
    · show (s.update_power_dbm mw_of_dbm p a).1.power_level (VTX_MAX_POWER_LEVELS - 1) = _
      rw [hall, if_pos rfl]
    · intro k hk
      show (s.update_power_dbm mw_of_dbm p a).1.power_level k = _
      rw [hall, if_neg (by omega)]

/-- C27 as stated fails for a dBm value whose milliwatts do not fit the 16-bit `mw`: no
entry of the initial table has dbm 50, `10 ^ (50 / 10)` is 100000, which is not below
`2 ^ 16`, and whatever 16-bit value the conversion yields, the mw that
`set_power_dbm(50, Active)` stores in the reserved slot is not 100000. -/
theorem set_power_dbm_50_mw_not_rounded_counterexample :
    initial_state._power_levels.length = VTX_MAX_POWER_LEVELS
    ∧ initial_state._current_power < VTX_MAX_POWER_LEVELS
    ∧ (∀ i, i < VTX_MAX_POWER_LEVELS → (initial_state.power_level i).dbm ≠ 50)
    ∧ 100000 ^ 10 = 10 ^ 50
    ∧ ¬ 100000 < 2 ^ 16
    ∧ ¬ ∃ mw_of_dbm : Nat → Nat, mw_of_dbm 50 < 2 ^ 16
        ∧ ((initial_state.set_power_dbm mw_of_dbm 50 .Active).power_level
            (VTX_MAX_POWER_LEVELS - 1)).mw = 100000 := by
  refine ⟨by decide, by decide, by decide, by decide, by decide, ?_⟩
  rintro ⟨mw_of_dbm, hlt, hmw⟩
  rw [(set_power_dbm_reserved_slot mw_of_dbm initial_state 50 .Active (by decide) (by decide)
    (by decide)).1] at hmw
  simp only at hmw
  omega

/-- C27, amended: learning an unknown dBm value.  On every state with the 19-slot table,
a current index inside it and no entry with dbm `p`, `set_power_dbm(p, active)` fills the
reserved last slot (index 18) with level id 255, dac 255, dbm `p` and the supplied
activity, makes index 18 the current power index and leaves the other 18 entries
unchanged, whatever the conversion yields.  For `p ≤ 48`, the dBm values whose milliwatts
fit the 16-bit `mw`, the mw stored is `round(10 ^ (p / 10))`: the integer `m` with
`(m - 1/2) ^ 10 ≤ 10 ^ p < (m + 1/2) ^ 10`; for 13 dBm it is 20. -/
theorem set_power_dbm_learns_unknown (s : AP_VideoTX) (p : Nat)
    (a : PowerActive) (hlen : s._power_levels.length = VTX_MAX_POWER_LEVELS)
    (hcur : s._current_power < VTX_MAX_POWER_LEVELS)
    (hno : ∀ i, i < VTX_MAX_POWER_LEVELS → (s.power_level i).dbm ≠ p) :
    (∀ mw_of_dbm : Nat → Nat,
        ((s.set_power_dbm mw_of_dbm p a).power_level (VTX_MAX_POWER_LEVELS - 1)).level = 255
        ∧ ((s.set_power_dbm mw_of_dbm p a).power_level (VTX_MAX_POWER_LEVELS - 1)).dac = 255
        ∧ ((s.set_power_dbm mw_of_dbm p a).power_level (VTX_MAX_POWER_LEVELS - 1)).dbm = p
        ∧ ((s.set_power_dbm mw_of_dbm p a).power_level (VTX_MAX_POWER_LEVELS - 1)).active = a
        ∧ (s.set_power_dbm mw_of_dbm p a)._current_power = VTX_MAX_POWER_LEVELS - 1
        ∧ (∀ k, k < VTX_MAX_POWER_LEVELS - 1 →
            (s.set_power_dbm mw_of_dbm p a).power_level k = s.power_level k)
        ∧ (s.set_power_dbm mw_of_dbm p a)._power_levels.length = VTX_MAX_POWER_LEVELS)
    ∧ (p ≤ 48 →
        ((s.set_power_dbm dbm_to_mw p a).power_level (VTX_MAX_POWER_LEVELS - 1)).mw < 2 ^ 16
        ∧ (2 * ((s.set_power_dbm dbm_to_mw p a).power_level (VTX_MAX_POWER_LEVELS - 1)).mw
            - 1) ^ 10 ≤ 1024 * 10 ^ p
        ∧ 1024 * 10 ^ p
          < (2 * ((s.set_power_dbm dbm_to_mw p a).power_level (VTX_MAX_POWER_LEVELS - 1)).mw
              + 1) ^ 10)
    ∧ (p = 13 →
        ((s.set_power_dbm dbm_to_mw p a).power_level (VTX_MAX_POWER_LEVELS - 1)).mw = 20) := by
  refine ⟨?_, ?_, ?_⟩
  · intro mw_of_dbm
    obtain ⟨h1, h2, h3, h4⟩ := set_power_dbm_reserved_slot mw_of_dbm s p a hlen hcur hno
    rw [h1]
    exact ⟨rfl, rfl, rfl, rfl, h2, h3, h4⟩
  · intro hp
    obtain ⟨h1, -, -, -⟩ := set_power_dbm_reserved_slot dbm_to_mw s p a hlen hcur hno
    rw [h1]
    obtain ⟨n1, n2⟩ := dbm_to_mw_nearest p hp
    refine ⟨?_, n1, n2⟩
    show dbm_to_mw p < 2 ^ 16
    unfold dbm_to_mw
    omega
  · intro h13
    obtain ⟨h1, -, -, -⟩ := set_power_dbm_reserved_slot dbm_to_mw s p a hlen hcur hno
    rw [h1, h13]
    show dbm_to_mw 13 = 20
    decide

/-- C27, amended, on the initial table for the non-standard 13 dBm: the reserved slot
holds 20 mW afterwards, the integer nearest to `10 ^ 1.3`. -/
theorem set_power_dbm_learns_unknown_witness :
    initial_state._power_levels.length = VTX_MAX_POWER_LEVELS
    ∧ initial_state._current_power < VTX_MAX_POWER_LEVELS
    ∧ (∀ i, i < VTX_MAX_POWER_LEVELS → (initial_state.power_level i).dbm ≠ 13)
    ∧ ((initial_state.set_power_dbm dbm_to_mw 13 .Active).power_level 18).mw = 20
    ∧ (2 * 20 - 1) ^ 10 ≤ 1024 * 10 ^ 13
    ∧ 1024 * 10 ^ 13 < (2 * 20 + 1) ^ 10
    ∧ (initial_state.set_power_dbm dbm_to_mw 13 .Active)._current_power = 18 :=
  have h := set_power_dbm_learns_unknown initial_state 13 .Active (by decide)
    (by decide) (by decide)
  ⟨by decide, by decide, by decide, h.2.2 rfl, by decide, by decide, (h.1 dbm_to_mw).2.2.2.2.1⟩

end AP_VideoTX

/-! ## Presets -/

namespace AP_VideoTX

/-- C28: `set_preset(n)` decodes the stored preset.  For `n ≥ 6` the state is unchanged.
For `n < 6` and a stored value `band * 10 + channel` with `band` in `[0, 16)` and
`channel` in `[0, 8)`, afterwards `get_band()` is `band` and `get_channel()` is `channel`,
and only the current band and the current channel are written: no configured parameter
is modified. -/
theorem set_preset_decodes (s : AP_VideoTX) (n : Nat) :
    (n ≥ 6 → s.set_preset n = s)
    ∧ (n < 6 → ∀ band channel : Nat, band < 16 → channel < 8 →
        (s._preset.getD n ⟨0, false⟩).get = (band : Int) * 10 + channel →
        (s.set_preset n).get_band = band
        ∧ (s.set_preset n).get_channel = channel
        ∧ s.set_preset n = { s with _current_band := band, _current_channel := channel }) := by
  refine ⟨?_, ?_⟩
  · intro hn
    unfold set_preset
    rw [if_pos hn]
  · intro hn band channel hb hc hv
    have hdiv : (s._preset.getD n ⟨0, false⟩).get.tdiv 10 = band := by
      rw [hv, Int.tdiv_eq_ediv (by omega) (by omega)]
      omega
    have hmod : (s._preset.getD n ⟨0, false⟩).get.tmod 10 = channel := by
      rw [hv, Int.tmod_eq_emod (by omega) (by omega)]
      omega
    have hu8 : ∀ k : Nat, k < 256 → uint8_t (k : Int) = k := by
      intro k hk
      unfold uint8_t
      omega
    have hshape : s.set_preset n
        = { s with _current_band := band, _current_channel := channel } := by
      unfold set_preset
      rw [if_neg (by omega)]
      simp only
      have hbv : band_valid band = true := by
        unfold band_valid MAX_BANDS
        rw [if_neg (by omega)]
      have hcv : channel_valid channel = true := by
        unfold channel_valid
        rw [if_neg (by omega)]
      rw [hdiv, hu8 band (by omega)]
      unfold set_band
      rw [if_pos hbv]
      simp only
      rw [hmod, hu8 channel (by omega)]
      unfold set_channel
      rw [if_pos hcv]
    rw [hshape]
    refine ⟨?_, rfl, rfl⟩
    unfold get_band
    simp only
    omega

end AP_VideoTX

/-! ## The power index found by `init()` -/

namespace AP_VideoTX

theorem same_settings_init_cap (n : Nat) (s : AP_VideoTX) : same_settings s (init_cap n s) := by
  induction n generalizing s with
  | zero => exact same_settings_refl s
  | succ n ih =>
    unfold init_cap
    split
    · split
      · exact same_settings_trans (same_settings_write_active s _ _) (ih _)
      · exact same_settings_refl s
    · exact ih s

theorem same_settings_init_FXR10 (s : AP_VideoTX) : same_settings s s.init_FXR10 := by
  unfold init_FXR10
  lift_lets
  extract_lets s1 s2 s3
  have hs2 : s2 = { s1 with _power_vals :=
      (for_loop (fun i l => l.set i (FXR10_pws.getD i ⟨0, 0⟩)) FXR10_pws.length 0
        s1._power_vals) } :=
    for_loop_write_power_val (fun i => FXR10_pws.getD i ⟨0, 0⟩) _ _ s1
  have h3 : same_settings s s3 := by
    show same_settings s { s2 with _num_active_levels := s2._num_active_levels.set_and_save 5 }
    rw [hs2]
    exact ⟨rfl, rfl, rfl, rfl, rfl, rfl⟩
  exact same_settings_trans h3 (validate_cpowlevs_fields s3).2.2.2

theorem same_settings_init_CUSTOM (s : AP_VideoTX) : same_settings s s.init_CUSTOM := by
  unfold init_CUSTOM
  lift_lets
  extract_lets s1
  have h1 : same_settings s s1 :=
    for_loop_inv (fun t => same_settings s t)
      (fun i t => t.write_power_val i
        ⟨uint16_t ((t._cvals.getD i ⟨0, false⟩).get), uint16_t ((t._cmws.getD i ⟨0, false⟩).get)⟩)
      (fun i t ht => same_settings_trans ht ⟨rfl, rfl, rfl, rfl, rfl, rfl⟩)
      _ 0 s (same_settings_refl s)
  exact same_settings_trans h1 (validate_cpowlevs_fields s1).2.2.2

theorem same_settings_init_switch (s : AP_VideoTX) : same_settings s s.init_switch := by
  unfold init_switch
  split
  · exact (init_D1_fields s).2.2.2
  · split
    · exact same_settings_init_FXR10 s
    · split
      · exact same_settings_init_CUSTOM s
      · exact same_settings_init_cap _ s

theorem same_standard_mw_init_switch (s : AP_VideoTX) : same_standard_mw s s.init_switch := by
  unfold init_switch
  split
  · exact same_standard_mw_init_D1 s
  · split
    · exact same_standard_mw_init_FXR10 s
    · split
      · exact same_standard_mw_init_CUSTOM s
      · exact same_standard_mw_init_cap _ s

/-- Where the loop `while (_current_power < VTX_MAX_POWER_LEVELS && _power_mw >
_power_levels[_current_power].mw) ++_current_power;` stops. -/
theorem init_power_index_spec (s : AP_VideoTX) (n cp : Nat) :
    cp ≤ init_power_index s n cp
    ∧ init_power_index s n cp ≤ cp + n
    ∧ (∀ k, cp ≤ k → k < init_power_index s n cp →
        k < VTX_MAX_POWER_LEVELS ∧ s._power_mw.get > ((s.power_level k).mw : Int))
    ∧ (init_power_index s n cp < cp + n →
        ¬ (init_power_index s n cp < VTX_MAX_POWER_LEVELS
          ∧ s._power_mw.get > ((s.power_level (init_power_index s n cp)).mw : Int))) := by
  induction n generalizing cp with
  | zero =>
    unfold init_power_index
    exact ⟨Nat.le_refl cp, Nat.le_refl cp, fun k h1 h2 => by omega, fun h => by omega⟩
  | succ n ih =>
    unfold init_power_index
    by_cases hc : cp < VTX_MAX_POWER_LEVELS ∧ s._power_mw.get > ((s.power_level cp).mw : Int)
    · rw [if_pos hc]
      obtain ⟨h1, h2, h3, h4⟩ := ih (cp + 1)
      refine ⟨by omega, by omega, ?_, fun h => h4 (by omega)⟩
      intro k hk1 hk2
      by_cases hk : k = cp
      · rw [hk]; exact hc
      · exact h3 k (by omega) hk2
    · rw [if_neg hc]
      exact ⟨Nat.le_refl cp, by omega, fun k h1 h2 => by omega, fun _ => hc⟩

end AP_VideoTX

namespace AP_VideoTX

/-- The index `init()` finds on a table whose slots 0 to 17 hold the mw of the initial
table, for a configured power between 0 and 10000: a slot below 18 that holds the largest
of these mw not above the configured power. -/
theorem init_index_default (t : AP_VideoTX)
    (hmw : ∀ k, k < VTX_MAX_POWER_LEVELS - 1 →
      (t.power_level k).mw = (default_power_levels.getD k ⟨0, 0, 0, 0, .Unknown⟩).mw)
    (hp0 : 0 ≤ t._power_mw.get) (hp1 : t._power_mw.get ≤ 10000) :
    t.init_index < VTX_MAX_POWER_LEVELS - 1
    ∧ ((t.power_level t.init_index).mw : Int) ≤ t._power_mw.get
    ∧ ∀ k, k < VTX_MAX_POWER_LEVELS - 1 → ((t.power_level k).mw : Int) ≤ t._power_mw.get →
        (t.power_level k).mw ≤ (t.power_level t.init_index).mw := by
  have h18 : VTX_MAX_POWER_LEVELS - 1 = 18 := rfl
  obtain ⟨-, -, h3, h4⟩ := init_power_index_spec t VTX_MAX_POWER_LEVELS 0
  have hsort : ∀ i j, i ≤ j → j < 18 → (t.power_level i).mw ≤ (t.power_level j).mw := by
    intro i j hij hj
    rw [hmw i (by omega), hmw j (by omega)]
    exact default_power_levels_sorted j hj i hij
  have h17 : (t.power_level 17).mw = 10000 := by rw [hmw 17 (by decide)]; rfl
  have h0 : (t.power_level 0).mw = 0 := by rw [hmw 0 (by decide)]; rfl
  unfold init_index
  simp only
  generalize init_power_index t VTX_MAX_POWER_LEVELS 0 = r at h3 h4 ⊢
  have hr17 : r ≤ 17 := by
    by_contra hgt
    have := (h3 17 (Nat.zero_le _) (by omega)).2
    omega
  have hle : t._power_mw.get ≤ ((t.power_level r).mw : Int) := by
    have hn := h4 (by show r < 0 + 19; omega)
    by_contra hgt
    exact hn ⟨by show r < 19; omega, by omega⟩
  by_cases hc : r ≠ 0 ∧ t._power_mw.get < ((t.power_level r).mw : Int)
  · rw [if_pos hc]
    have hlow := (h3 (r - 1) (Nat.zero_le _) (by omega)).2
    refine ⟨by omega, by omega, ?_⟩
    intro k hk hkp
    have hkr : k < r := by
      by_contra hge
      have := hsort r k (by omega) (by omega)
      omega
    exact hsort k (r - 1) (by omega) (by omega)
  · rw [if_neg hc]
    have heq : ((t.power_level r).mw : Int) = t._power_mw.get := by
      by_cases hr0 : r = 0
      · rw [hr0] at hle ⊢
        omega
      · have : ¬ t._power_mw.get < ((t.power_level r).mw : Int) := fun hlt => hc ⟨hr0, hlt⟩
        omega
    refine ⟨by omega, by omega, ?_⟩
    intro k _ hkp
    omega

/-- C29: `init()` rounds the configured power down to a level of the table.  On the
initial power table, for any model and every configured power `p` with `0 ≤ p ≤ 10000`,
after the first `init()` the current power index is one of the 18 standard slots, its mw
is at most `p` and is the largest mw of a standard entry that is at most `p`, the
configured power is that mw, so `get_power_mw()` equals `get_configured_power_mw()`, and
the current band, channel, frequency, options and enabled flag are the configured ones,
which `init()` does not change.  For `p = 300` the configured power becomes 200. -/
theorem init_rounds_power_down (s : AP_VideoTX) (hinit : s._initialized = false)
    (h : s._power_levels = default_power_levels)
    (hp0 : 0 ≤ s._power_mw.get) (hp1 : s._power_mw.get ≤ 10000) :
    s.init.1._current_power < VTX_MAX_POWER_LEVELS - 1
    ∧ s.init.1.get_power_mw = (s.power_level s.init.1._current_power).mw
    ∧ (s.init.1.get_power_mw : Int) ≤ s._power_mw.get
    ∧ (∀ k, k < VTX_MAX_POWER_LEVELS - 1 → ((s.power_level k).mw : Int) ≤ s._power_mw.get →
        (s.power_level k).mw ≤ s.init.1.get_power_mw)
    ∧ s.init.1._power_mw.get = (s.init.1.get_power_mw : Nat)
    ∧ s.init.1.get_configured_power_mw = s.init.1.get_power_mw
    ∧ s.init.1.get_band = s.init.1.get_configured_band
    ∧ s.init.1.get_channel = s.init.1.get_configured_channel
    ∧ s.init.1._current_frequency = s.init.1.get_configured_frequency_mhz
    ∧ s.init.1._current_options = s.init.1.get_configured_options
    ∧ s.init.1._current_enabled = decide (s.init.1._enabled.get ≠ 0)
    ∧ (s.init.1._band = s._band ∧ s.init.1._channel = s._channel
        ∧ s.init.1._frequency_mhz = s._frequency_mhz ∧ s.init.1._options = s._options
        ∧ s.init.1._enabled = s._enabled)
    ∧ (s._power_mw.get = 300 → s.init.1.get_configured_power_mw = 200) := by
  have h18 : VTX_MAX_POWER_LEVELS - 1 = 18 := rfl
  have hset : same_settings s s.init_clamp.init_switch :=
    same_settings_trans (init_clamp_fields s).2.2.2.2 (same_settings_init_switch _)
  obtain ⟨q1, q2, q3, q4, q5, q6⟩ := hset
  have hstd : same_standard_mw s s.init_clamp.init_switch :=
    same_standard_mw_trans (same_standard_mw_of_table s _ (init_clamp_fields s).1)
      (same_standard_mw_init_switch _)
  have hmw : ∀ k, k < VTX_MAX_POWER_LEVELS - 1 →
      (s.init_clamp.init_switch.power_level k).mw = (s.power_level k).mw :=
    fun k hk => hstd.2 k (by omega)
  have hdef := power_level_of_default s h
  obtain ⟨i1, i2, i3⟩ := init_index_default s.init_clamp.init_switch
    (fun k hk => by rw [hmw k hk, hdef])
    (by rw [q1]; exact hp0) (by rw [q1]; exact hp1)
  rw [q1] at i2 i3
  obtain ⟨-, -, -, g4⟩ := init_fields s hinit
  have hget : s.init.1.get_power_mw
      = (s.init_clamp.init_switch.power_level s.init_clamp.init_switch.init_index).mw := by
    unfold get_power_mw
    rw [init_power_level s hinit, g4]
  have hpm : s.init.1._power_mw.get = (s.init.1.get_power_mw : Nat) := by
    rw [hget, init_steps s hinit]
    show int16_t _ = _
    unfold int16_t
    omega
  have hlarge : ∀ k, k < VTX_MAX_POWER_LEVELS - 1 →
      ((s.power_level k).mw : Int) ≤ s._power_mw.get →
      (s.power_level k).mw ≤ s.init.1.get_power_mw := by
    intro k hk hkp
    rw [hget, ← hmw k hk]
    exact i3 k hk (by rw [hmw k hk]; exact hkp)
  have hcur : s.init.1.get_power_mw = (s.power_level s.init.1._current_power).mw := by
    rw [hget, g4, hmw _ i1]
  have hcfg : s.init.1.get_configured_power_mw = s.init.1.get_power_mw := by
    unfold get_configured_power_mw
    rw [hpm]
    have : (s.init.1.get_power_mw : Int) ≤ 10000 := by rw [hget]; omega
    unfold uint16_t
    omega
  refine ⟨by rw [g4]; exact i1, hcur, by rw [hget]; exact i2, hlarge, hpm, hcfg,
    ?_, ?_, ?_, ?_, ?_, ?_, ?_⟩
  · have hb : s.init.1._current_band = uint16_t s.init.1._band.get := by
      rw [init_steps s hinit]
    unfold get_band get_configured_band
    rw [hb]
    generalize s.init.1._band.get = v
    unfold uint16_t uint8_t
    omega
  · rw [init_steps s hinit]
    rfl
  · rw [init_steps s hinit]
    rfl
  · rw [init_steps s hinit]
    rfl
  · rw [init_steps s hinit]
  · rw [init_steps s hinit]
    exact ⟨q2, q3, q4, q5, q6⟩
  · intro h300
    rw [hcfg]
    have hlo := hlarge 3 (by decide) (by rw [hdef, h300]; decide)
    have hhi : (s.init.1.get_power_mw : Int) ≤ 300 := by rw [hget, ← h300]; exact i2
    have h3 : (s.power_level 3).mw = 200 := by rw [hdef]; rfl
    have key : ∀ k, k < 18 →
        (default_power_levels.getD k ⟨0, 0, 0, 0, .Unknown⟩).mw ≤ 300 →
        200 ≤ (default_power_levels.getD k ⟨0, 0, 0, 0, .Unknown⟩).mw →
        (default_power_levels.getD k ⟨0, 0, 0, 0, .Unknown⟩).mw = 200 := by
      decide
    rw [h3] at hlo
    rw [hcur, hdef] at hhi hlo ⊢
    exact key _ (by rw [g4]; exact i1) (by omega) hlo

/-- C29 on the enabled module with the model D1 and the configured power 300 mW: the
configured power becomes 200 mW, the mw of the current entry. -/
theorem init_rounds_power_down_witness :
    d1_state._initialized = false
    ∧ d1_state._power_levels = default_power_levels
    ∧ d1_state._power_mw.get = 300
    ∧ d1_state.init.1.get_configured_power_mw = 200
    ∧ d1_state.init.1.get_power_mw = 200
    ∧ d1_state.init.1._current_power = 3 :=
  have h := init_rounds_power_down d1_state rfl rfl (by decide) (by decide)
  ⟨rfl, rfl, by decide, h.2.2.2.2.2.2.2.2.2.2.2.2 (by decide),
    (h.2.2.2.2.2.1.symm.trans (h.2.2.2.2.2.2.2.2.2.2.2.2 (by decide))), by decide⟩

end AP_VideoTX

namespace AP_VideoTX

/-- C30 fails with the GENERIC model, MAX_POWER 800 and the configured power 1000 mW:
`init()` marks the 1000 mW entry Inactive and then selects it as the current entry and
keeps 1000 mW as the configured power, because the search for the power index compares mw
only.  With the model D1 and the configured power 300 mW it selects the 200 mW entry,
which the D1 case has just marked Inactive. -/
theorem init_selects_inactive_level :
    capped_800_state._initialized = false
    ∧ capped_800_state.model = Model_GENERIC
    ∧ capped_800_state._power_levels = default_power_levels
    ∧ capped_800_state._max_power_mw.get = 800
    ∧ capped_800_state._power_mw.get = 1000
    ∧ capped_800_state.init.1._current_power = 8
    ∧ capped_800_state.init.1.power_level 8 = ⟨0x13, 1000, 30, 0xFF, .Inactive⟩
    ∧ capped_800_state.init.1.get_configured_power_mw = 1000
    ∧ d1_state.model = Model_D1
    ∧ d1_state._power_mw.get = 300
    ∧ d1_state.init.1._current_power = 3
    ∧ d1_state.init.1.power_level 3 = ⟨1, 200, 23, 16, .Inactive⟩
    ∧ d1_state.init.1.get_configured_power_mw = 200 := by
  decide

end AP_VideoTX

/-! ## Array reads of the searches -/

namespace AP_VideoTX

/-- The traced loop of `init()` finds the index the loop finds. -/
theorem init_power_index_traced_fst (s : AP_VideoTX) (n cp : Nat) (reads : List Nat) :
    (init_power_index_traced s n cp reads).1 = init_power_index s n cp := by
  induction n generalizing cp reads with
  | zero => rfl
  | succ n ih =>
    unfold init_power_index_traced init_power_index
    by_cases h1 : cp < VTX_MAX_POWER_LEVELS
    · by_cases h2 : s._power_mw.get > ((s.power_level cp).mw : Int)
      · rw [if_pos h1, if_pos h2, if_pos ⟨h1, h2⟩]
        exact ih _ _
      · rw [if_pos h1, if_neg h2, if_neg (fun h => h2 h.2)]
    · rw [if_neg h1, if_neg (fun h => h1 h.1)]

/-- The traced loop of `init()` reads the table inside its 19 slots. -/
theorem init_power_index_traced_reads (s : AP_VideoTX) (n cp : Nat) (reads : List Nat)
    (h : ∀ k, k ∈ reads → k < VTX_MAX_POWER_LEVELS) :
    ∀ k, k ∈ (init_power_index_traced s n cp reads).2 → k < VTX_MAX_POWER_LEVELS := by
  induction n generalizing cp reads with
  | zero => exact h
  | succ n ih =>
    unfold init_power_index_traced
    have hext : ∀ k, k ∈ reads ++ [cp] → cp < VTX_MAX_POWER_LEVELS →
        k < VTX_MAX_POWER_LEVELS := by
      intro k hk hcp
      rcases List.mem_append.1 hk with hk | hk
      · exact h k hk
      · rw [List.mem_singleton.1 hk]
        exact hcp
    by_cases h1 : cp < VTX_MAX_POWER_LEVELS
    · rw [if_pos h1]
      split
      · exact ih _ _ (fun k hk => hext k hk h1)
      · exact fun k hk => hext k hk h1
    · rw [if_neg h1]
      exact h

/-- The traced search of `init()` finds the index `init()` finds. -/
theorem init_index_traced_fst (s : AP_VideoTX) : (init_index_traced s).1 = s.init_index := by
  unfold init_index_traced init_index
  have he := init_power_index_traced_fst s VTX_MAX_POWER_LEVELS 0 []
  generalize init_power_index_traced s VTX_MAX_POWER_LEVELS 0 [] = q at he ⊢
  generalize init_power_index s VTX_MAX_POWER_LEVELS 0 = r at he ⊢
  obtain ⟨r', rd⟩ := q
  simp only at he
  subst he
  simp only
  by_cases h0 : r' ≠ 0
  · rw [if_pos h0]
    by_cases hlt : s._power_mw.get < ((s.power_level r').mw : Int)
    · rw [if_pos hlt, if_pos ⟨h0, hlt⟩]
    · rw [if_neg hlt, if_neg (fun h => hlt h.2)]
  · rw [if_neg h0, if_neg (fun h => h0 h.1)]

end AP_VideoTX

namespace AP_VideoTX

/-- When the configured power exceeds the mw of all 19 entries, the search of `init()`
reads `_power_levels[19]`. -/
theorem init_index_traced_past_table (t : AP_VideoTX)
    (hall : ∀ i, i < VTX_MAX_POWER_LEVELS → t._power_mw.get > ((t.power_level i).mw : Int)) :
    VTX_MAX_POWER_LEVELS ∈ (init_index_traced t).2 := by
  have h19 : VTX_MAX_POWER_LEVELS = 19 := rfl
  obtain ⟨-, h2, -, h4⟩ := init_power_index_spec t VTX_MAX_POWER_LEVELS 0
  have hr : init_power_index t VTX_MAX_POWER_LEVELS 0 = VTX_MAX_POWER_LEVELS := by
    by_contra hne
    have hlt : init_power_index t VTX_MAX_POWER_LEVELS 0 < VTX_MAX_POWER_LEVELS := by omega
    exact h4 (by omega) ⟨hlt, hall _ hlt⟩
  have he := init_power_index_traced_fst t VTX_MAX_POWER_LEVELS 0 []
  rw [hr] at he
  unfold init_index_traced
  generalize init_power_index_traced t VTX_MAX_POWER_LEVELS 0 [] = q at he ⊢
  obtain ⟨r, rd⟩ := q
  simp only at he
  subst he
  simp only
  rw [if_pos (by decide)]
  simp

/-- When some entry holds at least the configured power, the search of `init()` reads
`_power_levels` inside its 19 slots only. -/
theorem init_index_traced_inside (t : AP_VideoTX)
    (hex : ∃ i, i < VTX_MAX_POWER_LEVELS ∧ t._power_mw.get ≤ ((t.power_level i).mw : Int)) :
    ∀ k, k ∈ (init_index_traced t).2 → k < VTX_MAX_POWER_LEVELS := by
  obtain ⟨i, hi, hle⟩ := hex
  obtain ⟨-, -, h3, -⟩ := init_power_index_spec t VTX_MAX_POWER_LEVELS 0
  have hr : init_power_index t VTX_MAX_POWER_LEVELS 0 < VTX_MAX_POWER_LEVELS := by
    by_contra hge
    have := (h3 i (Nat.zero_le i) (by omega)).2
    omega
  have he := init_power_index_traced_fst t VTX_MAX_POWER_LEVELS 0 []
  have hrd := init_power_index_traced_reads t VTX_MAX_POWER_LEVELS 0 []
    (fun k hk => absurd hk (List.not_mem_nil k))
  rw [← he] at hr
  unfold init_index_traced
  generalize init_power_index_traced t VTX_MAX_POWER_LEVELS 0 [] = q at hr hrd ⊢
  obtain ⟨r, rd⟩ := q
  simp only at hr hrd
  simp only
  intro k hk
  by_cases h0 : r ≠ 0
  · rw [if_pos h0] at hk
    simp only [List.mem_append, List.mem_singleton] at hk
    rcases hk with (hk | hk) | hk
    · exact hrd k hk
    · omega
    · rw [hk]
      split <;> omega
  · rw [if_neg h0] at hk
    simp only [List.mem_append, List.mem_singleton] at hk
    rcases hk with hk | hk
    · exact hrd k hk
    · omega

/-- C31 fails for a configured power above every entry of the table: with the initial
table and POWER 20000, a value an `int16_t` holds, the loop of `init()` runs
`_current_power` up to 19, and both the test that follows the loop and `get_power_mw()`
read `_power_levels[19]`, one slot past the table; with the zero this read yields here,
the current power index stays 19.  So it is for every state whose configured power
exceeds all 19 mw; when some entry holds at least the configured power every read stays
below 19. -/
theorem init_reads_past_power_table :
    overpowered_state._initialized = false
    ∧ overpowered_state._power_levels.length = VTX_MAX_POWER_LEVELS
    ∧ overpowered_state._power_mw.get = 20000
    ∧ int16_t 20000 = 20000
    ∧ init_index_reads overpowered_state
        = [0, 1, 2, 3, 4, 5, 6, 7, 8, 9, 10, 11, 12, 13, 14, 15, 16, 17, 18, 19, 19]
    ∧ ¬ (∀ k, k ∈ init_index_reads overpowered_state → k < VTX_MAX_POWER_LEVELS)
    ∧ overpowered_state.init.1._current_power = 19
    ∧ (∀ t : AP_VideoTX,
        (∀ i, i < VTX_MAX_POWER_LEVELS → t._power_mw.get > ((t.power_level i).mw : Int)) →
        VTX_MAX_POWER_LEVELS ∈ (init_index_traced t).2)
    ∧ (∀ t : AP_VideoTX,
        (∃ i, i < VTX_MAX_POWER_LEVELS ∧ t._power_mw.get ≤ ((t.power_level i).mw : Int)) →
        ∀ k, k ∈ (init_index_traced t).2 → k < VTX_MAX_POWER_LEVELS) := by
  have hreads : init_index_reads overpowered_state
      = [0, 1, 2, 3, 4, 5, 6, 7, 8, 9, 10, 11, 12, 13, 14, 15, 16, 17, 18, 19, 19] := by
    decide
  refine ⟨rfl, by decide, by decide, by decide, hreads, ?_, by decide,
    init_index_traced_past_table, init_index_traced_inside⟩
  intro hall
  exact absurd (hall 19 (by rw [hreads]; decide)) (by decide)

end AP_VideoTX

namespace AP_VideoTX

/-- The traced loop of `cmw` ends as the loop of `cmw` does. -/
theorem cmw_scan_traced_fst (s : AP_VideoTX) (val n i : Nat) (reads : List Nat) :
    (cmw_scan_traced s val n i reads).1 =
      for_while_exit
        (fun i => decide ((s.power_val i).val ≤ val))
        (fun i => if val = (s.power_val i).val then some (s.power_val i).mw else none) n i := by
  induction n generalizing i reads with
  | zero => rfl
  | succ n ih =>
    unfold cmw_scan_traced for_while_exit
    by_cases h1 : (s.power_val i).val ≤ val
    · by_cases h2 : val = (s.power_val i).val
      · simp only [h1, decide_True, if_true, if_pos h2]
      · simp only [h1, decide_True, if_true, if_neg h2]
        exact ih _ _
    · simp only [h1, decide_False, if_false, Bool.false_eq_true]

/-- The traced `cmw` returns what `cmw` returns. -/
theorem cmw_traced_fst (s : AP_VideoTX) (val : Nat) : (s.cmw_traced val).1 = s.cmw val := by
  unfold cmw_traced cmw
  rw [← cmw_scan_traced_fst s val VTX_MAX_ADJUSTABLE_POWER_LEVELS 0 []]
  generalize cmw_scan_traced s val VTX_MAX_ADJUSTABLE_POWER_LEVELS 0 [] = q
  obtain ⟨r, rd⟩ := q
  cases r with
  | inl mw => rfl
  | inr i =>
    simp only
    by_cases h0 : i > 0
    · rw [if_pos h0]
      by_cases hc : ((s.power_val i).mw : Int) - (val : Int)
          > (val : Int) - ((s.power_val (i - 1)).mw : Int)
      · rw [if_pos hc, if_pos ⟨h0, hc⟩]
      · rw [if_neg hc, if_neg (fun h => hc h.2)]
    · rw [if_neg h0, if_neg (fun h => h0 h.1)]

/-- The loop of `cmw` runs to its end when every slot it visits holds a value below the
one looked for. -/
theorem cmw_scan_traced_all_below (s : AP_VideoTX) (val n i : Nat) (reads : List Nat)
    (h : ∀ k, i ≤ k → k < i + n → (s.power_val k).val < val) :
    (cmw_scan_traced s val n i reads).1 = .inr (i + n) := by
  induction n generalizing i reads with
  | zero => rfl
  | succ n ih =>
    unfold cmw_scan_traced
    have hi := h i (Nat.le_refl i) (by omega)
    rw [if_pos (by omega), if_neg (by omega), ih (i + 1) _ (fun k h1 h2 => h k (by omega) (by omega))]
    congr 1
    omega

/-- When all six slots hold values below `power`, `set_power_val(power, active)` reads
`_power_vals[6]`. -/
theorem set_power_val_reads_past_table (s : AP_VideoTX) (power : Nat) (active : PowerActive)
    (h : ∀ i, i < VTX_MAX_ADJUSTABLE_POWER_LEVELS → (s.power_val i).val < power) :
    VTX_MAX_ADJUSTABLE_POWER_LEVELS ∈ set_power_val_reads s power active := by
  have hscan := cmw_scan_traced_all_below s power VTX_MAX_ADJUSTABLE_POWER_LEVELS 0 []
    (fun k _ hk => h k (by omega))
  have hcmw : VTX_MAX_ADJUSTABLE_POWER_LEVELS ∈ (s.cmw_traced power).2 := by
    unfold cmw_traced
    generalize cmw_scan_traced s power VTX_MAX_ADJUSTABLE_POWER_LEVELS 0 [] = q at hscan ⊢
    obtain ⟨r, rd⟩ := q
    simp only at hscan
    subst hscan
    simp only [Nat.zero_add]
    rw [if_pos (by decide)]
    split <;> simp
  unfold set_power_val_reads
  exact List.mem_append_left _ hcmw

/-- The reads of the loop of `get_configured_power_val()` are kept, and a loop that runs
at all reads the slot it starts at. -/
theorem get_configured_power_val_traced_reads (s : AP_VideoTX) (n i : Nat) (reads : List Nat) :
    (∀ k, k ∈ reads → k ∈ (get_configured_power_val_traced s n i reads).2)
    ∧ (0 < n → i ∈ (get_configured_power_val_traced s n i reads).2) := by
  induction n generalizing i reads with
  | zero => exact ⟨fun k hk => hk, fun h => absurd h (by decide)⟩
  | succ n ih =>
    unfold get_configured_power_val_traced
    have hin : i ∈ reads ++ [i] := List.mem_append_right _ (List.mem_singleton.2 rfl)
    split
    · split
      · exact ⟨fun k hk => List.mem_append_left _ hk, fun _ => hin⟩
      · exact ⟨fun k hk => (ih _ _).1 k (List.mem_append_left _ hk),
          fun _ => (ih _ _).1 i hin⟩
    · exact ⟨fun k hk => List.mem_append_left _ hk, fun _ => hin⟩

/-- The loop of `get_configured_power_val()` passes the slots that hold less than the
configured power. -/
theorem get_configured_power_val_traced_skip (s : AP_VideoTX) (m n i : Nat) (reads : List Nat)
    (h : ∀ k, i ≤ k → k < i + m → ((s.power_val k).mw : Int) < s._power_mw.get) :
    ∃ reads1, get_configured_power_val_traced s (m + n) i reads
      = get_configured_power_val_traced s n (i + m) reads1 := by
  induction m generalizing i reads with
  | zero => exact ⟨reads, by rw [Nat.zero_add]; rfl⟩
  | succ m ih =>
    have hi := h i (Nat.le_refl i) (by omega)
    obtain ⟨reads1, h1⟩ := ih (i + 1) (reads ++ [i]) (fun k h1 h2 => h k (by omega) (by omega))
    refine ⟨reads1, ?_⟩
    have e : m + 1 + n = (m + n) + 1 := by omega
    rw [e, get_configured_power_val_traced, if_pos (by omega), if_neg (by omega), h1]
    congr 1
    omega

/-- When all six slots hold less than the configured power, `get_configured_power_val()`
reads `_power_vals[6]`. -/
theorem get_configured_power_val_reads_past_table (s : AP_VideoTX)
    (h : ∀ i, i < VTX_MAX_ADJUSTABLE_POWER_LEVELS →
      ((s.power_val i).mw : Int) < s._power_mw.get) :
    VTX_MAX_ADJUSTABLE_POWER_LEVELS ∈ get_configured_power_val_reads s := by
  unfold get_configured_power_val_reads
  obtain ⟨reads1, h1⟩ := get_configured_power_val_traced_skip s
    VTX_MAX_ADJUSTABLE_POWER_LEVELS (VTX_MAX_POWER_LEVELS - VTX_MAX_ADJUSTABLE_POWER_LEVELS)
    0 [] (fun k _ hk => h k (by omega))
  have e : VTX_MAX_ADJUSTABLE_POWER_LEVELS
      + (VTX_MAX_POWER_LEVELS - VTX_MAX_ADJUSTABLE_POWER_LEVELS) = VTX_MAX_POWER_LEVELS := rfl
  rw [e] at h1
  rw [h1, Nat.zero_add]
  exact (get_configured_power_val_traced_reads s _ _ reads1).2 (by decide)

set_option maxRecDepth 8192 in
/-- C32 fails when every slot of the power value table lies below what is looked for.
On a new object, whose table is zero, `set_power_val(25, Active)` runs the loop of `cmw`
through all six slots and then reads `_power_vals[6]`, and so does `set_power_val(700,
Active)` after the FXR10 `init()`; with the configured power 25 mW
`get_configured_power_val()`, whose loop is bounded by `VTX_MAX_POWER_LEVELS`, reads
`_power_vals[6]` too.  So it is for every state whose six values lie below `power`, and
for every state whose six mw lie below the configured power. -/
theorem power_val_reads_past_table :
    initial_state._power_vals.length = VTX_MAX_ADJUSTABLE_POWER_LEVELS
    ∧ 6 ∈ set_power_val_reads initial_state 25 .Active
    ∧ fxr10_init_state._power_vals.length = VTX_MAX_ADJUSTABLE_POWER_LEVELS
    ∧ 6 ∈ set_power_val_reads fxr10_init_state 700 .Active
    ∧ configured_25mw_state._power_vals.length = VTX_MAX_ADJUSTABLE_POWER_LEVELS
    ∧ configured_25mw_state._power_mw.get = 25
    ∧ 6 ∈ get_configured_power_val_reads configured_25mw_state
    ∧ (∀ (s : AP_VideoTX) (power : Nat) (active : PowerActive),
        (∀ i, i < VTX_MAX_ADJUSTABLE_POWER_LEVELS → (s.power_val i).val < power) →
        VTX_MAX_ADJUSTABLE_POWER_LEVELS ∈ set_power_val_reads s power active)
    ∧ (∀ s : AP_VideoTX,
        (∀ i, i < VTX_MAX_ADJUSTABLE_POWER_LEVELS →
          ((s.power_val i).mw : Int) < s._power_mw.get) →
        VTX_MAX_ADJUSTABLE_POWER_LEVELS ∈ get_configured_power_val_reads s) :=
  ⟨by decide, by decide, by decide, by decide, by decide, by decide, by decide,
    set_power_val_reads_past_table, get_configured_power_val_reads_past_table⟩

end AP_VideoTX

/-! ## Level ids of adjacent entries -/

namespace AP_VideoTX

theorem narrowed_level_possible :
    ∀ i, i < VTX_MAX_POWER_LEVELS → ∀ b ∈ possible_level_ids.getD i [],
      narrowed_level b ∈ possible_level_ids.getD i [] := by
  decide

theorem lower_neighbour_retired :
    ∀ k, k < VTX_MAX_POWER_LEVELS - 1 → ∀ a ∈ possible_level_ids.getD k [],
      ∀ b ∈ possible_level_ids.getD (k + 1) [], a ≠ b → a = narrowed_level b →
        0xFF ∈ possible_level_ids.getD k [] ∧ a ≠ 0xFF
          ∧ ∀ x ∈ possible_level_ids.getD (k - 1) [], 1 ≤ k → x ≠ 0xFF := by
  decide

theorem upper_neighbour_retired :
    ∀ i, i < VTX_MAX_POWER_LEVELS - 1 → ∀ b ∈ possible_level_ids.getD i [],
      ∀ c ∈ possible_level_ids.getD (i + 1) [], b ≠ c → c = narrowed_level b →
        0xFF ∈ possible_level_ids.getD (i + 1) [] ∧ c ≠ 0xFF
          ∧ ∀ y ∈ possible_level_ids.getD (i + 2) [], i + 2 < VTX_MAX_POWER_LEVELS →
            y ≠ 0xFF := by
  decide

theorem one_neighbour_shares :
    ∀ i, i < VTX_MAX_POWER_LEVELS - 2 → ∀ a ∈ possible_level_ids.getD i [],
      ∀ b ∈ possible_level_ids.getD (i + 1) [], ∀ c ∈ possible_level_ids.getD (i + 2) [],
        a ≠ b → b ≠ c → a = narrowed_level b → c ≠ narrowed_level b := by
  decide

end AP_VideoTX

namespace AP_VideoTX

/-- One step of `set_power_dbm` on the level ids: entry `i` is narrowed and a neighbour
that shares the narrowed id, the lower one first, gets `0xFF`.  The step keeps every id
among the possible ones and adjacent ids distinct. -/
theorem narrowed_levels_step (L L1 : Nat → Nat) (i : Nat) (hi : i < VTX_MAX_POWER_LEVELS)
    (hLi : L1 i = narrowed_level (L i))
    (hLk : ∀ k, k ≠ i → L1 k =
      if k + 1 = i ∧ L k = narrowed_level (L i) then 0xFF
      else if k = i + 1 ∧ i < VTX_MAX_POWER_LEVELS - 1
          ∧ ¬ (i > 0 ∧ L (i - 1) = narrowed_level (L i)) ∧ L k = narrowed_level (L i) then 0xFF
      else L k)
    (hP : ∀ k, k < VTX_MAX_POWER_LEVELS → L k ∈ possible_level_ids.getD k [])
    (hA : ∀ k, k + 1 < VTX_MAX_POWER_LEVELS → L k ≠ L (k + 1)) :
    (∀ k, k < VTX_MAX_POWER_LEVELS → L1 k ∈ possible_level_ids.getD k [])
    ∧ (∀ k, k + 1 < VTX_MAX_POWER_LEVELS → L1 k ≠ L1 (k + 1)) := by
  have h19 : VTX_MAX_POWER_LEVELS = 19 := rfl
  have hlow : ∀ k, k + 1 = i → L1 k = if L k = narrowed_level (L i) then 0xFF else L k := by
    intro k hk
    rw [hLk k (by omega)]
    by_cases hc : L k = narrowed_level (L i)
    · rw [if_pos ⟨hk, hc⟩, if_pos hc]
    · rw [if_neg (fun h => hc h.2), if_neg (fun h => hc h.2.2.2), if_neg hc]
  have hup : i + 1 < VTX_MAX_POWER_LEVELS → L1 (i + 1) =
      if ¬ (i > 0 ∧ L (i - 1) = narrowed_level (L i)) ∧ L (i + 1) = narrowed_level (L i)
      then 0xFF else L (i + 1) := by
    intro hi1
    rw [hLk (i + 1) (by omega), if_neg (fun h => by omega)]
    by_cases hc : ¬ (i > 0 ∧ L (i - 1) = narrowed_level (L i))
        ∧ L (i + 1) = narrowed_level (L i)
    · rw [if_pos ⟨rfl, by omega, hc.1, hc.2⟩, if_pos hc]
    · rw [if_neg (fun h => hc ⟨h.2.2.1, h.2.2.2⟩), if_neg hc]
  have hother : ∀ k, k ≠ i → k + 1 ≠ i → k ≠ i + 1 → L1 k = L k := by
    intro k h1 h2 h3
    rw [hLk k h1, if_neg (fun h => h2 h.1), if_neg (fun h => h3 h.1)]
  -- the facts about a retired lower neighbour `k` of the entry `k + 1`
  have hlowf : ∀ k, k + 1 = i → L k = narrowed_level (L i) →
      0xFF ∈ possible_level_ids.getD k [] ∧ L k ≠ 0xFF
        ∧ (1 ≤ k → L (k - 1) ≠ 0xFF) := by
    intro k hk hc
    have hk18 : k < VTX_MAX_POWER_LEVELS - 1 := by omega
    obtain ⟨f1, f2, f3⟩ := lower_neighbour_retired k hk18 (L k) (hP k (by omega))
      (L (k + 1)) (hP (k + 1) (by omega)) (hA k (by omega)) (by rw [hc, hk])
    exact ⟨f1, f2, fun h1 => f3 (L (k - 1)) (hP (k - 1) (by omega)) h1⟩
  -- the facts about a retired upper neighbour `i + 1`
  have hupf : i + 1 < VTX_MAX_POWER_LEVELS → L (i + 1) = narrowed_level (L i) →
      0xFF ∈ possible_level_ids.getD (i + 1) [] ∧ L (i + 1) ≠ 0xFF
        ∧ (i + 2 < VTX_MAX_POWER_LEVELS → L (i + 2) ≠ 0xFF) := by
    intro hi1 hc
    obtain ⟨f1, f2, f3⟩ := upper_neighbour_retired i (by omega) (L i) (hP i hi)
      (L (i + 1)) (hP (i + 1) hi1) (hA i hi1) hc
    exact ⟨f1, f2, fun h2 => f3 (L (i + 2)) (hP (i + 2) h2) h2⟩
  refine ⟨?_, ?_⟩
  · intro k hk
    by_cases hki : k = i
    · rw [hki, hLi]
      exact narrowed_level_possible i hi _ (hP i hi)
    · by_cases hk1 : k + 1 = i
      · rw [hlow k hk1]
        by_cases hc : L k = narrowed_level (L i)
        · rw [if_pos hc]
          exact (hlowf k hk1 hc).1
        · rw [if_neg hc]
          exact hP k hk
      · by_cases hk2 : k = i + 1
        · rw [hk2, hup (by omega)]
          split
          · rename_i hc
            exact (hupf (by omega) hc.2).1
          · exact hP _ (by omega)
        · rw [hother k hki hk1 hk2]
          exact hP k hk
  · intro k hk
    by_cases hki : k = i
    · -- the pair (i, i + 1)
      rw [hki] at hk ⊢
      rw [hLi, hup hk]
      by_cases hc : ¬ (i > 0 ∧ L (i - 1) = narrowed_level (L i))
          ∧ L (i + 1) = narrowed_level (L i)
      · rw [if_pos hc]
        have := (hupf hk hc.2).2.1
        rw [hc.2] at this
        exact this
      · rw [if_neg hc]
        intro heq
        by_cases hl : i > 0 ∧ L (i - 1) = narrowed_level (L i)
        · have hi17 : i - 1 < VTX_MAX_POWER_LEVELS - 2 := by omega
          have e1 : i - 1 + 1 = i := by omega
          have e2 : i - 1 + 2 = i + 1 := by omega
          have := one_neighbour_shares (i - 1) hi17 (L (i - 1)) (hP _ (by omega))
            (L (i - 1 + 1)) (hP _ (by omega)) (L (i - 1 + 2)) (hP _ (by omega))
            (hA (i - 1) (by omega)) (by rw [e1, e2]; exact hA i hk)
            (by rw [e1]; exact hl.2)
          rw [e1, e2] at this
          exact this heq.symm
        · exact hc ⟨hl, heq.symm⟩
    · by_cases hk1 : k + 1 = i
      · -- the pair (i - 1, i)
        rw [hk1, hLi, hlow k hk1]
        by_cases hc : L k = narrowed_level (L i)
        · rw [if_pos hc]
          have := (hlowf k hk1 hc).2.1
          rw [hc] at this
          exact fun h => this h.symm
        · rw [if_neg hc]
          exact hc
      · by_cases hk2 : k = i + 1
        · -- the pair (i + 1, i + 2)
          rw [hk2] at hk ⊢
          rw [hup (by omega), hother (i + 1 + 1) (by omega) (by omega) (by omega)]
          split
          · rename_i hc
            exact fun h => (hupf (by omega) hc.2).2.2 hk h.symm
          · exact hA (i + 1) hk
        · by_cases hk3 : k + 2 = i
          · -- the pair (i - 2, i - 1)
            rw [hother k hki hk1 hk2, hlow (k + 1) (by omega)]
            by_cases hc : L (k + 1) = narrowed_level (L i)
            · rw [if_pos hc]
              have := (hlowf (k + 1) (by omega) hc).2.2 (by omega)
              rw [Nat.add_sub_cancel] at this
              exact this
            · rw [if_neg hc]
              exact hA k hk
          · by_cases hk4 : k + 1 = i + 1
            · omega
            · rw [hother k hki hk1 hk2, hother (k + 1) (by omega) (by omega) (by omega)]
              exact hA k hk

end AP_VideoTX

namespace AP_VideoTX

theorem levels_inv_of_same_levels (s t : AP_VideoTX)
    (h : ∀ k, (t.power_level k).level = (s.power_level k).level)
    (hP : levels_possible s) (hA : adjacent_levels_distinct s) :
    levels_possible t ∧ adjacent_levels_distinct t := by
  refine ⟨?_, ?_⟩
  · intro k hk
    rw [h k]
    exact hP k hk
  · intro i hi
    rw [h i, h (i + 1)]
    exact hA i hi

/-- The loop body of `set_power_dbm` keeps the level ids possible and adjacent level ids
distinct. -/
theorem levels_inv_set_power_dbm_found (s : AP_VideoTX) (i : Nat) (a : PowerActive)
    (hlen : s._power_levels.length = VTX_MAX_POWER_LEVELS) (hi : i < VTX_MAX_POWER_LEVELS)
    (hP : levels_possible s) (hA : adjacent_levels_distinct s) :
    (s.set_power_dbm_found i a)._power_levels.length = VTX_MAX_POWER_LEVELS
    ∧ levels_possible (s.set_power_dbm_found i a)
    ∧ adjacent_levels_distinct (s.set_power_dbm_found i a) := by
  obtain ⟨-, h2, h3, h4⟩ := set_power_dbm_found_entries s i a (by omega)
    (narrowed_level (s.power_level i).level) rfl
  have hstep := narrowed_levels_step (fun k => (s.power_level k).level)
    (fun k => ((s.set_power_dbm_found i a).power_level k).level) i hi
    (by
      beta_reduce
      rw [h3])
    (by
      intro k hk
      beta_reduce
      rw [h4 k hk]
      by_cases c1 : k + 1 = i ∧ (s.power_level k).level = narrowed_level (s.power_level i).level
      · rw [if_pos c1, if_pos c1]
      · rw [if_neg c1, if_neg c1]
        by_cases c2 : k = i + 1 ∧ i < VTX_MAX_POWER_LEVELS - 1
            ∧ ¬ (i > 0 ∧ (s.power_level (i - 1)).level = narrowed_level (s.power_level i).level)
            ∧ (s.power_level k).level = narrowed_level (s.power_level i).level
        · have h19 : VTX_MAX_POWER_LEVELS = 19 := rfl
          rw [if_pos ⟨c2.1, by omega, c2.2.1, c2.2.2.1, c2.2.2.2⟩, if_pos c2]
        · rw [if_neg (fun h => c2 ⟨h.1, h.2.2.1, h.2.2.2.1, h.2.2.2.2⟩), if_neg c2])
    hP hA
  exact ⟨by rw [h2, hlen], hstep.1, hstep.2⟩

/-- A call of `set_power_dbm` keeps the level ids possible and adjacent level ids
distinct. -/
theorem levels_inv_set_power_dbm (mw_of_dbm : Nat → Nat) (s : AP_VideoTX) (p : Nat)
    (a : PowerActive) (hlen : s._power_levels.length = VTX_MAX_POWER_LEVELS)
    (hP : levels_possible s) (hA : adjacent_levels_distinct s) :
    (s.set_power_dbm mw_of_dbm p a)._power_levels.length = VTX_MAX_POWER_LEVELS
    ∧ levels_possible (s.set_power_dbm mw_of_dbm p a)
    ∧ adjacent_levels_distinct (s.set_power_dbm mw_of_dbm p a) := by
  unfold set_power_dbm
  by_cases hearly : p = (s.power_level s._current_power).dbm
      ∧ (s.power_level s._current_power).active = a
  · rw [if_pos hearly]
    exact ⟨hlen, hP, hA⟩
  · rw [if_neg hearly]
    cases hres : for_return (fun i => if p = (s.power_level i).dbm then some i else none)
        VTX_MAX_POWER_LEVELS 0 with
    | some i =>
      obtain ⟨k, -, hk, hb, -⟩ := (for_return_eq_some _ _ _ _).1 hres
      have hki : k = i := by
        by_cases hpk : p = (s.power_level k).dbm
        · rw [if_pos hpk] at hb
          exact Option.some.inj hb
        · rw [if_neg hpk] at hb
          cases hb
      subst hki
      simp only
      exact levels_inv_set_power_dbm_found s k a hlen (by omega) hP hA
    | none =>
      simp only
      obtain ⟨h1, -, h3⟩ := update_power_dbm_cases mw_of_dbm s p a hlen
      have hsame : ∀ k, ((s.update_power_dbm mw_of_dbm p a).1.power_level k).level
          = (s.power_level k).level := by
        intro k
        rcases h3 with ⟨i, -, -, -, -, hall⟩ | ⟨-, -, hall⟩
        · rw [hall k]
          split
          · rename_i hki
            rw [hki]
          · rfl
        · rw [hall k]
          split
          · rename_i hki
            have hl := hP (VTX_MAX_POWER_LEVELS - 1) (by decide)
            have hids : possible_level_ids.getD (VTX_MAX_POWER_LEVELS - 1) [] = [255] := rfl
            rw [hids] at hl
            have hl' : (s.power_level (VTX_MAX_POWER_LEVELS - 1)).level = 255 :=
              List.mem_singleton.1 hl
            rw [hki, hl']
          · rfl
      obtain ⟨g1, g2⟩ := levels_inv_of_same_levels s
        { (s.update_power_dbm mw_of_dbm p a).1 with
          _current_power := (s.update_power_dbm mw_of_dbm p a).2 }
        hsame hP hA
      exact ⟨h1, g1, g2⟩

/-- Every sequence of `set_power_dbm` calls keeps the level ids possible and adjacent
level ids distinct. -/
theorem levels_inv_run_set_power_dbm (mw_of_dbm : Nat → Nat)
    (calls : List (Nat × PowerActive)) (s : AP_VideoTX)
    (hlen : s._power_levels.length = VTX_MAX_POWER_LEVELS)
    (hP : levels_possible s) (hA : adjacent_levels_distinct s) :
    levels_possible (run_set_power_dbm mw_of_dbm s calls)
    ∧ adjacent_levels_distinct (run_set_power_dbm mw_of_dbm s calls) := by
  induction calls generalizing s with
  | nil => exact ⟨hP, hA⟩
  | cons c rest ih =>
    obtain ⟨h1, h2, h3⟩ := levels_inv_set_power_dbm mw_of_dbm s c.1 c.2 hlen hP hA
    unfold run_set_power_dbm
    simp only [List.foldl_cons]
    exact ih _ h1 h2 h3

/-- The initial table holds possible level ids, and its adjacent level ids are distinct. -/
theorem levels_inv_default (s : AP_VideoTX) (h : s._power_levels = default_power_levels) :
    levels_possible s ∧ adjacent_levels_distinct s := by
  have hpl := power_level_of_default s h
  refine ⟨?_, ?_⟩
  · intro k hk
    rw [hpl]
    have key : ∀ k, k < VTX_MAX_POWER_LEVELS →
        (default_power_levels.getD k ⟨0, 0, 0, 0, .Unknown⟩).level
          ∈ possible_level_ids.getD k [] := by
      decide
    exact key k hk
  · intro i hi
    rw [hpl, hpl]
    have key : ∀ i, i < VTX_MAX_POWER_LEVELS - 1 →
        (default_power_levels.getD i ⟨0, 0, 0, 0, .Unknown⟩).level
          ≠ (default_power_levels.getD (i + 1) ⟨0, 0, 0, 0, .Unknown⟩).level := by
      decide
    exact key i (by have h19 : VTX_MAX_POWER_LEVELS = 19 := rfl; omega)

/-- C15, amended: in every power table state reachable from the initial table by any
sequence of `set_power_dbm` calls, no two adjacent Active entries share a level id: the
invalidation step of `set_power_dbm` retires an adjacent entry that holds the narrowed
id.  Adjacent entries differ in their level id whatever their activity. -/
theorem set_power_dbm_adjacent_levels_distinct (mw_of_dbm : Nat → Nat) (s : AP_VideoTX)
    (calls : List (Nat × PowerActive)) (h : s._power_levels = default_power_levels) :
    adjacent_active_levels_distinct (run_set_power_dbm mw_of_dbm s calls)
    ∧ adjacent_levels_distinct (run_set_power_dbm mw_of_dbm s calls) := by
  obtain ⟨hP, hA⟩ := levels_inv_default s h
  obtain ⟨-, g⟩ := levels_inv_run_set_power_dbm mw_of_dbm calls s (by rw [h]; rfl) hP hA
  exact ⟨fun i hi _ _ => g i hi, g⟩

/-- C15, amended, after `set_power_dbm(26, Active)` and `set_power_dbm(28, Active)` on the
initial table: the 400 mW and the 600 mW entry share the level id 2 but are not
adjacent, and the entry between them holds 0xFF. -/
theorem set_power_dbm_adjacent_levels_distinct_witness :
    initial_state._power_levels = default_power_levels
    ∧ adjacent_active_levels_distinct learned_400_600_state
    ∧ (learned_400_600_state.power_level 4).level = 2
    ∧ (learned_400_600_state.power_level 5).level = 0xFF
    ∧ (learned_400_600_state.power_level 6).level = 2 :=
  ⟨rfl,
    (set_power_dbm_adjacent_levels_distinct dbm_to_mw initial_state
      [(26, .Active), (28, .Active)] rfl).1,
    by decide, by decide, by decide⟩

end AP_VideoTX
